import Mathlib

/-!
# GrowNode: node/leaf runtime, parameter store and watering-control supervisor

A shallow embedding of `components/grownode/grownode.c`,
`components/grownode/gn_commons.c`, `components/grownode/leaves/gn_watering_control.c`
and the topic builders of `main/gn_mqtt_protocol.c`.

Conventions of the embedding

* A C string is the list of its characters, terminator left out (`CStr`).
* A handle that may be `NULL` is an `Option`.
* A pointer into a leaf's parameter list is the parameter together with the parameters
  in front of it and behind it; a pointer to a leaf is its position in the node.
* The services the code calls but does not implement (NVS flash, the esp event loop,
  the FreeRTOS queues, the MQTT client, the wall clock) are explicit: their state is
  part of the state that is passed along, and the result of every call is an input.
* A `double` is its 64 bit pattern where the code only copies it (parameter store) and
  the rational number it stands for where the code computes with it (supervisor).
* `esp_err_t` is a number with `ESP_OK = 0`; `gn_err_t` is an enumeration whose
  `GN_RET_OK` has the value of `ESP_OK` (the code compares the two freely).
-/

namespace GrowNode

/-! ## Data model (gn_commons.h, grownode_intl.h) -/

/-- A C string, without its terminating zero. -/
abbrev CStr := List Char

/-- The type `esp_err_t`. -/
abbrev esp_err_t := Nat

/-- The value `ESP_OK`. -/
def ESP_OK : esp_err_t := 0

/-- The value `ESP_ERR_NVS_NOT_FOUND` (ESP_ERR_NVS_BASE + 0x02). -/
def ESP_ERR_NVS_NOT_FOUND : esp_err_t := 0x1102

/-- The result codes of the runtime. `ESP_ERR_INVALID_ARG` is the esp-idf code that
`gn_leaf_param_set_double` returns through a `gn_err_t`. -/
inductive gn_err_t
  | GN_RET_OK
  | GN_RET_ERR
  | GN_RET_ERR_INVALID_ARG
  | GN_RET_ERR_LEAF_NOT_STARTED
  | GN_RET_ERR_NODE_NOT_STARTED
  | GN_RET_ERR_LEAF_PARAM_ACCESS_VIOLATION
  | GN_RET_ERR_EVENT_LOOP_ERROR
  | GN_RET_ERR_LEAF_NOT_FOUND
  | GN_RET_ERR_EVENT_NOT_SENT
  | GN_RET_ERR_MQTT_SUBSCRIBE
  | GN_RET_ERR_MQTT_ERROR
  | ESP_ERR_INVALID_ARG
  deriving DecidableEq, Repr

open gn_err_t

/-- The event identifiers that `grownode.c` dispatches on. -/
inductive gn_event_id_t
  | GN_NET_RBT_START
  | GN_NET_OTA_START
  | GN_NET_RST_START
  | GN_NETWORK_CONNECTED_EVENT
  | GN_NETWORK_DISCONNECTED_EVENT
  | GN_SERVER_CONNECTED_EVENT
  | GN_SERVER_DISCONNECTED_EVENT
  | GN_NODE_STARTED_EVENT
  | GN_KEEPALIVE_START_EVENT
  | GN_DISPLAY_LOG_EVENT
  | GN_LEAF_PARAM_CHANGE_REQUEST_EVENT
  | GN_LEAF_PARAM_CHANGED_EVENT
  deriving DecidableEq, Repr

open gn_event_id_t

/-- The type tag of a parameter value. -/
inductive gn_val_type_t
  | GN_VAL_TYPE_STRING
  | GN_VAL_TYPE_BOOLEAN
  | GN_VAL_TYPE_DOUBLE
  deriving DecidableEq, Repr

open gn_val_type_t

/-- A `double`, as its 64 bit object representation. The parameter store only ever
copies doubles, to memory and to flash. -/
abbrev gn_double := Fin (2 ^ 64)

/-- The union `gn_val_t`: the member written last. A string member may be `NULL`. -/
inductive gn_val_t
  | s (v : Option CStr)
  | b (v : Bool)
  | d (v : gn_double)
  deriving DecidableEq, Repr

/-- The struct `gn_param_val_t`: type tag and value. -/
structure gn_param_val_t where
  t : gn_val_type_t
  v : gn_val_t
  deriving DecidableEq, Repr

/-- Access rights of a parameter. -/
inductive gn_leaf_param_access_t
  | GN_LEAF_PARAM_ACCESS_READ
  | GN_LEAF_PARAM_ACCESS_WRITE
  | GN_LEAF_PARAM_ACCESS_READWRITE
  | GN_LEAF_PARAM_ACCESS_NETWORK
  deriving DecidableEq, Repr

open gn_leaf_param_access_t

/-- Storage policy of a parameter. -/
inductive gn_leaf_param_storage_t
  | GN_LEAF_PARAM_STORAGE_PERSISTED
  | GN_LEAF_PARAM_STORAGE_VOLATILE
  deriving DecidableEq, Repr

open gn_leaf_param_storage_t

/-- The struct `gn_leaf_param_t`. The `next` link is the tail of the list the parameter
sits in, the `leaf_config` back reference is the leaf that holds that list. -/
structure gn_leaf_param_t where
  name : CStr
  param_val : gn_param_val_t
  access : gn_leaf_param_access_t
  storage : gn_leaf_param_storage_t
  deriving DecidableEq, Repr

/-- The struct `gn_leaf_event_t`. `data` holds the bytes `data[0 .. data_size)`;
`data_size` is `none` where the code leaves the field unassigned. -/
structure gn_leaf_event_t where
  id : gn_event_id_t
  leaf_name : CStr
  param_name : CStr
  data : CStr
  data_size : Option Nat
  deriving DecidableEq, Repr

/-- The struct `gn_leaf_config_t`: name, parameter list (head first) and the content of
the leaf's event queue (oldest first). -/
structure gn_leaf_config_t where
  name : CStr
  params : List gn_leaf_param_t
  event_queue : List gn_leaf_event_t
  deriving DecidableEq, Repr

/-- The result of `_gn_leaf_config_create`, with the name `gn_leaf_create` copies in. -/
def _gn_leaf_config_create (name : CStr) : gn_leaf_config_t :=
  { name := name, params := [], event_queue := [] }

/-! ## Parameter lookup and registration -/

/-- A pointer to a parameter inside a leaf's list: the parameters before it, the
parameter itself, and the parameters behind it (its `next` chain). -/
structure gn_leaf_param_handle where
  before : List gn_leaf_param_t
  param : gn_leaf_param_t
  after : List gn_leaf_param_t
  deriving DecidableEq, Repr

/-- The list a handle points into, with `p` written over the parameter pointed at. -/
def gn_leaf_param_handle.write (h : gn_leaf_param_handle) (p : gn_leaf_param_t) :
    List gn_leaf_param_t :=
  h.before ++ p :: h.after

/-- The loop of `gn_leaf_param_get_param_handle`: the first parameter for which
`strncmp(param->name, param_name, strlen(param_name)) == 0`, that is, the first one
whose name starts with `param_name`. -/
def param_handle_find (param_name : CStr) :
    List gn_leaf_param_t → Option gn_leaf_param_handle
  | [] => none
  | p :: rest =>
    if param_name.isPrefixOf p.name then some { before := [], param := p, after := rest }
    else (param_handle_find param_name rest).map fun h => { h with before := p :: h.before }

/-- The function `gn_leaf_param_get_param_handle`. -/
def gn_leaf_param_get_param_handle (leaf_config : Option gn_leaf_config_t)
    (param_name : Option CStr) : Option gn_leaf_param_handle :=
  match leaf_config, param_name with
  | some leaf, some n => param_handle_find n leaf.params
  | _, _ => none

/-- The loop and the link step of `gn_leaf_param_add`: `none` when a parameter of the
list has the name of `new_param` (`strcmp == 0`), otherwise the list with `new_param`
linked behind its last element (or as head of an empty list). -/
def param_add_link (new_param : gn_leaf_param_t) :
    List gn_leaf_param_t → Option (List gn_leaf_param_t)
  | [] => some [new_param]
  | p :: rest =>
    if p.name = new_param.name then none
    else
      match rest with
      | [] => some [p, new_param]
      | q :: more => (param_add_link new_param (q :: more)).map (p :: ·)

/-- The function `gn_leaf_param_add`. `sub` is the result of
`gn_mqtt_subscribe_leaf_param`, `send` the result of `gn_mqtt_send_leaf_param`.
`new_param` comes from `gn_leaf_param_create`, so its `next` is `NULL`. -/
def gn_leaf_param_add (sub : esp_err_t) (send : gn_err_t)
    (leaf : Option gn_leaf_config_t) (param : Option gn_leaf_param_t) :
    gn_err_t × Option gn_leaf_config_t :=
  match leaf, param with
  | some l, some new_param =>
    match param_add_link new_param l.params with
    | none => (GN_RET_ERR_INVALID_ARG, some l)
    | some ps =>
      let l1 := { l with params := ps }
      if sub ≠ ESP_OK then (GN_RET_ERR, some l1)
      else if send ≠ GN_RET_OK then (GN_RET_ERR, some l1)
      else (GN_RET_OK, some l1)
  | _, _ => (GN_RET_ERR_INVALID_ARG, leaf)

/-- A sequence of `gn_leaf_param_add` calls on one leaf, each with the results of its
two MQTT calls; the return codes are dropped. -/
def param_add_all (leaf : gn_leaf_config_t) :
    List (esp_err_t × gn_err_t × gn_leaf_param_t) → gn_leaf_config_t
  | [] => leaf
  | (sub, send, p) :: calls =>
    match (gn_leaf_param_add sub send (some leaf) (some p)).2 with
    | some l1 => param_add_all l1 calls
    | none => param_add_all leaf calls

/-! ## Persisted store (gn_storage_set, gn_storage_get) -/

/-- The content of the NVS namespace "grownode": the blob stored under each key. -/
abbrev nvs_t := CStr → Option (List Nat)

/-- The store with the blob under `key` replaced. -/
def nvs_put (nvs : nvs_t) (key : CStr) (blob : List Nat) : nvs_t :=
  fun k => if k = key then some blob else nvs k

/-- What the services answer during one call of the parameter API.
`hash key` is the text `gn_common_hash_str(key, _hashedkey, NVS_KEY_NAME_MAX_SIZE - 1)`
leaves in `_hashedkey`; the function is declared outside of the files embedded here.
`nvs_get_size` and `nvs_get_data` are the error codes of the two `nvs_get_blob` calls
when flash fails (`ESP_OK` when it does not). `heap_tail` is the memory that follows
a blob read into a `malloc` buffer. `sprintf_f` is the text of `sprintf("%f", d)`.
`GN_LEAF_DATA_SIZE` is the constant of that name, defined in a header. -/
structure gn_env where
  hash : CStr → CStr
  nvs_open : esp_err_t
  nvs_set_blob : esp_err_t
  nvs_commit : esp_err_t
  nvs_get_size : esp_err_t
  nvs_get_data : esp_err_t
  heap_tail : List Nat
  event_post : esp_err_t
  mqtt_send : gn_err_t
  sprintf_f : gn_double → CStr
  GN_LEAF_DATA_SIZE : Nat

/-- The expression `err == GN_RET_OK || ESP_OK ? GN_RET_OK : GN_RET_ERR` that ends the
`fail` path of `gn_storage_set` and `gn_storage_get`. -/
def storage_fail_code (err : esp_err_t) : gn_err_t :=
  if err = 0 ∨ ESP_OK ≠ 0 then GN_RET_OK else GN_RET_ERR

/-- The function `gn_storage_set`. `value` is the memory found at the pointer passed
in; the first `required_size` bytes of it are written. A blob handed to `nvs_set_blob`
without error is in the store, whatever `nvs_commit` answers afterwards. -/
def gn_storage_set (env : gn_env) (nvs : nvs_t) (key : Option CStr)
    (value : Option (List Nat)) (required_size : Nat) : gn_err_t × nvs_t :=
  match key, value with
  | some k, some bytes =>
    if required_size = 0 then (GN_RET_ERR_INVALID_ARG, nvs)
    else if env.nvs_open ≠ ESP_OK then (storage_fail_code env.nvs_open, nvs)
    else if env.nvs_set_blob ≠ ESP_OK then (storage_fail_code env.nvs_set_blob, nvs)
    else
      let nvs1 := nvs_put nvs (env.hash k) (bytes.take required_size)
      if env.nvs_commit ≠ ESP_OK then (storage_fail_code env.nvs_commit, nvs1)
      else (GN_RET_OK, nvs1)
  | _, _ => (GN_RET_ERR_INVALID_ARG, nvs)

/-- The function `gn_storage_get`: return code and the buffer left in `*value`
(`none` when `*value` is not assigned, or is freed again). -/
def gn_storage_get (env : gn_env) (nvs : nvs_t) (key : Option CStr) :
    gn_err_t × Option (List Nat) :=
  match key with
  | none => (GN_RET_ERR_INVALID_ARG, none)
  | some k =>
    if env.nvs_open ≠ ESP_OK then (storage_fail_code env.nvs_open, none)
    else
      let found := nvs (env.hash k)
      let err : esp_err_t :=
        if env.nvs_get_size ≠ ESP_OK then env.nvs_get_size
        else if found.isSome then ESP_OK else ESP_ERR_NVS_NOT_FOUND
      let required_size : Nat :=
        if env.nvs_get_size ≠ ESP_OK then 0 else (found.getD []).length
      if err ≠ ESP_OK ∧ err ≠ ESP_ERR_NVS_NOT_FOUND then (storage_fail_code err, none)
      else if 0 < required_size then
        if env.nvs_get_data ≠ ESP_OK then (storage_fail_code env.nvs_get_data, none)
        else (GN_RET_OK, some (found.getD []))
      else (storage_fail_code err, none)

/-- The key both the setters and `gn_leaf_param_create` build in `_buf`:
the leaf name, an underscore, the parameter name passed by the caller. -/
def storage_key (leaf_name name : CStr) : CStr :=
  leaf_name ++ ['_'] ++ name

/-! ## Object representations -/

/-- The byte of a `bool`. -/
def bool_bytes (b : Bool) : List Nat := [if b then 1 else 0]

/-- The eight bytes of a `double`, low byte first. -/
def double_bytes (d : gn_double) : List Nat :=
  (List.range 8).map fun i => d.val / 256 ^ i % 256

/-- The read `*((bool*) value)`. -/
def read_bool (mem : List Nat) : Bool := mem.headD 0 ≠ 0

/-- The read `*((double*) value)`. -/
def read_double (mem : List Nat) : gn_double :=
  Fin.ofNat (((List.range 8).map fun i => (mem.getD i 0) % 256 * 256 ^ i).sum)

/-- The string a `char*` points at: the bytes up to the first zero byte. -/
def read_cstr (mem : List Nat) : CStr :=
  (mem.takeWhile (· ≠ 0)).map Char.ofNat

/-! ## Parameter API (gn_leaf_param_create, gn_leaf_param_set_*) -/

/-- The services a setter acts on: the store, the events the event loop has accepted
(oldest first), and the parameters handed to `gn_mqtt_send_leaf_param` (oldest first). -/
structure gn_state where
  nvs : nvs_t
  posted : List gn_leaf_event_t
  published : List gn_leaf_param_t

/-- The function `gn_leaf_param_create`: the new parameter, or `none` for `NULL`.
A stored blob is read through the buffer `gn_storage_get` allocates; when
`gn_storage_get` reports success without a buffer the code reads through a null
pointer, and when `val` does not hold the member `type` names the code reads a dead
union member: the embedding yields `none` in both cases. -/
def gn_leaf_param_create (env : gn_env) (nvs : nvs_t) (leaf_config : gn_leaf_config_t)
    (name : Option CStr) (type : gn_val_type_t) (val : gn_val_t)
    (access : gn_leaf_param_access_t) (storage : gn_leaf_param_storage_t) :
    Option gn_leaf_param_t :=
  match name with
  | none => none
  | some n =>
    let loaded : Option gn_val_t :=
      if storage = GN_LEAF_PARAM_STORAGE_PERSISTED then
        match gn_storage_get env nvs (some (storage_key leaf_config.name n)) with
        | (GN_RET_OK, some blob) =>
          let value := blob ++ env.heap_tail
          match type with
          | GN_VAL_TYPE_STRING => some (gn_val_t.s (some (read_cstr value)))
          | GN_VAL_TYPE_BOOLEAN => some (gn_val_t.b (read_bool value))
          | GN_VAL_TYPE_DOUBLE => some (gn_val_t.d (read_double value))
        | (GN_RET_OK, none) => none
        | _ => some val
      else some val
    match loaded with
    | none => none
    | some val1 =>
      let _val : Option gn_val_t :=
        match type, val1 with
        | GN_VAL_TYPE_STRING, gn_val_t.s (some x) => some (gn_val_t.s (some x))
        | GN_VAL_TYPE_BOOLEAN, gn_val_t.b x => some (gn_val_t.b x)
        | GN_VAL_TYPE_DOUBLE, gn_val_t.d x => some (gn_val_t.d x)
        | _, _ => none
      _val.map fun v =>
        { name := n, param_val := { t := type, v := v }, access := access,
          storage := storage }

/-- The assignment `_param->param_val->v.<member> = val`: the parameter with the value
member written, type tag and the other fields as they were. -/
def gn_leaf_param_t.set_v (p : gn_leaf_param_t) (v : gn_val_t) : gn_leaf_param_t :=
  { p with param_val := { p.param_val with v := v } }

/-- The tail shared by the three setters: post `evt` to the event loop, then hand the
parameter to `gn_mqtt_send_leaf_param` and return its result. -/
def param_notify (env : gn_env) (st : gn_state) (leaf : gn_leaf_config_t)
    (_param : gn_leaf_param_t) (evt : gn_leaf_event_t) :
    gn_err_t × Option gn_leaf_config_t × gn_state :=
  if env.event_post ≠ ESP_OK then (GN_RET_ERR, some leaf, st)
  else
    (env.mqtt_send, some leaf,
      { st with posted := st.posted ++ [evt], published := st.published ++ [_param] })

/-- The function `gn_leaf_param_set_string`. `val_ref` is the memory at `&val`, the
address the code passes to `gn_storage_set`: the bytes of the pointer `val` itself,
followed by the stack above it. The write `_buf[_len]`, one past the end of `_buf`, is
left out. -/
def gn_leaf_param_set_string (env : gn_env) (st : gn_state)
    (leaf_config : Option gn_leaf_config_t) (name : Option CStr) (val : Option CStr)
    (val_ref : List Nat) : gn_err_t × Option gn_leaf_config_t × gn_state :=
  match leaf_config, name, val with
  | some leaf, some n, some v =>
    match gn_leaf_param_get_param_handle (some leaf) (some n) with
    | none => (GN_RET_ERR_INVALID_ARG, some leaf, st)
    | some h =>
      let stored : gn_err_t × nvs_t :=
        if h.param.storage = GN_LEAF_PARAM_STORAGE_PERSISTED then
          gn_storage_set env st.nvs (some (storage_key leaf.name n)) (some val_ref) v.length
        else (GN_RET_OK, st.nvs)
      if stored.1 ≠ GN_RET_OK then (GN_RET_ERR, some leaf, { st with nvs := stored.2 })
      else
        let _param := h.param.set_v (gn_val_t.s (some v))
        let leaf1 := { leaf with params := h.write _param }
        let evt : gn_leaf_event_t :=
          { id := GN_LEAF_PARAM_CHANGED_EVENT, leaf_name := leaf.name,
            param_name := _param.name, data := v.take env.GN_LEAF_DATA_SIZE,
            data_size := none }
        param_notify env { st with nvs := stored.2 } leaf1 _param evt
  | _, _, _ => (GN_RET_ERR_INVALID_ARG, leaf_config, st)

/-- The function `gn_leaf_param_set_bool`. -/
def gn_leaf_param_set_bool (env : gn_env) (st : gn_state)
    (leaf_config : Option gn_leaf_config_t) (name : Option CStr) (val : Bool) :
    gn_err_t × Option gn_leaf_config_t × gn_state :=
  match leaf_config, name with
  | some leaf, some n =>
    match gn_leaf_param_get_param_handle (some leaf) (some n) with
    | none => (GN_RET_ERR_INVALID_ARG, some leaf, st)
    | some h =>
      let stored : gn_err_t × nvs_t :=
        if h.param.storage = GN_LEAF_PARAM_STORAGE_PERSISTED then
          gn_storage_set env st.nvs (some (storage_key leaf.name n)) (some (bool_bytes val)) 1
        else (GN_RET_OK, st.nvs)
      if stored.1 ≠ GN_RET_OK then (GN_RET_ERR, some leaf, { st with nvs := stored.2 })
      else
        let _param := h.param.set_v (gn_val_t.b val)
        let leaf1 := { leaf with params := h.write _param }
        let evt : gn_leaf_event_t :=
          { id := GN_LEAF_PARAM_CHANGED_EVENT, leaf_name := leaf.name,
            param_name := _param.name, data := [if !val then '0' else '1'],
            data_size := some 1 }
        param_notify env { st with nvs := stored.2 } leaf1 _param evt
  | _, _ => (GN_RET_ERR_INVALID_ARG, leaf_config, st)

/-- The function `gn_leaf_param_set_double`. -/
def gn_leaf_param_set_double (env : gn_env) (st : gn_state)
    (leaf_config : Option gn_leaf_config_t) (name : Option CStr) (val : gn_double) :
    gn_err_t × Option gn_leaf_config_t × gn_state :=
  match leaf_config, name with
  | some leaf, some n =>
    match gn_leaf_param_get_param_handle (some leaf) (some n) with
    | none => (ESP_ERR_INVALID_ARG, some leaf, st)
    | some h =>
      let stored : gn_err_t × nvs_t :=
        if h.param.storage = GN_LEAF_PARAM_STORAGE_PERSISTED then
          gn_storage_set env st.nvs (some (storage_key leaf.name n)) (some (double_bytes val)) 8
        else (GN_RET_OK, st.nvs)
      if stored.1 ≠ GN_RET_OK then (GN_RET_ERR, some leaf, { st with nvs := stored.2 })
      else
        let _param := h.param.set_v (gn_val_t.d val)
        let leaf1 := { leaf with params := h.write _param }
        let evt : gn_leaf_event_t :=
          { id := GN_LEAF_PARAM_CHANGED_EVENT, leaf_name := leaf.name,
            param_name := _param.name, data := env.sprintf_f val,
            data_size := some ((env.sprintf_f val).length + 1) }
        param_notify env { st with nvs := stored.2 } leaf1 _param evt
  | _, _ => (ESP_ERR_INVALID_ARG, leaf_config, st)

/-! ## Node, configuration root and event dispatch -/

/-- The constant `GN_LEAF_NAME_SIZE`. -/
def GN_LEAF_NAME_SIZE : Nat := 32

/-- The constant `GN_LEAF_PARAM_NAME_SIZE`. -/
def GN_LEAF_PARAM_NAME_SIZE : Nat := 32

/-- The struct `gn_node_config_t`: the name and the leaves `leaves.at[0 .. leaves.last)`. -/
structure gn_node_config_t where
  name : CStr
  leaves : List gn_leaf_config_t
  deriving DecidableEq, Repr

/-- The status of the configuration root. -/
inductive gn_config_status_t
  | GN_CONFIG_STATUS_NOT_INITIALIZED
  | GN_CONFIG_STATUS_INITIALIZING
  | GN_CONFIG_STATUS_ERROR
  | GN_CONFIG_STATUS_NETWORK_ERROR
  | GN_CONFIG_STATUS_SERVER_ERROR
  | GN_CONFIG_STATUS_COMPLETED
  | GN_CONFIG_STATUS_STARTED
  deriving DecidableEq, Repr

open gn_config_status_t

/-- The calls `_gn_evt_handler` makes into collaborators outside of the core. -/
inductive gn_action
  | gn_reboot
  | gn_firmware_update
  | gn_reset
  | _gn_keepalive_start
  | _gn_keepalive_stop
  | gn_mqtt_send_node_config
  deriving DecidableEq, Repr

/-- The configuration root `_gn_default_conf` (not `NULL`, with its node), and the
collaborator calls made so far (oldest first). -/
structure gn_config_t where
  status : gn_config_status_t
  node_config : gn_node_config_t
  actions : List gn_action
  deriving DecidableEq, Repr

/-- The loop of `_gn_leaf_get_by_name` and of `gn_send_leaf_param_change_message`:
the first leaf with `strcmp(leaves.at[i]->name, leaf_name) == 0`, with its position
`i` in the leaf array. A pointer to a leaf is that position. -/
def leaf_find_by_name (leaf_name : CStr) :
    List gn_leaf_config_t → Option (Nat × gn_leaf_config_t)
  | [] => none
  | l :: rest =>
    if l.name = leaf_name then some (0, l)
    else (leaf_find_by_name leaf_name rest).map fun r => (r.1 + 1, r.2)

/-- The function `_gn_leaf_get_by_name`. -/
def _gn_leaf_get_by_name (conf : gn_config_t) (leaf_name : CStr) :
    Option (Nat × gn_leaf_config_t) :=
  leaf_find_by_name leaf_name conf.node_config.leaves

/-- The function `_gn_send_event_to_leaf`. `queue_sent` tells whether `xQueueSend`
answered `pdTRUE`; the event is then in the queue of the leaf. -/
def _gn_send_event_to_leaf (queue_sent : Bool) (leaf_config : gn_leaf_config_t)
    (evt : gn_leaf_event_t) : gn_err_t × gn_leaf_config_t :=
  if !queue_sent then (GN_RET_ERR_EVENT_NOT_SENT, leaf_config)
  else (GN_RET_OK, { leaf_config with event_queue := leaf_config.event_queue ++ [evt] })

/-- The loop of `_gn_leaf_parameter_update` over the parameter list. -/
def parameter_update_loop (queue_sent : Bool) (_leaf_config : gn_leaf_config_t)
    (param : CStr) (data : CStr) (data_len : Nat) :
    List gn_leaf_param_t → gn_err_t × gn_leaf_config_t
  | [] => (GN_RET_OK, _leaf_config)
  | leaf_params :: next =>
    if param = leaf_params.name then
      if leaf_params.access ≠ GN_LEAF_PARAM_ACCESS_WRITE
          ∧ leaf_params.access ≠ GN_LEAF_PARAM_ACCESS_READWRITE then
        (GN_RET_ERR_LEAF_PARAM_ACCESS_VIOLATION, _leaf_config)
      else
        let evt : gn_leaf_event_t :=
          { id := GN_LEAF_PARAM_CHANGE_REQUEST_EVENT,
            leaf_name := _leaf_config.name.take GN_LEAF_NAME_SIZE,
            param_name := param.take GN_LEAF_PARAM_NAME_SIZE,
            data := data.take data_len, data_size := some data_len }
        _gn_send_event_to_leaf queue_sent _leaf_config evt
    else parameter_update_loop queue_sent _leaf_config param data data_len next

/-- The function `_gn_leaf_parameter_update`. -/
def _gn_leaf_parameter_update (queue_sent : Bool) (leaf_config : gn_leaf_config_t)
    (param : Option CStr) (data : Option CStr) (data_len : Nat) :
    gn_err_t × gn_leaf_config_t :=
  match param, data with
  | some p, some d =>
    if data_len = 0 then (GN_RET_ERR_INVALID_ARG, leaf_config)
    else parameter_update_loop queue_sent leaf_config p d data_len leaf_config.params
  | _, _ => (GN_RET_ERR_INVALID_ARG, leaf_config)

/-- The function `gn_send_leaf_param_change_message`. -/
def gn_send_leaf_param_change_message (queue_sent : Bool) (conf : gn_config_t)
    (leaf_name : CStr) (param_name : Option CStr) (message : Option CStr)
    (message_len : Nat) : gn_err_t × gn_config_t :=
  match leaf_find_by_name leaf_name conf.node_config.leaves with
  | none => (GN_RET_ERR_LEAF_NOT_FOUND, conf)
  | some (i, leaf) =>
    let r := _gn_leaf_parameter_update queue_sent leaf param_name message message_len
    (r.1, { conf with node_config :=
              { conf.node_config with leaves := conf.node_config.leaves.set i r.2 } })

/-- The function `_gn_evt_handler`, for the event `id` with payload `event_data`
(read only by the parameter change request case). -/
def _gn_evt_handler (queue_sent : Bool) (conf : gn_config_t) (id : gn_event_id_t)
    (event_data : gn_leaf_event_t) : gn_config_t :=
  match id with
  | GN_NET_RBT_START => { conf with actions := conf.actions ++ [gn_action.gn_reboot] }
  | GN_NET_OTA_START => { conf with actions := conf.actions ++ [gn_action.gn_firmware_update] }
  | GN_NET_RST_START => { conf with actions := conf.actions ++ [gn_action.gn_reset] }
  | GN_NETWORK_CONNECTED_EVENT => conf
  | GN_NETWORK_DISCONNECTED_EVENT => conf
  | GN_SERVER_CONNECTED_EVENT =>
    if conf.status = GN_CONFIG_STATUS_STARTED then
      { conf with actions := conf.actions ++ [gn_action._gn_keepalive_start] }
    else conf
  | GN_SERVER_DISCONNECTED_EVENT =>
    { conf with actions := conf.actions ++ [gn_action._gn_keepalive_stop] }
  | GN_NODE_STARTED_EVENT =>
    if conf.status = GN_CONFIG_STATUS_STARTED then
      { conf with actions := conf.actions ++ [gn_action._gn_keepalive_start] }
    else conf
  | GN_KEEPALIVE_START_EVENT =>
    { conf with actions := conf.actions ++ [gn_action.gn_mqtt_send_node_config] }
  | GN_LEAF_PARAM_CHANGE_REQUEST_EVENT =>
    match _gn_leaf_get_by_name conf event_data.leaf_name with
    | none => conf
    | some (i, leaf_config) =>
      let r := _gn_send_event_to_leaf queue_sent leaf_config event_data
      { conf with node_config :=
          { conf.node_config with leaves := conf.node_config.leaves.set i r.2 } }
  | _ => conf

/-! ## Watering-control supervisor (gn_watering_control.c) -/

/-- The enum `gn_hcc_status`. -/
inductive gn_hcc_status
  | HCC_HEATING
  | HCC_COOLING
  | HCC_STOP
  deriving DecidableEq, Repr

open gn_hcc_status

/-- The leaves the supervisor holds handles to in `gn_watering_control_data_t`. -/
inductive wat_leaf
  | leaf_cwl
  | leaf_ds18b20
  | leaf_bme280
  | leaf_plt_a
  | leaf_plt_b
  | leaf_hcc_pump
  | leaf_wat_pump
  deriving DecidableEq, Repr

open wat_leaf

/-- The state fields of `gn_watering_control_data_t`, and the actuator commands issued
so far: `(l, v)` stands for the call
`gn_leaf_param_set_bool(data->l, GN_RELAY_PARAM_STATUS, v)`, oldest first. Times are
in microseconds (`hcc_cycle_start`) and milliseconds, as mathematical integers. -/
structure gn_watering_control_data_t where
  hcc_cycle : gn_hcc_status
  hcc_cycle_start : Int
  wat_cycle_active : Bool
  wat_cycle_cumulative_time_ms : Int
  commands : List (wat_leaf × Bool)
  deriving DecidableEq, Repr

/-- The state `gn_watering_control_config` sets up. -/
def wat_data_init : gn_watering_control_data_t :=
  { hcc_cycle := HCC_STOP, hcc_cycle_start := 0, wat_cycle_active := false,
    wat_cycle_cumulative_time_ms := 0, commands := [] }

/-- The constants `GN_WAT_CTR_CYCLE_TIME_MS` and `MAX_HCC_CYCLE_TIME_SEC` of
gn_watering_control.h. -/
structure wat_consts where
  GN_WAT_CTR_CYCLE_TIME_MS : Int
  MAX_HCC_CYCLE_TIME_SEC : Int

/-- What one iteration of the loop of `_gn_watering_callback` observes: the result of
each of its fifteen parameter reads in source order (`none` when the getter does not
return `GN_RET_OK`), and the clock at the two places that call `gettimeofday`. A
`double` reading is the rational number it stands for. -/
structure wat_tick where
  p_wat_int_sec : Option ℚ
  p_wat_time_sec : Option ℚ
  p_wat_t_temp : Option ℚ
  p_active : Option Bool
  p_cwl : Option ℚ
  p_cwl_trg_high : Option Bool
  p_cwl_trg_low : Option Bool
  p_ds18b20_temp_active : Option Bool
  p_wat_temp : Option ℚ
  p_plt_temp : Option ℚ
  p_plt_a_status : Option Bool
  p_plt_b_status : Option Bool
  p_wat_pump : Option Bool
  p_hcc_toggle : Option Bool
  p_hcc_power : Option ℚ
  time_hcc_start : Int
  time_check : Int

/-- The locals of `_gn_watering_callback` that the reads of one iteration assign. -/
structure wat_locals where
  p_wat_int_sec : ℚ
  p_wat_time_sec : ℚ
  p_wat_t_temp : ℚ
  p_active : Bool
  p_cwl : ℚ
  p_cwl_trg_high : Bool
  p_cwl_trg_low : Bool
  p_ds18b20_temp_active : Bool
  p_wat_temp : ℚ
  p_plt_temp : ℚ
  p_plt_a_status : Bool
  p_plt_b_status : Bool
  p_wat_pump : Bool
  p_hcc_toggle : Bool
  p_hcc_power : ℚ

/-- The read phase of one iteration (lines 280 to 420): each getter in source order;
the first one that fails ends the phase with `none`, where the code takes `break`. -/
def wat_read (t : wat_tick) : Option wat_locals :=
  match t.p_wat_int_sec with
  | none => none
  | some p_wat_int_sec =>
  match t.p_wat_time_sec with
  | none => none
  | some p_wat_time_sec =>
  match t.p_wat_t_temp with
  | none => none
  | some p_wat_t_temp =>
  match t.p_active with
  | none => none
  | some p_active =>
  match t.p_cwl with
  | none => none
  | some p_cwl =>
  match t.p_cwl_trg_high with
  | none => none
  | some p_cwl_trg_high =>
  match t.p_cwl_trg_low with
  | none => none
  | some p_cwl_trg_low =>
  match t.p_ds18b20_temp_active with
  | none => none
  | some p_ds18b20_temp_active =>
  match t.p_wat_temp with
  | none => none
  | some p_wat_temp =>
  match t.p_plt_temp with
  | none => none
  | some p_plt_temp =>
  match t.p_plt_a_status with
  | none => none
  | some p_plt_a_status =>
  match t.p_plt_b_status with
  | none => none
  | some p_plt_b_status =>
  match t.p_wat_pump with
  | none => none
  | some p_wat_pump =>
  match t.p_hcc_toggle with
  | none => none
  | some p_hcc_toggle =>
  match t.p_hcc_power with
  | none => none
  | some p_hcc_power =>
  some { p_wat_int_sec, p_wat_time_sec, p_wat_t_temp, p_active, p_cwl, p_cwl_trg_high,
         p_cwl_trg_low, p_ds18b20_temp_active, p_wat_temp, p_plt_temp, p_plt_a_status,
         p_plt_b_status, p_wat_pump, p_hcc_toggle, p_hcc_power }

/-- The function `_gn_watering_control_stop_watering`. -/
def _gn_watering_control_stop_watering (data : gn_watering_control_data_t) :
    gn_watering_control_data_t :=
  { data with commands := data.commands ++ [(leaf_wat_pump, false)],
              wat_cycle_active := false, wat_cycle_cumulative_time_ms := 0 }

/-- The function `_gn_watering_control_start_watering`. -/
def _gn_watering_control_start_watering (data : gn_watering_control_data_t) :
    gn_watering_control_data_t :=
  { data with commands := data.commands ++ [(leaf_wat_pump, true)],
              wat_cycle_active := true, wat_cycle_cumulative_time_ms := 0 }

/-- The function `_gn_watering_control_stop_hcc`. -/
def _gn_watering_control_stop_hcc (data : gn_watering_control_data_t) :
    gn_watering_control_data_t :=
  { data with
      commands := data.commands ++
        [(leaf_plt_a, false), (leaf_plt_b, false), (leaf_hcc_pump, false)],
      hcc_cycle := HCC_STOP }

/-- The function `_gn_watering_control_start_hcc_heating`; `now` is the time
`gettimeofday` gives, in microseconds. -/
def _gn_watering_control_start_hcc_heating (data : gn_watering_control_data_t)
    (now : Int) : gn_watering_control_data_t :=
  { data with
      commands := data.commands ++
        [(leaf_plt_a, true), (leaf_plt_b, false), (leaf_hcc_pump, true)],
      hcc_cycle := HCC_HEATING, hcc_cycle_start := now }

/-- The function `_gn_watering_control_start_hcc_cooling`; `now` is the time
`gettimeofday` gives, in microseconds. -/
def _gn_watering_control_start_hcc_cooling (data : gn_watering_control_data_t)
    (now : Int) : gn_watering_control_data_t :=
  { data with
      commands := data.commands ++
        [(leaf_plt_a, false), (leaf_plt_b, true), (leaf_hcc_pump, true)],
      hcc_cycle := HCC_COOLING, hcc_cycle_start := now }

/-- The function `_gn_watering_control_hcc_temp_low`. -/
def _gn_watering_control_hcc_temp_low (p_wat_temp p_wat_t_temp : ℚ) : Bool :=
  decide (p_wat_temp > p_wat_t_temp + 1)

/-- The function `_gn_watering_control_hcc_temp_high`. -/
def _gn_watering_control_hcc_temp_high (p_wat_temp p_wat_t_temp : ℚ) : Bool :=
  decide (p_wat_temp < p_wat_t_temp - 1)

/-- The function `_gn_watering_control_hcc_temp_ok`. -/
def _gn_watering_control_hcc_temp_ok (p_wat_temp p_wat_t_temp : ℚ) : Bool :=
  !_gn_watering_control_hcc_temp_low p_wat_temp p_wat_t_temp
    && !_gn_watering_control_hcc_temp_high p_wat_temp p_wat_t_temp

/-- Lines 450 to 468 of `_gn_watering_callback`: the temperature comparison that starts
cooling, starts heating, or stops the thermal cycle. -/
def wat_hcc_select (data : gn_watering_control_data_t) (p_wat_temp p_wat_t_temp : ℚ)
    (time_hcc_start : Int) : gn_watering_control_data_t :=
  if _gn_watering_control_hcc_temp_high p_wat_temp p_wat_t_temp then
    if data.hcc_cycle ≠ HCC_COOLING then
      _gn_watering_control_start_hcc_cooling data time_hcc_start
    else data
  else if _gn_watering_control_hcc_temp_low p_wat_temp p_wat_t_temp then
    if data.hcc_cycle ≠ HCC_HEATING then
      _gn_watering_control_start_hcc_heating data time_hcc_start
    else data
  else _gn_watering_control_stop_hcc data

/-- Lines 470 to 486 of `_gn_watering_callback`: the cap on the thermal cycle time. -/
def wat_hcc_cap (K : wat_consts) (data : gn_watering_control_data_t) (time_us : Int) :
    gn_watering_control_data_t :=
  if data.hcc_cycle ≠ HCC_STOP then
    if time_us - data.hcc_cycle_start > K.MAX_HCC_CYCLE_TIME_SEC * 1000000 then
      _gn_watering_control_stop_hcc data
    else data
  else data

/-- Lines 488 to 506 of `_gn_watering_callback`: start of watering, time accounting and
the end of the watering cycle. The flag tells whether the code takes `break`. -/
def wat_irrigation (K : wat_consts) (data : gn_watering_control_data_t)
    (p_wat_temp p_wat_t_temp p_wat_time_sec : ℚ) : gn_watering_control_data_t × Bool :=
  let data1 :=
    if _gn_watering_control_hcc_temp_ok p_wat_temp p_wat_t_temp && !data.wat_cycle_active
    then _gn_watering_control_start_watering data else data
  let data2 :=
    if data1.wat_cycle_active then
      { data1 with wat_cycle_cumulative_time_ms :=
          data1.wat_cycle_cumulative_time_ms + K.GN_WAT_CTR_CYCLE_TIME_MS }
    else data1
  if (data2.wat_cycle_cumulative_time_ms : ℚ) > p_wat_time_sec * 1000 then
    (_gn_watering_control_stop_watering data2, true)
  else (data2, false)

/-- One iteration of the `while (true)` loop of `_gn_watering_callback`: the state
after it and whether the loop was left through `break`. The locals `p_cwl_active` and
`p_amb_temp_active` are declared with an initial value in front of the loop and
assigned nowhere. -/
def wat_iteration (K : wat_consts) (data : gn_watering_control_data_t) (t : wat_tick) :
    gn_watering_control_data_t × Bool :=
  let p_cwl_active := false
  let p_amb_temp_active := true
  match wat_read t with
  | none => (data, true)
  | some r =>
    if !p_cwl_active || !p_amb_temp_active || r.p_ds18b20_temp_active then
      (_gn_watering_control_stop_watering (_gn_watering_control_stop_hcc data), true)
    else if r.p_cwl_trg_low = true then
      (_gn_watering_control_stop_watering (_gn_watering_control_stop_hcc data), true)
    else if r.p_cwl_trg_high = true then
      (_gn_watering_control_stop_watering (_gn_watering_control_stop_hcc data), true)
    else
      let data1 := wat_hcc_select data r.p_wat_temp r.p_wat_t_temp t.time_hcc_start
      let data2 := wat_hcc_cap K data1 t.time_check
      wat_irrigation K data2 r.p_wat_temp r.p_wat_t_temp r.p_wat_time_sec

/-- The function `_gn_watering_callback`, run on the observations of its successive
iterations: the state it leaves and whether it has returned. The list ends where the
observations end; a loop still running then gives `false`. -/
def _gn_watering_callback (K : wat_consts) (data : gn_watering_control_data_t) :
    List wat_tick → gn_watering_control_data_t × Bool
  | [] => (data, false)
  | t :: ts =>
    match wat_iteration K data t with
    | (data1, true) => (data1, true)
    | (data1, false) => _gn_watering_callback K data1 ts

/-! ## Node construction and start (gn_node_create, gn_leaf_create, gn_node_start) -/

/-- The constant `GN_NODE_NAME_SIZE`. -/
def GN_NODE_NAME_SIZE : Nat := 32

/-- The struct `gn_config_t` as node and leaf construction use it: the status, the
broker client handle and the node, each of the two `NULL` or not. -/
structure gn_config_root where
  status : gn_config_status_t
  mqtt_client : Option Nat
  node_config : Option gn_node_config_t
  deriving DecidableEq, Repr

/-- The function `gn_node_create`: the node handle returned and the configuration
root afterwards. The leaf list `{ .size = GN_NODE_LEAVES_MAX_SIZE, .last = 0 }` is the
empty list; `strncpy` keeps at most `GN_NODE_NAME_SIZE` characters of the name. -/
def gn_node_create (config : Option gn_config_root) (name : Option CStr) :
    Option gn_node_config_t × Option gn_config_root :=
  match config, name with
  | some c, some n =>
    if c.mqtt_client = none then (none, config)
    else
      let n_c : gn_node_config_t := { name := n.take GN_NODE_NAME_SIZE, leaves := [] }
      (some n_c, some { c with node_config := some n_c })
  | _, _ => (none, config)

/-- The function `gn_node_get_size`. The result is a `size_t` of 32 bits: `-1` reads
as `2 ^ 32 - 1`. -/
def gn_node_get_size (node_config : Option gn_node_config_t) : Nat :=
  match node_config with
  | none => 2 ^ 32 - 1
  | some n => n.leaves.length

/-- The function `gn_get_node_config_name`. -/
def gn_get_node_config_name (node_config : Option gn_node_config_t) : Option CStr :=
  match node_config with
  | none => none
  | some n => some n.name

/-- The type `gn_leaf_config_callback`: the configuration function of a leaf type. It
is handed the new leaf, through which it reaches the owning node, and leaves the leaf
with the parameters it has created. -/
abbrev gn_leaf_config_callback := gn_node_config_t → gn_leaf_config_t → gn_leaf_config_t

/-- The function `gn_leaf_create`, called with the node of the root `config` (the
handle `gn_node_create` returns, whose back reference is `config`): the leaf handle
returned and the root afterwards. `MAX` is the constant `GN_NODE_LEAVES_MAX_SIZE`,
`queue_created` tells whether `xQueueCreate` returned a queue. The steps are in
source order: argument checks, allocation and naming of the leaf, queue, the
configuration callback, the capacity check, the registration. -/
def gn_leaf_create (MAX : Nat) (queue_created : Bool) (config : gn_config_root)
    (name : Option CStr) (leaf_config : Option gn_leaf_config_callback)
    (_task_size : Nat) : Option gn_leaf_config_t × gn_config_root :=
  match config.node_config, name, leaf_config with
  | some n_c, some n, some cb =>
    if config.mqtt_client = none then (none, config)
    else
      let l_c : gn_leaf_config_t := _gn_leaf_config_create (n.take GN_LEAF_NAME_SIZE)
      if !queue_created then (none, config)
      else
        let l_c1 := cb n_c l_c
        if n_c.leaves.length ≥ MAX - 1 then (none, config)
        else
          (some l_c1,
           { config with node_config := some { n_c with leaves := n_c.leaves ++ [l_c1] } })
  | _, _, _ => (none, config)

/-- What the services answer while one leaf is started: whether `xTaskCreate` returned
`pdPASS`, and the result of `gn_mqtt_publish_leaf`. -/
structure leaf_start_env where
  task_created : Bool
  mqtt_publish_leaf : gn_err_t

/-- The function `_gn_leaf_start`. `tasks` lists the leaves whose task has been
created, oldest first. -/
def _gn_leaf_start (e : leaf_start_env) (leaf_config : gn_leaf_config_t)
    (tasks : List CStr) : gn_err_t × List CStr :=
  if !e.task_created then (GN_RET_ERR_LEAF_NOT_STARTED, tasks)
  else (e.mqtt_publish_leaf, tasks ++ [leaf_config.name])

/-- The loop of `gn_node_start` from position `i` on: `start j` is what the services
answer while the leaf at position `j` is started. -/
def node_start_loop (start : Nat → leaf_start_env) :
    Nat → List gn_leaf_config_t → List CStr → gn_err_t × List CStr
  | _, [], tasks => (GN_RET_OK, tasks)
  | i, l :: rest, tasks =>
    if (_gn_leaf_start (start i) l tasks).1 ≠ GN_RET_OK then
      (GN_RET_ERR_NODE_NOT_STARTED, (_gn_leaf_start (start i) l tasks).2)
    else node_start_loop start (i + 1) rest (_gn_leaf_start (start i) l tasks).2

/-- The function `gn_node_start` on the node of `conf`. `event_post` is the result of
posting `GN_NODE_STARTED_EVENT` to the event loop. -/
def gn_node_start (start : Nat → leaf_start_env) (event_post : esp_err_t)
    (conf : gn_config_t) (tasks : List CStr) : gn_err_t × gn_config_t × List CStr :=
  let r := node_start_loop start 0 conf.node_config.leaves tasks
  if r.1 ≠ GN_RET_OK then (GN_RET_ERR_NODE_NOT_STARTED, conf, r.2)
  else
    let conf1 := { conf with status := GN_CONFIG_STATUS_STARTED }
    if event_post ≠ ESP_OK then (GN_RET_ERR_EVENT_LOOP_ERROR, conf1, r.2)
    else (GN_RET_OK, conf1, r.2)

/-! ## Initialization (gn_init) -/

/-- The steps of `gn_init`, in source order. -/
inductive gn_init_step
  | _gn_init_flash
  | _gn_init_spiffs
  | _gn_init_event_loop
  | _gn_evt_handlers_register
  | _gn_init_keepalive_timer
  | gn_init_display
  | _gn_init_wifi
  | _gn_init_time_sync
  | gn_mqtt_init
  deriving DecidableEq, Repr

/-- The result of each step of one `gn_init` call. `_gn_evt_handlers_register` has no
entry: it returns `ESP_OK` or does not return. -/
structure gn_init_env where
  flash : esp_err_t
  spiffs : esp_err_t
  event_loop : esp_err_t
  keepalive_timer : esp_err_t
  display : esp_err_t
  wifi : esp_err_t
  time_sync : esp_err_t
  mqtt : esp_err_t

/-- A configuration object on the heap: its address and its status field. -/
structure gn_config_obj where
  addr : Nat
  status : gn_config_status_t
  deriving DecidableEq, Repr

/-- The globals `initialized` and `_gn_default_conf`. `heap_next` is the address the
next allocation of a configuration object gets (objects are never freed, so every
allocation gets a new address), `steps` the initialization steps run so far. -/
structure gn_globals where
  initialized : Bool
  _gn_default_conf : Option gn_config_obj
  heap_next : Nat
  steps : List gn_init_step
  deriving DecidableEq, Repr

/-- The globals at program start. -/
def gn_globals_start : gn_globals :=
  { initialized := false, _gn_default_conf := none, heap_next := 0, steps := [] }

/-- The exits of `gn_init` through the labels `err`, `err_net` and `err_srv`, and
through the end of the function: the status is stored in the object `conf` and the
object is returned; the last exit also sets `initialized`. -/
def gn_init_exit (g : gn_globals) (conf : gn_config_obj) (status : gn_config_status_t)
    (done : Bool) (steps : List gn_init_step) : Option gn_config_obj × gn_globals :=
  (some { conf with status := status },
   { g with initialized := g.initialized || done,
            _gn_default_conf := some { conf with status := status },
            heap_next := conf.addr + 1, steps := g.steps ++ steps })

/-- The function `gn_init`: the handle returned and the globals afterwards.
`wifi_enabled` is the compile time switch `CONFIG_GROWNODE_WIFI_ENABLED`. -/
def gn_init (wifi_enabled : Bool) (env : gn_init_env) (g : gn_globals) :
    Option gn_config_obj × gn_globals :=
  if g.initialized then (g._gn_default_conf, g)
  else
    let conf : gn_config_obj :=
      { addr := g.heap_next, status := GN_CONFIG_STATUS_INITIALIZING }
    if env.flash ≠ ESP_OK then
      gn_init_exit g conf GN_CONFIG_STATUS_ERROR false [gn_init_step._gn_init_flash]
    else if env.spiffs ≠ ESP_OK then
      gn_init_exit g conf GN_CONFIG_STATUS_ERROR false
        [gn_init_step._gn_init_flash, gn_init_step._gn_init_spiffs]
    else if env.event_loop ≠ ESP_OK then
      gn_init_exit g conf GN_CONFIG_STATUS_ERROR false
        [gn_init_step._gn_init_flash, gn_init_step._gn_init_spiffs,
         gn_init_step._gn_init_event_loop]
    else if env.keepalive_timer ≠ ESP_OK then
      gn_init_exit g conf GN_CONFIG_STATUS_ERROR false
        [gn_init_step._gn_init_flash, gn_init_step._gn_init_spiffs,
         gn_init_step._gn_init_event_loop, gn_init_step._gn_evt_handlers_register,
         gn_init_step._gn_init_keepalive_timer]
    else if env.display ≠ ESP_OK then
      gn_init_exit g conf GN_CONFIG_STATUS_ERROR false
        [gn_init_step._gn_init_flash, gn_init_step._gn_init_spiffs,
         gn_init_step._gn_init_event_loop, gn_init_step._gn_evt_handlers_register,
         gn_init_step._gn_init_keepalive_timer, gn_init_step.gn_init_display]
    else if !wifi_enabled then
      gn_init_exit g conf GN_CONFIG_STATUS_COMPLETED true
        [gn_init_step._gn_init_flash, gn_init_step._gn_init_spiffs,
         gn_init_step._gn_init_event_loop, gn_init_step._gn_evt_handlers_register,
         gn_init_step._gn_init_keepalive_timer, gn_init_step.gn_init_display]
    else if env.wifi ≠ ESP_OK then
      gn_init_exit g conf GN_CONFIG_STATUS_NETWORK_ERROR false
        [gn_init_step._gn_init_flash, gn_init_step._gn_init_spiffs,
         gn_init_step._gn_init_event_loop, gn_init_step._gn_evt_handlers_register,
         gn_init_step._gn_init_keepalive_timer, gn_init_step.gn_init_display,
         gn_init_step._gn_init_wifi]
    else if env.mqtt ≠ ESP_OK then
      gn_init_exit g conf GN_CONFIG_STATUS_SERVER_ERROR false
        [gn_init_step._gn_init_flash, gn_init_step._gn_init_spiffs,
         gn_init_step._gn_init_event_loop, gn_init_step._gn_evt_handlers_register,
         gn_init_step._gn_init_keepalive_timer, gn_init_step.gn_init_display,
         gn_init_step._gn_init_wifi, gn_init_step._gn_init_time_sync,
         gn_init_step.gn_mqtt_init]
    else
      gn_init_exit g conf GN_CONFIG_STATUS_COMPLETED true
        [gn_init_step._gn_init_flash, gn_init_step._gn_init_spiffs,
         gn_init_step._gn_init_event_loop, gn_init_step._gn_evt_handlers_register,
         gn_init_step._gn_init_keepalive_timer, gn_init_step.gn_init_display,
         gn_init_step._gn_init_wifi, gn_init_step._gn_init_time_sync,
         gn_init_step.gn_mqtt_init]

/-- A sequence of `gn_init` calls, each with the results of its steps: the handles
returned, in call order, and the globals after the last call. -/
def gn_init_calls (wifi_enabled : Bool) (g : gn_globals) :
    List gn_init_env → List (Option gn_config_obj) × gn_globals
  | [] => ([], g)
  | env :: rest =>
    let r := gn_init wifi_enabled env g
    let rs := gn_init_calls wifi_enabled r.2 rest
    (r.1 :: rs.1, rs.2)

/-! ## Broker topics (gn_mqtt_protocol.c) -/

/-- The constants the topic builders use: `CONFIG_GROWNODE_MQTT_BASE_TOPIC` of the
build configuration, and `GN_MQTT_MAX_TOPIC_LENGTH`, `GN_MQTT_COMMAND_MESS` and
`GN_MQTT_STATUS_MESS` of gn_mqtt_protocol.h. -/
structure mqtt_consts where
  CONFIG_GROWNODE_MQTT_BASE_TOPIC : CStr
  GN_MQTT_MAX_TOPIC_LENGTH : Nat
  GN_MQTT_COMMAND_MESS : CStr
  GN_MQTT_STATUS_MESS : CStr

/-- The string in `buf` after `strncpy(buf, src, n)`: at most `n` characters of `src`. -/
def c_strncpy (src : CStr) (n : Nat) : CStr := src.take n

/-- The string in `buf` after `strncat(buf, src, n)`: at most `n` characters of `src`
behind what `buf` held. -/
def c_strncat (buf src : CStr) (n : Nat) : CStr := buf ++ src.take n

/-- The string in `buf` after `buf[i] = 0`. -/
def c_cut (buf : CStr) (i : Nat) : CStr := buf.take i

/-- The function `_gn_mqtt_build_leaf_command_topic`: the string left in `buf`. What
the calls write past the end of `buf` when the text does not fit is left out. -/
def _gn_mqtt_build_leaf_command_topic (M : mqtt_consts) (leaf_config : gn_leaf_config_t) :
    CStr :=
  let buf := c_strncpy M.CONFIG_GROWNODE_MQTT_BASE_TOPIC M.GN_MQTT_MAX_TOPIC_LENGTH
  let buf := c_strncat buf ['/'] M.GN_MQTT_MAX_TOPIC_LENGTH
  let buf := c_strncat buf leaf_config.name M.GN_MQTT_MAX_TOPIC_LENGTH
  let buf := c_strncat buf ['/'] M.GN_MQTT_MAX_TOPIC_LENGTH
  let buf := c_strncat buf M.GN_MQTT_COMMAND_MESS M.GN_MQTT_MAX_TOPIC_LENGTH
  c_cut buf (M.GN_MQTT_MAX_TOPIC_LENGTH - 1)

/-- The function `_gn_mqtt_build_status_topic`: the string left in `buf`. -/
def _gn_mqtt_build_status_topic (M : mqtt_consts) : CStr :=
  let buf := c_strncpy M.CONFIG_GROWNODE_MQTT_BASE_TOPIC M.GN_MQTT_MAX_TOPIC_LENGTH
  let buf := c_strncat buf ['/'] M.GN_MQTT_MAX_TOPIC_LENGTH
  let buf := c_strncat buf M.GN_MQTT_STATUS_MESS M.GN_MQTT_MAX_TOPIC_LENGTH
  c_cut buf (M.GN_MQTT_MAX_TOPIC_LENGTH - 1)

/-- The function `_gn_mqtt_build_leaf_status_topic`: the string left in `buf`. -/
def _gn_mqtt_build_leaf_status_topic (M : mqtt_consts) (leaf_config : gn_leaf_config_t) :
    CStr :=
  let buf := c_strncpy M.CONFIG_GROWNODE_MQTT_BASE_TOPIC M.GN_MQTT_MAX_TOPIC_LENGTH
  let buf := c_strncat buf ['/'] M.GN_MQTT_MAX_TOPIC_LENGTH
  let buf := c_strncat buf leaf_config.name M.GN_MQTT_MAX_TOPIC_LENGTH
  let buf := c_strncat buf ['/'] M.GN_MQTT_MAX_TOPIC_LENGTH
  let buf := c_strncat buf M.GN_MQTT_STATUS_MESS M.GN_MQTT_MAX_TOPIC_LENGTH
  c_cut buf (M.GN_MQTT_MAX_TOPIC_LENGTH - 1)

/-! ## Configuration of the watering-control leaf (gn_watering_control_config) -/

/-- The status of a leaf descriptor. -/
inductive gn_leaf_status_t
  | GN_LEAF_STATUS_NOT_INITIALIZED
  | GN_LEAF_STATUS_INITIALIZED
  | GN_LEAF_STATUS_ERROR
  deriving DecidableEq, Repr

open gn_leaf_status_t

/-- The leaf name `WATERLEVELIN`. -/
def WATERLEVELIN : CStr := ['w', 'a', 't', 'e', 'r', 'l', 'e', 'v', 'e', 'l', 'i', 'n']

/-- The leaf name `DS18B20`. -/
def DS18B20 : CStr := ['d', 's', '1', '8', 'b', '2', '0']

/-- The leaf name `BME280`. -/
def BME280 : CStr := ['b', 'm', 'e', '2', '8', '0']

/-- The leaf name `PLT_A`. -/
def PLT_A : CStr := ['p', 'l', 't', '_', 'a']

/-- The leaf name `PLT_B`. -/
def PLT_B : CStr := ['p', 'l', 't', '_', 'b']

/-- The leaf name `HCC`. -/
def HCC : CStr := ['h', 'c', 'c']

/-- The leaf name `WATERPUMPIN`. -/
def WATERPUMPIN : CStr := ['w', 'a', 't', 'e', 'r', 'p', 'u', 'm', 'p', 'i', 'n']

/-- The constants of gn_watering_control.h that `gn_watering_control_config` uses: the
type tag of the leaf and the names of its four parameters. -/
structure wat_names where
  GN_LEAF_WATERING_CONTROL_TYPE : CStr
  GN_WAT_CTR_PARAM_WATERING_TIME_SEC : CStr
  GN_WAT_CTR_PARAM_WATERING_INTERVAL_SEC : CStr
  GN_WAT_CTR_PARAM_WATERING_TARGET_TEMP : CStr
  GN_WAT_CTR_PARAM_ACTIVE : CStr

/-- What the services answer while one parameter is created and added: the answers to
`gn_leaf_param_create`, and the results of the two MQTT calls of `gn_leaf_param_add`. -/
structure param_setup_env where
  env : gn_env
  sub : esp_err_t
  send : gn_err_t

/-- The pair of calls `p = gn_leaf_param_create(leaf_config, ...)` and
`gn_leaf_param_add(leaf_config, p)`, whose results the configuration code ignores:
the handle `p` and the leaf afterwards. The validator argument of the call is not an
argument of `gn_leaf_param_create` as grownode.c defines it and is left out. -/
def param_create_add (e : param_setup_env) (nvs : nvs_t) (leaf_config : gn_leaf_config_t)
    (name : CStr) (type : gn_val_type_t) (val : gn_val_t)
    (access : gn_leaf_param_access_t) (storage : gn_leaf_param_storage_t) :
    Option gn_leaf_param_t × gn_leaf_config_t :=
  let p := gn_leaf_param_create e.env nvs leaf_config (some name) type val access storage
  match (gn_leaf_param_add e.sub e.send (some leaf_config) p).2 with
  | some l1 => (p, l1)
  | none => (p, leaf_config)

/-- The struct `gn_watering_control_data_t` as `gn_watering_control_config` fills it:
the supervisor state, the four parameter handles and the seven leaf handles. A handle
is `none` when it is `NULL` or when the code has not assigned it. -/
structure wat_config_data where
  state : gn_watering_control_data_t
  param_watering_time : Option gn_leaf_param_t
  param_watering_interval : Option gn_leaf_param_t
  param_watering_t_temp : Option gn_leaf_param_t
  param_active : Option gn_leaf_param_t
  leaf_cwl : Option Nat
  leaf_ds18b20 : Option Nat
  leaf_bme280 : Option Nat
  leaf_plt_a : Option Nat
  leaf_plt_b : Option Nat
  leaf_hcc_pump : Option Nat
  leaf_wat_pump : Option Nat
  deriving DecidableEq, Repr

/-- The struct `gn_leaf_descriptor_t` of the watering-control leaf: type tag, status
and data. The callback is always `gn_watering_control_task`. -/
structure wat_descriptor where
  type : CStr
  status : gn_leaf_status_t
  data : wat_config_data
  deriving DecidableEq, Repr

/-- The double 20, as a bit pattern. -/
def double_20 : gn_double := 0x4034000000000000

/-- The double 3600 (`60 * 60`), as a bit pattern. -/
def double_3600 : gn_double := 0x40AC200000000000

/-- The double 22, as a bit pattern. -/
def double_22 : gn_double := 0x4036000000000000

/-- The seven lookups of `gn_watering_control_config` (lines 563 to 603) and its two
exits. `get` is `gn_leaf_get_config_handle` applied to the node of the leaf, a
function declared outside of the files embedded here: the handle of the leaf of that
name, or `none` for `NULL`. The first lookup that fails ends the function through
`fail` with the status `GN_LEAF_STATUS_ERROR`. -/
def wat_config_lookups (N : wat_names) (get : CStr → Option Nat) (data : wat_config_data) :
    wat_descriptor :=
  let fail (d : wat_config_data) : wat_descriptor :=
    { type := N.GN_LEAF_WATERING_CONTROL_TYPE, status := GN_LEAF_STATUS_ERROR, data := d }
  match get WATERLEVELIN with
  | none => fail data
  | some cwl =>
  let data := { data with leaf_cwl := some cwl }
  match get DS18B20 with
  | none => fail data
  | some ds =>
  let data := { data with leaf_ds18b20 := some ds }
  match get BME280 with
  | none => fail data
  | some bme =>
  let data := { data with leaf_bme280 := some bme }
  match get PLT_A with
  | none => fail data
  | some pa =>
  let data := { data with leaf_plt_a := some pa }
  match get PLT_B with
  | none => fail data
  | some pb =>
  let data := { data with leaf_plt_b := some pb }
  match get HCC with
  | none => fail data
  | some hcc =>
  let data := { data with leaf_hcc_pump := some hcc }
  match get WATERPUMPIN with
  | none => fail data
  | some wp =>
  let data := { data with leaf_wat_pump := some wp }
  { type := N.GN_LEAF_WATERING_CONTROL_TYPE, status := GN_LEAF_STATUS_INITIALIZED,
    data := data }

/-- The function `gn_watering_control_config`: the descriptor returned and the leaf
afterwards. `e1` to `e4` are what the services answer while the four parameters are
set up, in source order. -/
def gn_watering_control_config (N : wat_names) (e1 e2 e3 e4 : param_setup_env)
    (nvs : nvs_t) (get : CStr → Option Nat) (leaf_config : gn_leaf_config_t) :
    wat_descriptor × gn_leaf_config_t :=
  let r1 := param_create_add e1 nvs leaf_config N.GN_WAT_CTR_PARAM_WATERING_TIME_SEC
    GN_VAL_TYPE_DOUBLE (gn_val_t.d double_20) GN_LEAF_PARAM_ACCESS_WRITE
    GN_LEAF_PARAM_STORAGE_PERSISTED
  let r2 := param_create_add e2 nvs r1.2 N.GN_WAT_CTR_PARAM_WATERING_INTERVAL_SEC
    GN_VAL_TYPE_DOUBLE (gn_val_t.d double_3600) GN_LEAF_PARAM_ACCESS_WRITE
    GN_LEAF_PARAM_STORAGE_PERSISTED
  let r3 := param_create_add e3 nvs r2.2 N.GN_WAT_CTR_PARAM_WATERING_TARGET_TEMP
    GN_VAL_TYPE_DOUBLE (gn_val_t.d double_22) GN_LEAF_PARAM_ACCESS_WRITE
    GN_LEAF_PARAM_STORAGE_PERSISTED
  let r4 := param_create_add e4 nvs r3.2 N.GN_WAT_CTR_PARAM_ACTIVE
    GN_VAL_TYPE_BOOLEAN (gn_val_t.b false) GN_LEAF_PARAM_ACCESS_READWRITE
    GN_LEAF_PARAM_STORAGE_PERSISTED
  let data : wat_config_data :=
    { state := wat_data_init, param_watering_time := r1.1,
      param_watering_interval := r2.1, param_watering_t_temp := r3.1,
      param_active := r4.1, leaf_cwl := none, leaf_ds18b20 := none, leaf_bme280 := none,
      leaf_plt_a := none, leaf_plt_b := none, leaf_hcc_pump := none,
      leaf_wat_pump := none }
  (wat_config_lookups N get data, r4.2)

/-! ## Validators of the watering-control parameters (gn_watering_control.c, 87 to 160) -/

/-- The type `gn_leaf_param_validator_result_t`. -/
inductive gn_leaf_param_validator_result_t
  | GN_LEAF_PARAM_VALIDATOR_PASSED
  | GN_LEAF_PARAM_VALIDATOR_BELOW_MIN
  | GN_LEAF_PARAM_VALIDATOR_ABOVE_MAX
  | GN_LEAF_PARAM_VALIDATOR_ERROR
  deriving DecidableEq, Repr

open gn_leaf_param_validator_result_t

/-- The six bounds the validators compare with. They are defined in
gn_watering_control.h, a header outside of the files embedded here, so their values
are left open. A bound is the rational number its `double` stands for. -/
structure wat_bounds where
  MIN_WATERING_INTERVAL : ℚ
  MAX_WATERING_INTERVAL : ℚ
  MIN_WATERING_TIME : ℚ
  MAX_WATERING_TIME : ℚ
  MIN_WATERING_TARGET_TEMP : ℚ
  MAX_WATERING_TARGET_TEMP : ℚ

/-- The content of the cell `*param_value` a validator is handed: either the address
of a `double` object, given by the value `v` that object holds, or a number `c` that
was converted to a pointer, with no `double` object behind it. -/
inductive gn_value_ptr
  | object (v : ℚ)
  | number (c : ℚ)
  deriving DecidableEq, Repr

/-- The read `**(double**) param_value`: the value of the object pointed at, `none`
when the cell does not hold the address of a `double`. -/
def gn_value_ptr.deref : gn_value_ptr → Option ℚ
  | gn_value_ptr.object v => some v
  | gn_value_ptr.number _ => none

/-- The function `_gn_watering_interval_validator`. `get_value` is the result of
`gn_leaf_param_get_value(param, &val)`, a function declared outside of the files
embedded here. The result is the return code and the cell `*param_value` afterwards,
`none` when the proposed value cannot be read through the cell. On both clamping
branches the code assigns the bound itself to the cell
(`*param_value = MIN_WATERING_INTERVAL`), not its address. -/
def _gn_watering_interval_validator (B : wat_bounds) (get_value : gn_err_t)
    (param_value : gn_value_ptr) :
    Option (gn_leaf_param_validator_result_t × gn_value_ptr) :=
  if get_value ≠ GN_RET_OK then some (GN_LEAF_PARAM_VALIDATOR_ERROR, param_value)
  else
    match param_value.deref with
    | none => none
    | some v =>
      if B.MIN_WATERING_INTERVAL > v then
        some (GN_LEAF_PARAM_VALIDATOR_BELOW_MIN, gn_value_ptr.number B.MIN_WATERING_INTERVAL)
      else if B.MAX_WATERING_INTERVAL < v then
        some (GN_LEAF_PARAM_VALIDATOR_ABOVE_MAX, gn_value_ptr.number B.MAX_WATERING_INTERVAL)
      else some (GN_LEAF_PARAM_VALIDATOR_PASSED, param_value)

/-- The function `_gn_watering_time_validator`, with the conventions of
`_gn_watering_interval_validator`. The clamping branches assign the address of the
bound (`*param_value = &MIN_WATERING_TIME`). -/
def _gn_watering_time_validator (B : wat_bounds) (get_value : gn_err_t)
    (param_value : gn_value_ptr) :
    Option (gn_leaf_param_validator_result_t × gn_value_ptr) :=
  if get_value ≠ GN_RET_OK then some (GN_LEAF_PARAM_VALIDATOR_ERROR, param_value)
  else
    match param_value.deref with
    | none => none
    | some v =>
      if B.MIN_WATERING_TIME > v then
        some (GN_LEAF_PARAM_VALIDATOR_BELOW_MIN, gn_value_ptr.object B.MIN_WATERING_TIME)
      else if B.MAX_WATERING_TIME < v then
        some (GN_LEAF_PARAM_VALIDATOR_ABOVE_MAX, gn_value_ptr.object B.MAX_WATERING_TIME)
      else some (GN_LEAF_PARAM_VALIDATOR_PASSED, param_value)

/-- The function `_gn_watering_target_temp_validator`, with the conventions of
`_gn_watering_interval_validator`. The two comparisons are with `MIN_WATERING_TIME`
and `MAX_WATERING_TIME`, the two assignments take the address of
`MIN_WATERING_TARGET_TEMP` and of `MAX_WATERING_TARGET_TEMP`. -/
def _gn_watering_target_temp_validator (B : wat_bounds) (get_value : gn_err_t)
    (param_value : gn_value_ptr) :
    Option (gn_leaf_param_validator_result_t × gn_value_ptr) :=
  if get_value ≠ GN_RET_OK then some (GN_LEAF_PARAM_VALIDATOR_ERROR, param_value)
  else
    match param_value.deref with
    | none => none
    | some v =>
      if B.MIN_WATERING_TIME > v then
        some (GN_LEAF_PARAM_VALIDATOR_BELOW_MIN,
              gn_value_ptr.object B.MIN_WATERING_TARGET_TEMP)
      else if B.MAX_WATERING_TIME < v then
        some (GN_LEAF_PARAM_VALIDATOR_ABOVE_MAX,
              gn_value_ptr.object B.MAX_WATERING_TARGET_TEMP)
      else some (GN_LEAF_PARAM_VALIDATOR_PASSED, param_value)

/-! ## Event mask and the event handling of the watering-control task -/

/-- A parameter as `gn_common_leaf_event_mask_param` reaches it: the parameter and the
leaf its `leaf_config` back reference points at. -/
structure gn_leaf_param_ref where
  leaf_config : gn_leaf_config_t
  param : gn_leaf_param_t
  deriving DecidableEq, Repr

/-- The function `gn_common_leaf_event_mask_param` of gn_commons.c. -/
def gn_common_leaf_event_mask_param (evt : Option gn_leaf_event_t)
    (param : Option gn_leaf_param_ref) : Nat :=
  match evt, param with
  | some e, some p =>
    if e.leaf_name = p.leaf_config.name ∧ e.param_name = p.param.name then 0 else 1
  | _, _ => 1

/-- A call the task makes on `data->watering_timer`. The argument of
`esp_timer_start_periodic` is the local `p_wat_int_sec`, which the call multiplies by
1000000. -/
inductive wat_timer_call
  | esp_timer_stop
  | esp_timer_start_periodic (p_wat_int_sec : gn_double)
  deriving DecidableEq, Repr

/-- The two C library conversions the task applies to the text of an event. -/
structure wat_libc where
  atof : CStr → gn_double
  atoi : CStr → Int

/-- What the loop of `gn_watering_control_task` works on: the leaf, the parameter
handles of its descriptor data, the locals `p_wat_int_sec` and `p_active` (assigned in
front of the loop), the calls made on the timer so far (oldest first), and the
services of the parameter setters. A parameter handle is the parameter as created; the
task reads nothing but its name through it. -/
structure wat_task_t where
  leaf_config : gn_leaf_config_t
  data : wat_config_data
  p_wat_int_sec : gn_double
  p_active : Bool
  timer : List wat_timer_call
  st : gn_state

/-- The body of the task loop of `gn_watering_control_task` (lines 708 to 764) for an
event `evt` received from the queue. `env` is what the services answer to the setter
the event leads to. The results of the setters and of the timer calls are ignored by
the code. -/
def wat_task_event (N : wat_names) (C : wat_libc) (env : gn_env) (task : wat_task_t)
    (evt : gn_leaf_event_t) : wat_task_t :=
  let ref (p : Option gn_leaf_param_t) : Option gn_leaf_param_ref :=
    p.map fun q => { leaf_config := task.leaf_config, param := q }
  let leaf_after (r : gn_err_t × Option gn_leaf_config_t × gn_state) : gn_leaf_config_t :=
    match r.2.1 with
    | some l => l
    | none => task.leaf_config
  match evt.id with
  | GN_LEAF_PARAM_CHANGE_REQUEST_EVENT =>
    if gn_common_leaf_event_mask_param (some evt) (ref task.data.param_watering_interval) = 0
    then
      let r := gn_leaf_param_set_double env task.st (some task.leaf_config)
        (some N.GN_WAT_CTR_PARAM_WATERING_INTERVAL_SEC) (C.atof evt.data)
      { task with leaf_config := leaf_after r, st := r.2.2 }
    else if gn_common_leaf_event_mask_param (some evt) (ref task.data.param_watering_t_temp) = 0
    then
      let r := gn_leaf_param_set_double env task.st (some task.leaf_config)
        (some N.GN_WAT_CTR_PARAM_WATERING_TARGET_TEMP) (C.atof evt.data)
      { task with leaf_config := leaf_after r, st := r.2.2 }
    else if gn_common_leaf_event_mask_param (some evt) (ref task.data.param_active) = 0 then
      let prev_active := task.p_active
      let _active := C.atoi evt.data
      let r := gn_leaf_param_set_bool env task.st (some task.leaf_config)
        (some N.GN_WAT_CTR_PARAM_ACTIVE) (if _active = 0 then false else true)
      let task1 : wat_task_t :=
        { task with leaf_config := leaf_after r, st := r.2.2, p_active := decide (_active ≠ 0) }
      if _active = 0 ∧ prev_active = true then
        { task1 with timer := task1.timer ++ [wat_timer_call.esp_timer_stop] }
      else if _active ≠ 0 ∧ prev_active = false then
        { task1 with
            timer := task1.timer ++ [wat_timer_call.esp_timer_start_periodic task.p_wat_int_sec] }
      else task1
    else task
  | GN_LEAF_PARAM_CHANGED_EVENT => task
  | _ => task

/-! ## Parameter initialisation (gn_leaf_param_init_bool, _double, _string) -/

/-- Whether `gn_storage_get` assigns `*value` (grownode.c, line 2024): the flash opens
and reports a blob of positive size under the key. -/
def gn_storage_get_assigns (env : gn_env) (nvs : nvs_t) (key : CStr) : Bool :=
  decide (env.nvs_open = ESP_OK ∧ env.nvs_get_size = ESP_OK
    ∧ 0 < ((nvs (env.hash key)).getD []).length)

/-- The end shared by the three `gn_leaf_param_init_*` functions: the event is posted
to the event loop; nothing is handed to the broker. -/
def param_init_notify (env : gn_env) (st : gn_state) (leaf : gn_leaf_config_t)
    (evt : gn_leaf_event_t) : gn_err_t × Option gn_leaf_config_t × gn_state :=
  if env.event_post ≠ ESP_OK then (GN_RET_ERR, some leaf, st)
  else (GN_RET_OK, some leaf, { st with posted := st.posted ++ [evt] })

/-- The function `gn_leaf_param_init_bool`. The code hands the address of its argument
`val` to `gn_storage_get`, which writes the pointer to the buffer it allocates over
it. When `gn_storage_get` then returns `GN_RET_OK` the function returns at once
(line 1078). When it has written the pointer and fails afterwards, the function goes
on with an argument that no longer holds the value passed: the result is `none`. -/
def gn_leaf_param_init_bool (env : gn_env) (st : gn_state)
    (leaf_config : Option gn_leaf_config_t) (name : Option CStr) (val : Bool) :
    Option (gn_err_t × Option gn_leaf_config_t × gn_state) :=
  match leaf_config, name with
  | some leaf, some n =>
    match gn_leaf_param_get_param_handle (some leaf) (some n) with
    | none => some (ESP_ERR_INVALID_ARG, some leaf, st)
    | some h =>
      if (gn_storage_get env st.nvs (some (storage_key leaf.name n))).1 = GN_RET_OK then
        some (GN_RET_OK, some leaf, st)
      else if gn_storage_get_assigns env st.nvs (storage_key leaf.name n) then none
      else
        let stored :=
          gn_storage_set env st.nvs (some (storage_key leaf.name n)) (some (bool_bytes val)) 1
        if stored.1 ≠ GN_RET_OK then some (GN_RET_ERR, some leaf, { st with nvs := stored.2 })
        else
          let _param := h.param.set_v (gn_val_t.b val)
          let leaf1 := { leaf with params := h.write _param }
          let evt : gn_leaf_event_t :=
            { id := GN_LEAF_PARAM_CHANGED_EVENT, leaf_name := leaf.name,
              param_name := _param.name, data := [if !val then '0' else '1'],
              data_size := some 1 }
          some (param_init_notify env { st with nvs := stored.2 } leaf1 evt)
  | _, _ => some (ESP_ERR_INVALID_ARG, leaf_config, st)

/-- The function `gn_leaf_param_init_double`, with the conventions of
`gn_leaf_param_init_bool`. -/
def gn_leaf_param_init_double (env : gn_env) (st : gn_state)
    (leaf_config : Option gn_leaf_config_t) (name : Option CStr) (val : gn_double) :
    Option (gn_err_t × Option gn_leaf_config_t × gn_state) :=
  match leaf_config, name with
  | some leaf, some n =>
    match gn_leaf_param_get_param_handle (some leaf) (some n) with
    | none => some (ESP_ERR_INVALID_ARG, some leaf, st)
    | some h =>
      if (gn_storage_get env st.nvs (some (storage_key leaf.name n))).1 = GN_RET_OK then
        some (GN_RET_OK, some leaf, st)
      else if gn_storage_get_assigns env st.nvs (storage_key leaf.name n) then none
      else
        let stored :=
          gn_storage_set env st.nvs (some (storage_key leaf.name n)) (some (double_bytes val)) 8
        if stored.1 ≠ GN_RET_OK then some (GN_RET_ERR, some leaf, { st with nvs := stored.2 })
        else
          let _param := h.param.set_v (gn_val_t.d val)
          let leaf1 := { leaf with params := h.write _param }
          let evt : gn_leaf_event_t :=
            { id := GN_LEAF_PARAM_CHANGED_EVENT, leaf_name := leaf.name,
              param_name := _param.name, data := env.sprintf_f val,
              data_size := some ((env.sprintf_f val).length + 1) }
          some (param_init_notify env { st with nvs := stored.2 } leaf1 evt)
  | _, _ => some (ESP_ERR_INVALID_ARG, leaf_config, st)

/-- The function `gn_leaf_param_init_string`, with the conventions of
`gn_leaf_param_init_bool`. `val_ref` is the memory at `&val`, the address the code
passes to `gn_storage_set`. The value is copied with
`strncpy(_val->v.s, val, strlen(val))` into the buffer the parameter already has,
which holds the old text and its terminator: the characters of the old text behind
the copied ones stay. A copy longer than the old text, or into a parameter without
text buffer, gives `none`. -/
def gn_leaf_param_init_string (env : gn_env) (st : gn_state)
    (leaf_config : Option gn_leaf_config_t) (name : Option CStr) (val : Option CStr)
    (val_ref : List Nat) : Option (gn_err_t × Option gn_leaf_config_t × gn_state) :=
  match leaf_config, name, val with
  | some leaf, some n, some v =>
    match gn_leaf_param_get_param_handle (some leaf) (some n) with
    | none => some (ESP_ERR_INVALID_ARG, some leaf, st)
    | some h =>
      if (gn_storage_get env st.nvs (some (storage_key leaf.name n))).1 = GN_RET_OK then
        some (GN_RET_OK, some leaf, st)
      else if gn_storage_get_assigns env st.nvs (storage_key leaf.name n) then none
      else
        let stored :=
          gn_storage_set env st.nvs (some (storage_key leaf.name n)) (some val_ref) v.length
        if stored.1 ≠ GN_RET_OK then some (GN_RET_ERR, some leaf, { st with nvs := stored.2 })
        else
          match h.param.param_val.v with
          | gn_val_t.s (some old) =>
            if v.length ≤ old.length then
              let _param := h.param.set_v (gn_val_t.s (some (v ++ old.drop v.length)))
              let leaf1 := { leaf with params := h.write _param }
              let evt : gn_leaf_event_t :=
                { id := GN_LEAF_PARAM_CHANGED_EVENT, leaf_name := leaf.name,
                  param_name := _param.name,
                  data := (v ++ old.drop v.length).take env.GN_LEAF_DATA_SIZE,
                  data_size := none }
              some (param_init_notify env { st with nvs := stored.2 } leaf1 evt)
            else none
          | _ => none
  | _, _, _ => some (ESP_ERR_INVALID_ARG, leaf_config, st)

/-! ## Views of the supervisor state -/

/-- Whether the leaf `l` is commanded on: the value of the last command issued to it,
off when none was issued. -/
def wat_commanded (data : gn_watering_control_data_t) (l : wat_leaf) : Bool :=
  data.commands.foldl (fun cur c => if c.1 = l then c.2 else cur) false

/-- The thermal actuation agrees with the thermal state: plate A is commanded on
exactly in `HCC_HEATING`, plate B exactly in `HCC_COOLING`, the conditioning pump
exactly outside of `HCC_STOP`. -/
def wat_hcc_coherent (data : gn_watering_control_data_t) : Prop :=
  (wat_commanded data leaf_plt_a = true ↔ data.hcc_cycle = HCC_HEATING)
  ∧ (wat_commanded data leaf_plt_b = true ↔ data.hcc_cycle = HCC_COOLING)
  ∧ (wat_commanded data leaf_hcc_pump = true ↔ data.hcc_cycle ≠ HCC_STOP)

/-- The supervisor state after successive invocations of `_gn_watering_callback` by the
periodic timer, each on the observations of its iterations. -/
def wat_run (K : wat_consts) (data : gn_watering_control_data_t) :
    List (List wat_tick) → gn_watering_control_data_t
  | [] => data
  | ticks :: more => wat_run K (_gn_watering_callback K data ticks).1 more

/-! ## Sample inputs -/

/-- Services that answer every call with success; the hash keeps the first fifteen
characters of the key. -/
def env_ok : gn_env :=
  { hash := fun k => k.take 15, nvs_open := ESP_OK, nvs_set_blob := ESP_OK,
    nvs_commit := ESP_OK, nvs_get_size := ESP_OK, nvs_get_data := ESP_OK,
    heap_tail := [0, 0, 0, 0], event_post := ESP_OK, mqtt_send := GN_RET_OK,
    sprintf_f := fun _ => [], GN_LEAF_DATA_SIZE := 32 }

/-- Services whose flash cannot be opened. -/
def env_flash_down : gn_env := { env_ok with nvs_open := 0x1101 }

/-- An empty store, no event posted, nothing published. -/
def st_empty : gn_state := { nvs := fun _ => none, posted := [], published := [] }

/-- A boolean parameter "status" with value false. -/
def param_status (access : gn_leaf_param_access_t) (storage : gn_leaf_param_storage_t) :
    gn_leaf_param_t :=
  { name := ['s', 't', 'a', 't', 'u', 's'],
    param_val := { t := GN_VAL_TYPE_BOOLEAN, v := gn_val_t.b false },
    access := access, storage := storage }

/-- A leaf "relay" with the single parameter "status". -/
def leaf_relay (access : gn_leaf_param_access_t) (storage : gn_leaf_param_storage_t) :
    gn_leaf_config_t :=
  { name := ['r', 'e', 'l', 'a', 'y'], params := [param_status access storage],
    event_queue := [] }

/-- A string parameter "label" with value "old". -/
def param_label : gn_leaf_param_t :=
  { name := ['l', 'a', 'b', 'e', 'l'],
    param_val := { t := GN_VAL_TYPE_STRING, v := gn_val_t.s (some ['o', 'l', 'd']) },
    access := GN_LEAF_PARAM_ACCESS_WRITE, storage := GN_LEAF_PARAM_STORAGE_PERSISTED }

/-- A leaf "relay" with the single parameter "label". -/
def leaf_label : gn_leaf_config_t :=
  { name := ['r', 'e', 'l', 'a', 'y'], params := [param_label], event_queue := [] }

/-- The memory at `&val` when the argument `val` of `gn_leaf_param_set_string` holds
the address 0x3ffb1234: the four bytes of the pointer, then the stack above it. -/
def val_ref_sample : List Nat := [0x34, 0x12, 0xfb, 0x3f, 0, 0, 0, 0]

/-- A boolean parameter "status_led" with value false. -/
def param_status_led : gn_leaf_param_t :=
  { name := ['s', 't', 'a', 't', 'u', 's', '_', 'l', 'e', 'd'],
    param_val := { t := GN_VAL_TYPE_BOOLEAN, v := gn_val_t.b false },
    access := GN_LEAF_PARAM_ACCESS_WRITE, storage := GN_LEAF_PARAM_STORAGE_VOLATILE }

/-- A leaf "relay" with the boolean parameters "status_led" and "status", added in
this order. -/
def leaf_two_status : gn_leaf_config_t :=
  { name := ['r', 'e', 'l', 'a', 'y'],
    params := [param_status_led,
               param_status GN_LEAF_PARAM_ACCESS_WRITE GN_LEAF_PARAM_STORAGE_VOLATILE],
    event_queue := [] }

/-- The state of a supervisor that is heating and watering. -/
def wat_data_busy : gn_watering_control_data_t :=
  { hcc_cycle := HCC_HEATING, hcc_cycle_start := 0, wat_cycle_active := true,
    wat_cycle_cumulative_time_ms := 3000, commands := [] }

/-- An iteration in which every read goes through: sensor active, no level trigger,
water at the target temperature of 22 degrees, watering time 20 seconds. -/
def tick_in_band : wat_tick :=
  { p_wat_int_sec := some 3600, p_wat_time_sec := some 20, p_wat_t_temp := some 22,
    p_active := some true, p_cwl := some 50, p_cwl_trg_high := some false,
    p_cwl_trg_low := some false, p_ds18b20_temp_active := some true,
    p_wat_temp := some 22, p_plt_temp := some 22, p_plt_a_status := some false,
    p_plt_b_status := some false, p_wat_pump := some false, p_hcc_toggle := some false,
    p_hcc_power := some 0, time_hcc_start := 5, time_check := 6 }

/-- The iteration `tick_in_band` with the read of the last parameter failing. -/
def tick_read_fails : wat_tick := { tick_in_band with p_hcc_power := none }

/-- A poll period of one second and a thermal cycle cap of ten minutes. -/
def wat_consts_sample : wat_consts :=
  { GN_WAT_CTR_CYCLE_TIME_MS := 1000, MAX_HCC_CYCLE_TIME_SEC := 600 }

/-- A configuration root, started, whose node holds the leaf "relay" alone. -/
def conf_relay : gn_config_t :=
  { status := GN_CONFIG_STATUS_STARTED,
    node_config :=
      { name := ['n', 'o', 'd', 'e'],
        leaves := [leaf_relay GN_LEAF_PARAM_ACCESS_WRITE GN_LEAF_PARAM_STORAGE_VOLATILE] },
    actions := [] }

/-- A change request for the parameter "status" of a leaf "pump". -/
def evt_pump : gn_leaf_event_t :=
  { id := GN_LEAF_PARAM_CHANGE_REQUEST_EVENT, leaf_name := ['p', 'u', 'm', 'p'],
    param_name := ['s', 't', 'a', 't', 'u', 's'], data := ['1'], data_size := some 1 }

/-- The constants of the watering-control leaf, with sample texts. -/
def wat_names_sample : wat_names :=
  { GN_LEAF_WATERING_CONTROL_TYPE := ['w', 'a', 't', 'c', 't', 'r'],
    GN_WAT_CTR_PARAM_WATERING_TIME_SEC := ['w', 'a', 't', '_', 't', 'i', 'm', 'e'],
    GN_WAT_CTR_PARAM_WATERING_INTERVAL_SEC := ['w', 'a', 't', '_', 'i', 'n', 't'],
    GN_WAT_CTR_PARAM_WATERING_TARGET_TEMP := ['w', 'a', 't', '_', 't', 'e', 'm', 'p'],
    GN_WAT_CTR_PARAM_ACTIVE := ['a', 'c', 't', 'i', 'v', 'e'] }

/-- Services that answer every call of a parameter set-up with success. -/
def setup_ok : param_setup_env := { env := env_ok, sub := ESP_OK, send := GN_RET_OK }

/-- A leaf without parameters. -/
def leaf_named (name : CStr) : gn_leaf_config_t := _gn_leaf_config_create name

/-- The seven leaves the watering-control leaf depends on, in a node. -/
def leaves_all : List gn_leaf_config_t :=
  [leaf_named WATERLEVELIN, leaf_named DS18B20, leaf_named BME280, leaf_named PLT_A,
   leaf_named PLT_B, leaf_named HCC, leaf_named WATERPUMPIN]

/-- The leaves of `leaves_all` without the conditioning pump "hcc". -/
def leaves_no_hcc : List gn_leaf_config_t :=
  [leaf_named WATERLEVELIN, leaf_named DS18B20, leaf_named BME280, leaf_named PLT_A,
   leaf_named PLT_B, leaf_named WATERPUMPIN]

/-- A lookup of a leaf handle by name in a list of leaves, the way
`_gn_leaf_get_by_name` does it: the position of the first leaf of that name. -/
def get_in (leaves : List gn_leaf_config_t) (name : CStr) : Option Nat :=
  (leaf_find_by_name name leaves).map (·.1)

/-- An initialization in which every step succeeds. -/
def init_ok : gn_init_env :=
  { flash := ESP_OK, spiffs := ESP_OK, event_loop := ESP_OK, keepalive_timer := ESP_OK,
    display := ESP_OK, wifi := ESP_OK, time_sync := ESP_OK, mqtt := ESP_OK }

/-- An initialization whose first step, flash, fails. -/
def init_flash_fails : gn_init_env := { init_ok with flash := 1 }

/-- A leaf start in which the task is created and the leaf is published. -/
def start_ok : leaf_start_env := { task_created := true, mqtt_publish_leaf := GN_RET_OK }

/-- A leaf start in which the task cannot be created. -/
def start_fails : leaf_start_env := { task_created := false, mqtt_publish_leaf := GN_RET_OK }

/-- A configuration root, initialized, whose node holds the leaves "relay" and "pump". -/
def conf_two_leaves : gn_config_t :=
  { status := GN_CONFIG_STATUS_COMPLETED,
    node_config :=
      { name := ['n', 'o', 'd', 'e'],
        leaves := [leaf_relay GN_LEAF_PARAM_ACCESS_WRITE GN_LEAF_PARAM_STORAGE_VOLATILE,
                   leaf_named ['p', 'u', 'm', 'p']] },
    actions := [] }

/-- A configuration root with a broker client and no node yet. -/
def root_fresh : gn_config_root :=
  { status := GN_CONFIG_STATUS_COMPLETED, mqtt_client := some 1, node_config := none }

/-- A configuration root whose node holds sixty-three leaves "relay". -/
def root_63 : gn_config_root :=
  { status := GN_CONFIG_STATUS_COMPLETED, mqtt_client := some 1,
    node_config := some { name := ['n', 'o', 'd', 'e'],
                          leaves := List.replicate 63 (leaf_named ['r', 'e', 'l', 'a', 'y']) } }

/-- A configuration callback that creates no parameter. -/
def callback_plain : gn_leaf_config_callback := fun _ l => l

/-- The topic constants, with sample texts and a topic length of 80. -/
def mqtt_consts_sample : mqtt_consts :=
  { CONFIG_GROWNODE_MQTT_BASE_TOPIC := ['g', 'n'], GN_MQTT_MAX_TOPIC_LENGTH := 80,
    GN_MQTT_COMMAND_MESS := ['c', 'm', 'd'], GN_MQTT_STATUS_MESS := ['s', 't', 's'] }

/-- Sample bounds: an interval of 60 to 86400 seconds, a watering time of 1 to 120
seconds, a target temperature of 10 to 35 degrees. -/
def wat_bounds_sample : wat_bounds :=
  { MIN_WATERING_INTERVAL := 60, MAX_WATERING_INTERVAL := 86400, MIN_WATERING_TIME := 1,
    MAX_WATERING_TIME := 120, MIN_WATERING_TARGET_TEMP := 10, MAX_WATERING_TARGET_TEMP := 35 }

/-- A store in which the key of the parameter "status" of the leaf "relay" holds the
byte of `false`. -/
def st_status_stored : gn_state :=
  { st_empty with
      nvs := nvs_put st_empty.nvs
        (env_ok.hash (storage_key ['r', 'e', 'l', 'a', 'y'] ['s', 't', 'a', 't', 'u', 's']))
        (bool_bytes false) }

/-- A persisted double parameter "wat_time" with value 20. -/
def param_wat_time : gn_leaf_param_t :=
  { name := ['w', 'a', 't', '_', 't', 'i', 'm', 'e'],
    param_val := { t := GN_VAL_TYPE_DOUBLE, v := gn_val_t.d double_20 },
    access := GN_LEAF_PARAM_ACCESS_WRITE, storage := GN_LEAF_PARAM_STORAGE_PERSISTED }

/-- A leaf "wat" with the single parameter "wat_time". -/
def leaf_wat : gn_leaf_config_t :=
  { name := ['w', 'a', 't'], params := [param_wat_time], event_queue := [] }

/-- A store in which the key of the parameter "wat_time" of the leaf "wat" holds the
bytes of the double 20. -/
def st_wat_time_stored : gn_state :=
  { st_empty with
      nvs := nvs_put st_empty.nvs
        (env_ok.hash (storage_key ['w', 'a', 't'] ['w', 'a', 't', '_', 't', 'i', 'm', 'e']))
        (double_bytes double_20) }

/-- A store in which the key of the parameter "label" of the leaf "relay" holds the
characters of "old". -/
def st_label_stored : gn_state :=
  { st_empty with
      nvs := nvs_put st_empty.nvs
        (env_ok.hash (storage_key ['r', 'e', 'l', 'a', 'y'] ['l', 'a', 'b', 'e', 'l']))
        [111, 108, 100] }

/-- A configuration callback that creates one read-only boolean parameter "listed",
whose value tells whether the node the leaf belongs to already lists a leaf with the
name of the new leaf. -/
def callback_probe : gn_leaf_config_callback := fun n l =>
  { l with params :=
      [{ name := ['l', 'i', 's', 't', 'e', 'd'],
         param_val := { t := GN_VAL_TYPE_BOOLEAN,
                        v := gn_val_t.b (leaf_find_by_name l.name n.leaves).isSome },
         access := GN_LEAF_PARAM_ACCESS_READ, storage := GN_LEAF_PARAM_STORAGE_VOLATILE }] }

/-- A configuration root whose node holds no leaf. -/
def root_empty_node : gn_config_root :=
  { status := GN_CONFIG_STATUS_COMPLETED, mqtt_client := some 1,
    node_config := some { name := ['n', 'o', 'd', 'e'], leaves := [] } }

/-- A node that holds no leaf. -/
def node_empty : gn_node_config_t := { name := ['n', 'o', 'd', 'e'], leaves := [] }

/-- A change request for the parameter "status" of the leaf "relay". -/
def evt_relay_status : gn_leaf_event_t :=
  { id := GN_LEAF_PARAM_CHANGE_REQUEST_EVENT, leaf_name := ['r', 'e', 'l', 'a', 'y'],
    param_name := ['s', 't', 'a', 't', 'u', 's'], data := ['1'], data_size := some 1 }

/-- Conversions that read a text of decimal digits as a number; `atof` answers with
the double 22 whatever the text. -/
def libc_sample : wat_libc :=
  { atof := fun _ => double_22,
    atoi := fun s => s.foldl (fun n c => 10 * n + ((c.toNat : Int) - 48)) 0 }

/-- The task of a watering-control leaf "wat" right after its configuration with the
sample names on an empty store: the four parameters hold their defaults, the task is
inactive and has made no call on its timer. -/
def task_sample : wat_task_t :=
  { leaf_config :=
      (gn_watering_control_config wat_names_sample setup_ok setup_ok setup_ok setup_ok
        st_empty.nvs (get_in leaves_all) (leaf_named ['w', 'a', 't'])).2,
    data :=
      (gn_watering_control_config wat_names_sample setup_ok setup_ok setup_ok setup_ok
        st_empty.nvs (get_in leaves_all) (leaf_named ['w', 'a', 't'])).1.data,
    p_wat_int_sec := double_3600, p_active := false, timer := [], st := st_empty }

/-- A change request for the watering time of the leaf "wat". -/
def evt_wat_time : gn_leaf_event_t :=
  { id := GN_LEAF_PARAM_CHANGE_REQUEST_EVENT, leaf_name := ['w', 'a', 't'],
    param_name := ['w', 'a', 't', '_', 't', 'i', 'm', 'e'], data := ['3', '0'],
    data_size := some 2 }

/-! ## Lemmas -/

/-- The loop of `gn_leaf_param_add` rejects a name the list holds. -/
theorem param_add_link_of_mem (new_param : gn_leaf_param_t) :
    ∀ ps : List gn_leaf_param_t, new_param.name ∈ ps.map (·.name) →
      param_add_link new_param ps = none
  | [], h => by simp at h
  | [p], h => by
    have hp : p.name = new_param.name := by simpa [eq_comm] using h
    simp [param_add_link, hp]
  | p :: q :: more, h => by
    by_cases hp : p.name = new_param.name
    · simp [param_add_link, hp]
    · have h1 : new_param.name ∈ (q :: more).map (·.name) := by
        rcases List.mem_map.1 h with ⟨x, hx, hxn⟩
        rcases List.mem_cons.1 hx with rfl | hx1
        · exact absurd hxn hp
        · exact List.mem_map.2 ⟨x, hx1, hxn⟩
      simp [param_add_link, hp, param_add_link_of_mem new_param (q :: more) h1]

/-- The loop of `gn_leaf_param_add` links a parameter with a new name behind the list. -/
theorem param_add_link_of_not_mem (new_param : gn_leaf_param_t) :
    ∀ ps : List gn_leaf_param_t, new_param.name ∉ ps.map (·.name) →
      param_add_link new_param ps = some (ps ++ [new_param])
  | [], _ => by simp [param_add_link]
  | [p], h => by
    have hp : ¬ p.name = new_param.name := by
      intro e; exact h (by simp [e])
    simp [param_add_link, hp]
  | p :: q :: more, h => by
    have hp : ¬ p.name = new_param.name := by
      intro e; exact h (by simp [e])
    have h1 : new_param.name ∉ (q :: more).map (·.name) := by
      intro hm; exact h (by simp only [List.map_cons, List.mem_cons] at hm ⊢; exact Or.inr hm)
    simp [param_add_link, hp, param_add_link_of_not_mem new_param (q :: more) h1]

/-- One `gn_leaf_param_add` keeps the names of a leaf pairwise distinct. -/
theorem param_add_names_nodup (sub : esp_err_t) (send : gn_err_t) (leaf : gn_leaf_config_t)
    (p : gn_leaf_param_t) (hnd : (leaf.params.map (·.name)).Nodup) :
    ∃ l1, (gn_leaf_param_add sub send (some leaf) (some p)).2 = some l1 ∧
      (l1.params.map (·.name)).Nodup := by
  by_cases hm : p.name ∈ leaf.params.map (·.name)
  · exact ⟨leaf, by simp [gn_leaf_param_add, param_add_link_of_mem p _ hm], hnd⟩
  · refine ⟨{ leaf with params := leaf.params ++ [p] }, ?_, ?_⟩
    · simp only [gn_leaf_param_add, param_add_link_of_not_mem p _ hm]
      split_ifs <;> rfl
    · simp only [List.map_append, List.map_cons, List.map_nil]
      refine List.Nodup.append hnd (List.nodup_singleton _) ?_
      intro x hx hx1
      rw [List.mem_singleton] at hx1
      exact hm (hx1 ▸ hx)

/-- A sequence of `gn_leaf_param_add` calls keeps the names pairwise distinct. -/
theorem param_add_all_names_nodup :
    ∀ (calls : List (esp_err_t × gn_err_t × gn_leaf_param_t)) (leaf : gn_leaf_config_t),
      (leaf.params.map (·.name)).Nodup →
      ((param_add_all leaf calls).params.map (·.name)).Nodup
  | [], leaf, h => by simpa [param_add_all] using h
  | (sub, send, p) :: calls, leaf, h => by
    obtain ⟨l1, e, hn⟩ := param_add_names_nodup sub send leaf p h
    simp only [param_add_all, e]
    exact param_add_all_names_nodup calls l1 hn

/-- The loop of `_gn_leaf_parameter_update` refuses a read-only parameter. -/
theorem parameter_update_loop_read (queue_sent : Bool) (lc : gn_leaf_config_t)
    (p : gn_leaf_param_t) (data : CStr) (data_len : Nat)
    (hr : p.access = GN_LEAF_PARAM_ACCESS_READ) :
    ∀ ps : List gn_leaf_param_t, p ∈ ps → (ps.map (·.name)).Nodup →
      parameter_update_loop queue_sent lc p.name data data_len ps
        = (GN_RET_ERR_LEAF_PARAM_ACCESS_VIOLATION, lc)
  | [], h, _ => by simp at h
  | q :: rest, h, hnd => by
    by_cases hq : p.name = q.name
    · have hqp : q = p := by
        rcases List.mem_cons.1 h with e | hm
        · exact e.symm
        · exfalso
          have h1 : q.name ∉ rest.map (·.name) := (List.nodup_cons.1 hnd).1
          exact h1 (List.mem_map.2 ⟨p, hm, hq⟩)
      subst hqp
      simp [parameter_update_loop, hr]
    · have hm : p ∈ rest := by
        rcases List.mem_cons.1 h with e | hm
        · exact absurd (by rw [e]) hq
        · exact hm
      simp only [parameter_update_loop, hq, if_false]
      exact parameter_update_loop_read queue_sent lc p data data_len hr rest hm
        (List.nodup_cons.1 hnd).2

/-- The leaf lookup finds nothing when no leaf has the name. -/
theorem leaf_find_by_name_none (leaf_name : CStr) :
    ∀ ls : List gn_leaf_config_t, (∀ l ∈ ls, l.name ≠ leaf_name) →
      leaf_find_by_name leaf_name ls = none
  | [], _ => rfl
  | l :: rest, h => by
    have h0 : l.name ≠ leaf_name := h l (List.mem_cons_self _ _)
    have h1 := leaf_find_by_name_none leaf_name rest
      (fun x hx => h x (List.mem_cons_of_mem _ hx))
    simp [leaf_find_by_name, h0, h1]

/-- With flash answering and a size other than zero `gn_storage_set` stores the blob. -/
theorem gn_storage_set_ok (env : gn_env) (nvs : nvs_t) (k : CStr) (bytes : List Nat)
    (size : Nat) (ho : env.nvs_open = ESP_OK) (hs : env.nvs_set_blob = ESP_OK)
    (hc : env.nvs_commit = ESP_OK) (hsize : size ≠ 0) :
    gn_storage_set env nvs (some k) (some bytes) size
      = (GN_RET_OK, nvs_put nvs (env.hash k) (bytes.take size)) := by
  simp [gn_storage_set, ho, hs, hc, hsize]

/-- The `fail` path of the storage functions returns `GN_RET_ERR` for an error code. -/
theorem storage_fail_code_ne_ok (err : esp_err_t) (h : err ≠ ESP_OK) :
    storage_fail_code err = GN_RET_ERR := by
  have h0 : ¬ err = 0 := h
  simp [storage_fail_code, ESP_OK, h0]

/-- When `gn_storage_set` returns `GN_RET_OK` the blob is in the store. -/
theorem gn_storage_set_of_ok (env : gn_env) (nvs : nvs_t) (k : CStr) (bytes : List Nat)
    (size : Nat)
    (h : (gn_storage_set env nvs (some k) (some bytes) size).1 = GN_RET_OK) :
    (gn_storage_set env nvs (some k) (some bytes) size).2
      = nvs_put nvs (env.hash k) (bytes.take size) := by
  revert h
  simp only [gn_storage_set]
  split_ifs with h1 h2 h3 h4
  · simp
  · simp [storage_fail_code_ne_ok _ h2]
  · simp [storage_fail_code_ne_ok _ h3]
  · simp [storage_fail_code_ne_ok _ h4]
  · simp

/-- With flash answering `gn_storage_get` returns a non-empty blob that is stored. -/
theorem gn_storage_get_hit (env : gn_env) (nvs : nvs_t) (k : CStr) (blob : List Nat)
    (ho : env.nvs_open = ESP_OK) (hg1 : env.nvs_get_size = ESP_OK)
    (hg2 : env.nvs_get_data = ESP_OK) (hk : nvs (env.hash k) = some blob)
    (hb : blob ≠ []) :
    gn_storage_get env nvs (some k) = (GN_RET_OK, some blob) := by
  have hl : 0 < blob.length := List.length_pos.2 hb
  simp [gn_storage_get, ho, hg1, hg2, hk, hl]

/-- Reading a double back from its eight bytes gives the double. -/
theorem read_double_bytes (d : gn_double) (tail : List Nat) :
    read_double (double_bytes d ++ tail) = d := by
  apply Fin.ext
  have hd := d.isLt
  simp only [read_double, double_bytes, List.range, List.range.loop, List.map, List.cons_append,
    List.nil_append, List.getD_cons_zero, List.getD_cons_succ, List.sum_cons, List.sum_nil,
    Fin.ofNat]
  omega

/-- An iteration whose reads go through always takes the branch of line 425, since
`p_cwl_active` is false there: it stops the thermal cycle and the watering and leaves
the loop. -/
theorem wat_iteration_of_read (K : wat_consts) (data : gn_watering_control_data_t)
    (t : wat_tick) (r : wat_locals) (h : wat_read t = some r) :
    wat_iteration K data t
      = (_gn_watering_control_stop_watering (_gn_watering_control_stop_hcc data), true) := by
  simp [wat_iteration, h]

/-- An iteration with a failing read leaves the loop with the state untouched. -/
theorem wat_iteration_of_read_none (K : wat_consts) (data : gn_watering_control_data_t)
    (t : wat_tick) (h : wat_read t = none) :
    wat_iteration K data t = (data, true) := by
  simp [wat_iteration, h]

/-- When the read phase goes through, every getter returned the value of the local. -/
theorem wat_read_some (t : wat_tick) (r : wat_locals) (h : wat_read t = some r) :
    t.p_wat_int_sec = some r.p_wat_int_sec ∧ t.p_wat_time_sec = some r.p_wat_time_sec
    ∧ t.p_wat_t_temp = some r.p_wat_t_temp ∧ t.p_active = some r.p_active
    ∧ t.p_cwl = some r.p_cwl ∧ t.p_cwl_trg_high = some r.p_cwl_trg_high
    ∧ t.p_cwl_trg_low = some r.p_cwl_trg_low
    ∧ t.p_ds18b20_temp_active = some r.p_ds18b20_temp_active
    ∧ t.p_wat_temp = some r.p_wat_temp ∧ t.p_plt_temp = some r.p_plt_temp
    ∧ t.p_plt_a_status = some r.p_plt_a_status ∧ t.p_plt_b_status = some r.p_plt_b_status
    ∧ t.p_wat_pump = some r.p_wat_pump ∧ t.p_hcc_toggle = some r.p_hcc_toggle
    ∧ t.p_hcc_power = some r.p_hcc_power := by
  unfold wat_read at h
  cases h1 : t.p_wat_int_sec with
  | none => simp [h1] at h
  | some x1 =>
  simp only [h1] at h
  cases h2 : t.p_wat_time_sec with
  | none => simp [h2] at h
  | some x2 =>
  simp only [h2] at h
  cases h3 : t.p_wat_t_temp with
  | none => simp [h3] at h
  | some x3 =>
  simp only [h3] at h
  cases h4 : t.p_active with
  | none => simp [h4] at h
  | some x4 =>
  simp only [h4] at h
  cases h5 : t.p_cwl with
  | none => simp [h5] at h
  | some x5 =>
  simp only [h5] at h
  cases h6 : t.p_cwl_trg_high with
  | none => simp [h6] at h
  | some x6 =>
  simp only [h6] at h
  cases h7 : t.p_cwl_trg_low with
  | none => simp [h7] at h
  | some x7 =>
  simp only [h7] at h
  cases h8 : t.p_ds18b20_temp_active with
  | none => simp [h8] at h
  | some x8 =>
  simp only [h8] at h
  cases h9 : t.p_wat_temp with
  | none => simp [h9] at h
  | some x9 =>
  simp only [h9] at h
  cases h10 : t.p_plt_temp with
  | none => simp [h10] at h
  | some x10 =>
  simp only [h10] at h
  cases h11 : t.p_plt_a_status with
  | none => simp [h11] at h
  | some x11 =>
  simp only [h11] at h
  cases h12 : t.p_plt_b_status with
  | none => simp [h12] at h
  | some x12 =>
  simp only [h12] at h
  cases h13 : t.p_wat_pump with
  | none => simp [h13] at h
  | some x13 =>
  simp only [h13] at h
  cases h14 : t.p_hcc_toggle with
  | none => simp [h14] at h
  | some x14 =>
  simp only [h14] at h
  cases h15 : t.p_hcc_power with
  | none => simp [h15] at h
  | some x15 =>
  simp only [h15] at h
  cases h
  exact ⟨rfl, rfl, rfl, rfl, rfl, rfl, rfl, rfl, rfl, rfl, rfl, rfl, rfl, rfl, rfl⟩

/-- When one getter fails the read phase fails. -/
theorem wat_read_none_of_fail (t : wat_tick)
    (h : t.p_wat_int_sec = none ∨ t.p_wat_time_sec = none ∨ t.p_wat_t_temp = none
        ∨ t.p_active = none ∨ t.p_cwl = none ∨ t.p_cwl_trg_high = none
        ∨ t.p_cwl_trg_low = none ∨ t.p_ds18b20_temp_active = none ∨ t.p_wat_temp = none
        ∨ t.p_plt_temp = none ∨ t.p_plt_a_status = none ∨ t.p_plt_b_status = none
        ∨ t.p_wat_pump = none ∨ t.p_hcc_toggle = none ∨ t.p_hcc_power = none) :
    wat_read t = none := by
  cases hr : wat_read t with
  | none => rfl
  | some r =>
    obtain ⟨h1, h2, h3, h4, h5, h6, h7, h8, h9, h10, h11, h12, h13, h14, h15⟩ :=
      wat_read_some t r hr
    simp [h1, h2, h3, h4, h5, h6, h7, h8, h9, h10, h11, h12, h13, h14, h15] at h

/-- When every getter returns a value the read phase goes through. -/
theorem wat_read_of_some (t : wat_tick) (r : wat_locals)
    (h : t.p_wat_int_sec = some r.p_wat_int_sec ∧ t.p_wat_time_sec = some r.p_wat_time_sec
    ∧ t.p_wat_t_temp = some r.p_wat_t_temp ∧ t.p_active = some r.p_active
    ∧ t.p_cwl = some r.p_cwl ∧ t.p_cwl_trg_high = some r.p_cwl_trg_high
    ∧ t.p_cwl_trg_low = some r.p_cwl_trg_low
    ∧ t.p_ds18b20_temp_active = some r.p_ds18b20_temp_active
    ∧ t.p_wat_temp = some r.p_wat_temp ∧ t.p_plt_temp = some r.p_plt_temp
    ∧ t.p_plt_a_status = some r.p_plt_a_status ∧ t.p_plt_b_status = some r.p_plt_b_status
    ∧ t.p_wat_pump = some r.p_wat_pump ∧ t.p_hcc_toggle = some r.p_hcc_toggle
    ∧ t.p_hcc_power = some r.p_hcc_power) : wat_read t = some r := by
  obtain ⟨h1, h2, h3, h4, h5, h6, h7, h8, h9, h10, h11, h12, h13, h14, h15⟩ := h
  unfold wat_read
  simp only [h1, h2, h3, h4, h5, h6, h7, h8, h9, h10, h11, h12, h13, h14, h15]

/-- The store a successful boolean setter leaves holds the byte of the value under the
hashed key. -/
theorem set_bool_ok_nvs (env : gn_env) (st : gn_state) (leaf : gn_leaf_config_t)
    (n : CStr) (h : gn_leaf_param_handle) (b : Bool)
    (hfind : gn_leaf_param_get_param_handle (some leaf) (some n) = some h)
    (hper : h.param.storage = GN_LEAF_PARAM_STORAGE_PERSISTED)
    (hset : (gn_leaf_param_set_bool env st (some leaf) (some n) b).1 = GN_RET_OK) :
    (gn_leaf_param_set_bool env st (some leaf) (some n) b).2.2.nvs
      = nvs_put st.nvs (env.hash (storage_key leaf.name n)) (bool_bytes b) := by
  simp only [gn_leaf_param_set_bool, hfind, hper, if_true] at hset ⊢
  by_cases hst : (gn_storage_set env st.nvs (some (storage_key leaf.name n))
      (some (bool_bytes b)) 1).1 = GN_RET_OK
  · have hnvs := gn_storage_set_of_ok env st.nvs _ _ 1 hst
    rw [if_neg (by simpa using hst), hnvs]
    simp only [param_notify]
    split_ifs <;> simp [bool_bytes]
  · simp [hst] at hset

/-- The store a successful double setter leaves holds the eight bytes of the value
under the hashed key. -/
theorem set_double_ok_nvs (env : gn_env) (st : gn_state) (leaf : gn_leaf_config_t)
    (n : CStr) (h : gn_leaf_param_handle) (d : gn_double)
    (hfind : gn_leaf_param_get_param_handle (some leaf) (some n) = some h)
    (hper : h.param.storage = GN_LEAF_PARAM_STORAGE_PERSISTED)
    (hset : (gn_leaf_param_set_double env st (some leaf) (some n) d).1 = GN_RET_OK) :
    (gn_leaf_param_set_double env st (some leaf) (some n) d).2.2.nvs
      = nvs_put st.nvs (env.hash (storage_key leaf.name n)) (double_bytes d) := by
  simp only [gn_leaf_param_set_double, hfind, hper, if_true] at hset ⊢
  by_cases hst : (gn_storage_set env st.nvs (some (storage_key leaf.name n))
      (some (double_bytes d)) 8).1 = GN_RET_OK
  · have hnvs := gn_storage_set_of_ok env st.nvs _ _ 8 hst
    have hlen : (double_bytes d).take 8 = double_bytes d := by
      apply List.take_of_length_le
      simp [double_bytes]
    rw [if_neg (by simpa using hst), hnvs, hlen]
    simp only [param_notify]
    split_ifs <;> rfl
  · simp [hst] at hset

/-- Round trip of a boolean through the store: after a successful
`gn_leaf_param_set_bool` on a persisted parameter, `gn_leaf_param_create` with the same
leaf name and parameter name, whose three flash calls go through, yields the value set,
whatever default it is given. -/
theorem storage_roundtrip_bool (env1 env2 : gn_env) (st : gn_state)
    (leaf : gn_leaf_config_t) (n : CStr) (h : gn_leaf_param_handle) (b dflt : Bool)
    (access : gn_leaf_param_access_t)
    (hfind : gn_leaf_param_get_param_handle (some leaf) (some n) = some h)
    (hper : h.param.storage = GN_LEAF_PARAM_STORAGE_PERSISTED)
    (hset : (gn_leaf_param_set_bool env1 st (some leaf) (some n) b).1 = GN_RET_OK)
    (hhash : env2.hash = env1.hash)
    (ho : env2.nvs_open = ESP_OK) (hg1 : env2.nvs_get_size = ESP_OK)
    (hg2 : env2.nvs_get_data = ESP_OK) :
    gn_leaf_param_create env2
        (gn_leaf_param_set_bool env1 st (some leaf) (some n) b).2.2.nvs leaf (some n)
        GN_VAL_TYPE_BOOLEAN (gn_val_t.b dflt) access GN_LEAF_PARAM_STORAGE_PERSISTED
      = some { name := n, param_val := { t := GN_VAL_TYPE_BOOLEAN, v := gn_val_t.b b },
               access := access, storage := GN_LEAF_PARAM_STORAGE_PERSISTED } := by
  rw [set_bool_ok_nvs env1 st leaf n h b hfind hper hset]
  have hget := gn_storage_get_hit env2
    (nvs_put st.nvs (env1.hash (storage_key leaf.name n)) (bool_bytes b))
    (storage_key leaf.name n) (bool_bytes b) ho hg1 hg2
    (by simp [nvs_put, hhash]) (by simp [bool_bytes])
  simp only [gn_leaf_param_create, if_true, hget]
  cases b <;> simp [read_bool, bool_bytes]

/-- Round trip of a double through the store: after a successful
`gn_leaf_param_set_double` on a persisted parameter, `gn_leaf_param_create` with the
same leaf name and parameter name, whose three flash calls go through, yields the value
set bit for bit, whatever default it is given. -/
theorem storage_roundtrip_double (env1 env2 : gn_env) (st : gn_state)
    (leaf : gn_leaf_config_t) (n : CStr) (h : gn_leaf_param_handle) (d dflt : gn_double)
    (access : gn_leaf_param_access_t)
    (hfind : gn_leaf_param_get_param_handle (some leaf) (some n) = some h)
    (hper : h.param.storage = GN_LEAF_PARAM_STORAGE_PERSISTED)
    (hset : (gn_leaf_param_set_double env1 st (some leaf) (some n) d).1 = GN_RET_OK)
    (hhash : env2.hash = env1.hash)
    (ho : env2.nvs_open = ESP_OK) (hg1 : env2.nvs_get_size = ESP_OK)
    (hg2 : env2.nvs_get_data = ESP_OK) :
    gn_leaf_param_create env2
        (gn_leaf_param_set_double env1 st (some leaf) (some n) d).2.2.nvs leaf (some n)
        GN_VAL_TYPE_DOUBLE (gn_val_t.d dflt) access GN_LEAF_PARAM_STORAGE_PERSISTED
      = some { name := n, param_val := { t := GN_VAL_TYPE_DOUBLE, v := gn_val_t.d d },
               access := access, storage := GN_LEAF_PARAM_STORAGE_PERSISTED } := by
  rw [set_double_ok_nvs env1 st leaf n h d hfind hper hset]
  have hget := gn_storage_get_hit env2
    (nvs_put st.nvs (env1.hash (storage_key leaf.name n)) (double_bytes d))
    (storage_key leaf.name n) (double_bytes d) ho hg1 hg2
    (by simp [nvs_put, hhash]) (by simp [double_bytes])
  simp only [gn_leaf_param_create, if_true, hget, read_double_bytes]
  rfl

/-- When the lookup of `n` resolves to the parameter named `n` itself and
`gn_leaf_param_set_bool` returns `GN_RET_OK`, the value is committed to that parameter
and exactly one event is posted: it names the leaf and `n`, and carries the one byte
"1" for true and "0" for false. -/
theorem set_bool_posts_event (env : gn_env) (st : gn_state) (leaf : gn_leaf_config_t)
    (n : CStr) (h : gn_leaf_param_handle) (b : Bool)
    (hfind : gn_leaf_param_get_param_handle (some leaf) (some n) = some h)
    (hname : h.param.name = n)
    (hset : (gn_leaf_param_set_bool env st (some leaf) (some n) b).1 = GN_RET_OK) :
    (gn_leaf_param_set_bool env st (some leaf) (some n) b).2.1
        = some { leaf with params := h.write (h.param.set_v (gn_val_t.b b)) }
    ∧ (gn_leaf_param_set_bool env st (some leaf) (some n) b).2.2.posted
        = st.posted ++ [{ id := GN_LEAF_PARAM_CHANGED_EVENT, leaf_name := leaf.name,
                          param_name := n, data := [if b then '1' else '0'],
                          data_size := some 1 }] := by
  cases b <;>
  · simp only [gn_leaf_param_set_bool, hfind, param_notify] at hset ⊢
    split_ifs at hset ⊢ <;>
      first
        | exact absurd hset (by decide)
        | contradiction
        | simp [gn_leaf_param_t.set_v, hname]

/-- A leaf start succeeds exactly when the task is created and the leaf is published. -/
theorem _gn_leaf_start_ok_iff (e : leaf_start_env) (l : gn_leaf_config_t)
    (tasks : List CStr) :
    (_gn_leaf_start e l tasks).1 = GN_RET_OK
      ↔ e.task_created = true ∧ e.mqtt_publish_leaf = GN_RET_OK := by
  unfold _gn_leaf_start
  cases h : e.task_created <;> simp

/-- The tasks after a leaf start: the leaf is appended when its task was created. -/
theorem _gn_leaf_start_tasks (e : leaf_start_env) (l : gn_leaf_config_t)
    (tasks : List CStr) :
    (_gn_leaf_start e l tasks).2
      = tasks ++ (if e.task_created then [l.name] else []) := by
  unfold _gn_leaf_start
  cases h : e.task_created <;> simp

/-- The loop of `gn_node_start` returns `GN_RET_OK` exactly when every leaf start from
the current position on succeeds; it then has created the task of every leaf, in list
order. -/
theorem node_start_loop_ok_iff (start : Nat → leaf_start_env) :
    ∀ (ls : List gn_leaf_config_t) (i : Nat) (tasks : List CStr),
      ((node_start_loop start i ls tasks).1 = GN_RET_OK
        ↔ ∀ j, j < ls.length →
            (start (i + j)).task_created = true
              ∧ (start (i + j)).mqtt_publish_leaf = GN_RET_OK)
      ∧ ((node_start_loop start i ls tasks).1 = GN_RET_OK
          → (node_start_loop start i ls tasks).2 = tasks ++ ls.map (·.name))
      ∧ ((node_start_loop start i ls tasks).1 = GN_RET_OK
          ∨ (node_start_loop start i ls tasks).1 = GN_RET_ERR_NODE_NOT_STARTED)
  | [], i, tasks => by simp [node_start_loop]
  | l :: rest, i, tasks => by
    have ih := node_start_loop_ok_iff start rest (i + 1) (_gn_leaf_start (start i) l tasks).2
    have hok := _gn_leaf_start_ok_iff (start i) l tasks
    by_cases h0 : (_gn_leaf_start (start i) l tasks).1 = GN_RET_OK
    · have hs := hok.1 h0
      simp only [node_start_loop, h0, ne_eq, not_true, if_false]
      refine ⟨?_, ?_, ih.2.2⟩
      · rw [ih.1]
        constructor
        · intro hall j hj
          cases j with
          | zero => simpa using hs
          | succ k =>
            have := hall k (by simpa using hj)
            simpa [Nat.add_assoc, Nat.add_comm 1 k] using this
        · intro hall j hj
          have := hall (j + 1) (by simpa using hj)
          simpa [Nat.add_assoc, Nat.add_comm 1 j] using this
      · intro hr
        rw [ih.2.1 hr, _gn_leaf_start_tasks, hs.1]
        simp
    · simp only [node_start_loop, h0, ne_eq, not_false_eq_true, if_true]
      refine ⟨?_, ?_, by simp⟩
      · constructor
        · intro h; exact absurd h (by decide)
        · intro hall
          exact absurd (hok.2 (by simpa using hall 0 (by simp))) h0
      · intro h; exact absurd h (by decide)

/-- The loop of `gn_node_start` stops at the first leaf whose start fails: the tasks
created are those of the leaves in front of it, and its own when only the publish
failed; no later leaf is started. -/
theorem node_start_loop_fail_at (start : Nat → leaf_start_env) :
    ∀ (ls : List gn_leaf_config_t) (i : Nat) (tasks : List CStr) (k : Nat),
      k < ls.length →
      (∀ j, j < k → (start (i + j)).task_created = true
                      ∧ (start (i + j)).mqtt_publish_leaf = GN_RET_OK) →
      ¬ ((start (i + k)).task_created = true
          ∧ (start (i + k)).mqtt_publish_leaf = GN_RET_OK) →
      node_start_loop start i ls tasks
        = (GN_RET_ERR_NODE_NOT_STARTED,
           tasks ++ (ls.take (if (start (i + k)).task_created then k + 1 else k)).map
             (·.name))
  | [], i, tasks, k, hk, _, _ => by simp at hk
  | l :: rest, i, tasks, 0, _, _, hbad => by
    have hok := _gn_leaf_start_ok_iff (start i) l tasks
    have h0 : ¬ (_gn_leaf_start (start i) l tasks).1 = GN_RET_OK := fun h =>
      hbad (by simpa using hok.1 h)
    simp only [node_start_loop, h0, ne_eq, not_false_eq_true, if_true,
      _gn_leaf_start_tasks, Nat.add_zero]
    by_cases h : (start i).task_created = true <;> simp [h]
  | l :: rest, i, tasks, k + 1, hk, hgood, hbad => by
    have hok := _gn_leaf_start_ok_iff (start i) l tasks
    have hs : (start i).task_created = true ∧ (start i).mqtt_publish_leaf = GN_RET_OK := by
      simpa using hgood 0 (Nat.succ_pos k)
    have h0 : (_gn_leaf_start (start i) l tasks).1 = GN_RET_OK := hok.2 hs
    have ih := node_start_loop_fail_at start rest (i + 1)
      (_gn_leaf_start (start i) l tasks).2 k (by simpa using hk)
      (fun j hj => by
        have := hgood (j + 1) (by omega)
        simpa [Nat.add_assoc, Nat.add_comm 1 j] using this)
      (by simpa [Nat.add_assoc, Nat.add_comm 1 k] using hbad)
    simp only [node_start_loop, h0, ne_eq, not_true, if_false]
    rw [ih, _gn_leaf_start_tasks, hs.1]
    have e1 : i + 1 + k = i + (k + 1) := by omega
    rw [e1]
    by_cases h : (start (i + (k + 1))).task_created = true <;> simp [h]

/-- Once `initialized` is set, `gn_init` returns the stored handle and changes
nothing: no object is allocated and no step is run. -/
theorem gn_init_of_initialized (wifi_enabled : Bool) (env : gn_init_env) (g : gn_globals)
    (h : g.initialized = true) :
    gn_init wifi_enabled env g = (g._gn_default_conf, g) := by
  simp [gn_init, h]

/-- Once `initialized` is set, every call of a sequence of `gn_init` calls returns the
stored handle, and the globals stay as they are. -/
theorem gn_init_calls_of_initialized (wifi_enabled : Bool) :
    ∀ (envs : List gn_init_env) (g : gn_globals), g.initialized = true →
      gn_init_calls wifi_enabled g envs
        = (List.replicate envs.length g._gn_default_conf, g)
  | [], g, _ => rfl
  | env :: rest, g, h => by
    simp [gn_init_calls, gn_init_of_initialized wifi_enabled env g h,
      gn_init_calls_of_initialized wifi_enabled rest g h, List.replicate_succ]

/-- The lookups of the watering-control configuration end with the status
`GN_LEAF_STATUS_INITIALIZED` when all seven leaves are found and with
`GN_LEAF_STATUS_ERROR` otherwise. -/
theorem wat_config_lookups_status (N : wat_names) (get : CStr → Option Nat)
    (data : wat_config_data) :
    (wat_config_lookups N get data).status
      = if get WATERLEVELIN ≠ none ∧ get DS18B20 ≠ none ∧ get BME280 ≠ none
            ∧ get PLT_A ≠ none ∧ get PLT_B ≠ none ∧ get HCC ≠ none
            ∧ get WATERPUMPIN ≠ none
        then GN_LEAF_STATUS_INITIALIZED else GN_LEAF_STATUS_ERROR := by
  unfold wat_config_lookups
  cases h1 : get WATERLEVELIN with
  | none => simp
  | some x1 =>
  cases h2 : get DS18B20 with
  | none => simp
  | some x2 =>
  cases h3 : get BME280 with
  | none => simp
  | some x3 =>
  cases h4 : get PLT_A with
  | none => simp
  | some x4 =>
  cases h5 : get PLT_B with
  | none => simp
  | some x5 =>
  cases h6 : get HCC with
  | none => simp
  | some x6 =>
  cases h7 : get WATERPUMPIN with
  | none => simp
  | some x7 => simp

/-- A node that holds one leaf less than `GN_NODE_LEAVES_MAX_SIZE` takes no further
leaf: `gn_leaf_create` returns `NULL` and the root is as it was. -/
theorem gn_leaf_create_refused_below_capacity (MAX : Nat) (queue_created : Bool)
    (config : gn_config_root) (n_c : gn_node_config_t) (name : Option CStr)
    (leaf_config : Option gn_leaf_config_callback) (task_size : Nat)
    (hnode : config.node_config = some n_c) (hlen : n_c.leaves.length + 1 = MAX) :
    gn_leaf_create MAX queue_created config name leaf_config task_size = (none, config) := by
  unfold gn_leaf_create
  rw [hnode]
  cases name with
  | none => rfl
  | some n =>
    cases leaf_config with
    | none => rfl
    | some cb =>
      have h : n_c.leaves.length ≥ MAX - 1 := by omega
      simp only [h, if_true]
      split_ifs <;> rfl

/-- With valid arguments, a queue and at least two free places below
`GN_NODE_LEAVES_MAX_SIZE`, `gn_leaf_create` returns the configured leaf and stores it
behind the leaves the node holds, which stay as they are. -/
theorem gn_leaf_create_appends (MAX : Nat) (config : gn_config_root)
    (n_c : gn_node_config_t) (n : CStr) (cb : gn_leaf_config_callback) (task_size : Nat)
    (client : Nat)
    (hnode : config.node_config = some n_c) (hclient : config.mqtt_client = some client)
    (hlen : n_c.leaves.length + 1 < MAX) :
    gn_leaf_create MAX true config (some n) (some cb) task_size
      = (some (cb n_c (_gn_leaf_config_create (n.take GN_LEAF_NAME_SIZE))),
         { config with node_config := some { n_c with leaves := n_c.leaves
             ++ [cb n_c (_gn_leaf_config_create (n.take GN_LEAF_NAME_SIZE))] } }) := by
  unfold gn_leaf_create
  rw [hnode]
  have h : ¬ n_c.leaves.length ≥ MAX - 1 := by omega
  simp [hclient, h]

/-- The lookup returns nothing exactly when no parameter name starts with the name
asked for. -/
theorem param_handle_find_none_iff (n : CStr) :
    ∀ ps : List gn_leaf_param_t,
      param_handle_find n ps = none ↔ ∀ q ∈ ps, n.isPrefixOf q.name = false
  | [] => by simp [param_handle_find]
  | p :: rest => by
    by_cases hp : n.isPrefixOf p.name = true
    · simp [param_handle_find, hp]
    · have hp0 : n.isPrefixOf p.name = false := Bool.eq_false_iff.2 hp
      simp [param_handle_find, hp0, param_handle_find_none_iff n rest]

/-- The lookup returns the first parameter whose name starts with the name asked for. -/
theorem param_handle_find_some (n : CStr) :
    ∀ (ps : List gn_leaf_param_t) (h : gn_leaf_param_handle),
      param_handle_find n ps = some h →
        ps = h.before ++ h.param :: h.after ∧ n.isPrefixOf h.param.name = true
          ∧ ∀ q ∈ h.before, n.isPrefixOf q.name = false
  | [], h, e => by simp [param_handle_find] at e
  | p :: rest, h, e => by
    by_cases hp : n.isPrefixOf p.name = true
    · simp only [param_handle_find, hp, if_true, Option.some.injEq] at e
      subst e
      simp [hp]
    · have hp0 : n.isPrefixOf p.name = false := Bool.eq_false_iff.2 hp
      unfold param_handle_find at e
      rw [if_neg hp] at e
      cases hr : param_handle_find n rest with
      | none => rw [hr] at e; simp at e
      | some h1 =>
        rw [hr] at e
        simp only [Option.map_some', Option.some.injEq] at e
        subst e
        obtain ⟨hps, hpre, hbef⟩ := param_handle_find_some n rest h1 hr
        refine ⟨?_, hpre, ?_⟩
        · simp [← hps]
        · intro q hq
          rcases List.mem_cons.1 hq with rfl | hq1
          · exact hp0
          · exact hbef q hq1

/-- The leaf lookup returns a leaf of the list, at the position it reports, with the
name asked for. -/
theorem leaf_find_by_name_some (leaf_name : CStr) :
    ∀ (ls : List gn_leaf_config_t) (i : Nat) (l : gn_leaf_config_t),
      leaf_find_by_name leaf_name ls = some (i, l) → ls.set i l = ls ∧ l.name = leaf_name
  | [], i, l, h => by simp [leaf_find_by_name] at h
  | x :: rest, i, l, h => by
    by_cases hx : x.name = leaf_name
    · simp only [leaf_find_by_name, hx, if_true, Option.some.injEq, Prod.mk.injEq] at h
      obtain ⟨rfl, rfl⟩ := h
      exact ⟨by simp, hx⟩
    · simp only [leaf_find_by_name, hx, if_false, Option.map_eq_some'] at h
      obtain ⟨⟨j, y⟩, hj, e⟩ := h
      simp only [Prod.mk.injEq] at e
      obtain ⟨rfl, rfl⟩ := e
      have ih := leaf_find_by_name_some leaf_name rest j y hj
      exact ⟨by simp [ih.1], ih.2⟩

/-- The loop of `_gn_leaf_parameter_update` on a name no parameter has: `GN_RET_OK`,
nothing sent. -/
theorem parameter_update_loop_no_match (queue_sent : Bool) (lc : gn_leaf_config_t)
    (n : CStr) (data : CStr) (data_len : Nat) :
    ∀ ps : List gn_leaf_param_t, (∀ q ∈ ps, q.name ≠ n) →
      parameter_update_loop queue_sent lc n data data_len ps = (GN_RET_OK, lc)
  | [], _ => rfl
  | q :: rest, h => by
    have hq : ¬ n = q.name := fun e => h q (List.mem_cons_self _ _) e.symm
    simp only [parameter_update_loop, hq, if_false]
    exact parameter_update_loop_no_match queue_sent lc n data data_len rest
      (fun x hx => h x (List.mem_cons_of_mem _ hx))

/-- The calls of the leaf topic builders leave the plain concatenation in the buffer
when it fits in `MAX - 1` characters. -/
theorem leaf_topic_of_fit (P L S : CStr) (MAX : Nat)
    (h : (P ++ ['/'] ++ L ++ ['/'] ++ S).length ≤ MAX - 1) :
    c_cut (c_strncat (c_strncat (c_strncat (c_strncat (c_strncpy P MAX) ['/'] MAX) L MAX)
        ['/'] MAX) S MAX) (MAX - 1)
      = P ++ ['/'] ++ L ++ ['/'] ++ S := by
  have h0 := h
  simp only [List.length_append, List.length_cons, List.length_nil] at h0
  have hP : P.take MAX = P := List.take_of_length_le (by omega)
  have hL : L.take MAX = L := List.take_of_length_le (by omega)
  have hS : S.take MAX = S := List.take_of_length_le (by omega)
  have hsl : (['/'] : CStr).take MAX = ['/'] :=
    List.take_of_length_le (by simp only [List.length_cons, List.length_nil]; omega)
  simp only [c_cut, c_strncat, c_strncpy, hP, hL, hS, hsl]
  exact List.take_of_length_le h

/-- The calls of the node status topic builder leave the plain concatenation in the
buffer when it fits in `MAX - 1` characters. -/
theorem status_topic_of_fit (P S : CStr) (MAX : Nat)
    (h : (P ++ ['/'] ++ S).length ≤ MAX - 1) :
    c_cut (c_strncat (c_strncat (c_strncpy P MAX) ['/'] MAX) S MAX) (MAX - 1)
      = P ++ ['/'] ++ S := by
  have h0 := h
  simp only [List.length_append, List.length_cons, List.length_nil] at h0
  have hP : P.take MAX = P := List.take_of_length_le (by omega)
  have hS : S.take MAX = S := List.take_of_length_le (by omega)
  have hsl : (['/'] : CStr).take MAX = ['/'] :=
    List.take_of_length_le (by simp only [List.length_cons, List.length_nil]; omega)
  simp only [c_cut, c_strncat, c_strncpy, hP, hS, hsl]
  exact List.take_of_length_le h

/-- The watering-time validator answers `GN_LEAF_PARAM_VALIDATOR_ERROR` exactly when
the read of the current value of the parameter does not return `GN_RET_OK`. -/
theorem time_validator_error_iff (B : wat_bounds) (get_value : gn_err_t) (v : ℚ) :
    (∃ p, _gn_watering_time_validator B get_value (gn_value_ptr.object v)
        = some (GN_LEAF_PARAM_VALIDATOR_ERROR, p)) ↔ get_value ≠ GN_RET_OK := by
  unfold _gn_watering_time_validator
  by_cases h : get_value = GN_RET_OK
  · simp only [h, ne_eq, not_true_eq_false, if_false, gn_value_ptr.deref, iff_false, not_exists]
    intro p
    split_ifs <;> simp
  · simp [h]

/-- The watering-interval validator answers `GN_LEAF_PARAM_VALIDATOR_ERROR` exactly
when the read of the current value of the parameter does not return `GN_RET_OK`. -/
theorem interval_validator_error_iff (B : wat_bounds) (get_value : gn_err_t) (v : ℚ) :
    (∃ p, _gn_watering_interval_validator B get_value (gn_value_ptr.object v)
        = some (GN_LEAF_PARAM_VALIDATOR_ERROR, p)) ↔ get_value ≠ GN_RET_OK := by
  unfold _gn_watering_interval_validator
  by_cases h : get_value = GN_RET_OK
  · simp only [h, ne_eq, not_true_eq_false, if_false, gn_value_ptr.deref, iff_false, not_exists]
    intro p
    split_ifs <;> simp
  · simp [h]

/-- The contract of the watering-time validator on a readable parameter, for bounds
with `MIN_WATERING_TIME ≤ MAX_WATERING_TIME`: passed with the cell untouched exactly
inside the bounds, below with the cell pointing at the lower bound exactly under it,
above with the cell pointing at the upper bound exactly over it; both bounds pass. -/
theorem time_validator_contract (B : wat_bounds) (v : ℚ)
    (hB : B.MIN_WATERING_TIME ≤ B.MAX_WATERING_TIME) :
    (_gn_watering_time_validator B GN_RET_OK (gn_value_ptr.object v)
        = some (GN_LEAF_PARAM_VALIDATOR_PASSED, gn_value_ptr.object v)
      ↔ B.MIN_WATERING_TIME ≤ v ∧ v ≤ B.MAX_WATERING_TIME)
    ∧ (_gn_watering_time_validator B GN_RET_OK (gn_value_ptr.object v)
        = some (GN_LEAF_PARAM_VALIDATOR_BELOW_MIN, gn_value_ptr.object B.MIN_WATERING_TIME)
      ↔ v < B.MIN_WATERING_TIME)
    ∧ (_gn_watering_time_validator B GN_RET_OK (gn_value_ptr.object v)
        = some (GN_LEAF_PARAM_VALIDATOR_ABOVE_MAX, gn_value_ptr.object B.MAX_WATERING_TIME)
      ↔ B.MAX_WATERING_TIME < v)
    ∧ _gn_watering_time_validator B GN_RET_OK (gn_value_ptr.object B.MIN_WATERING_TIME)
        = some (GN_LEAF_PARAM_VALIDATOR_PASSED, gn_value_ptr.object B.MIN_WATERING_TIME)
    ∧ _gn_watering_time_validator B GN_RET_OK (gn_value_ptr.object B.MAX_WATERING_TIME)
        = some (GN_LEAF_PARAM_VALIDATOR_PASSED, gn_value_ptr.object B.MAX_WATERING_TIME) := by
  unfold _gn_watering_time_validator
  simp only [ne_eq, not_true_eq_false, if_false, gn_value_ptr.deref, gt_iff_lt, lt_self_iff_false]
  refine ⟨?_, ?_, ?_, ?_, ?_⟩
  · split_ifs with h1 h2
    · simp; intro h; exact absurd h1 (not_lt.2 h)
    · simp; intro _; exact h2
    · simp; exact ⟨not_lt.1 h1, not_lt.1 h2⟩
  · split_ifs with h1 h2
    · simp [h1]
    · simp [h1]
    · simp [h1]
  · split_ifs with h1 h2
    · simp; exact le_of_lt (lt_of_lt_of_le h1 hB)
    · simp [h2]
    · simp [h2]
  · simp [not_lt.2 hB]
  · simp [not_lt.2 hB]

/-- The return codes of the watering-interval validator on a readable parameter follow
the bounds like those of the watering-time validator, but the cell left by a clamping
branch holds the bound as a number, and a cell of that kind cannot be validated again. -/
theorem interval_validator_codes (B : wat_bounds) (v : ℚ)
    (hB : B.MIN_WATERING_INTERVAL ≤ B.MAX_WATERING_INTERVAL) :
    (_gn_watering_interval_validator B GN_RET_OK (gn_value_ptr.object v)
        = some (GN_LEAF_PARAM_VALIDATOR_PASSED, gn_value_ptr.object v)
      ↔ B.MIN_WATERING_INTERVAL ≤ v ∧ v ≤ B.MAX_WATERING_INTERVAL)
    ∧ (_gn_watering_interval_validator B GN_RET_OK (gn_value_ptr.object v)
        = some (GN_LEAF_PARAM_VALIDATOR_BELOW_MIN,
                gn_value_ptr.number B.MIN_WATERING_INTERVAL)
      ↔ v < B.MIN_WATERING_INTERVAL)
    ∧ (_gn_watering_interval_validator B GN_RET_OK (gn_value_ptr.object v)
        = some (GN_LEAF_PARAM_VALIDATOR_ABOVE_MAX,
                gn_value_ptr.number B.MAX_WATERING_INTERVAL)
      ↔ B.MAX_WATERING_INTERVAL < v)
    ∧ ∀ c, _gn_watering_interval_validator B GN_RET_OK (gn_value_ptr.number c) = none := by
  unfold _gn_watering_interval_validator
  simp only [ne_eq, not_true_eq_false, if_false, gn_value_ptr.deref, gt_iff_lt]
  refine ⟨?_, ?_, ?_, ?_⟩
  · split_ifs with h1 h2
    · simp; intro h; exact absurd h1 (not_lt.2 h)
    · simp; intro _; exact h2
    · simp; exact ⟨not_lt.1 h1, not_lt.1 h2⟩
  · split_ifs with h1 h2
    · simp [h1]
    · simp [h1]
    · simp [h1]
  · split_ifs with h1 h2
    · simp; exact le_of_lt (lt_of_lt_of_le h1 hB)
    · simp [h2]
    · simp [h2]
  · intro c; trivial

/-- The target-temperature validator passes a value exactly when it lies within the
bounds of the watering time. -/
theorem target_temp_validator_passed_iff (B : wat_bounds) (v : ℚ) :
    _gn_watering_target_temp_validator B GN_RET_OK (gn_value_ptr.object v)
        = some (GN_LEAF_PARAM_VALIDATOR_PASSED, gn_value_ptr.object v)
      ↔ B.MIN_WATERING_TIME ≤ v ∧ v ≤ B.MAX_WATERING_TIME := by
  unfold _gn_watering_target_temp_validator
  simp only [ne_eq, not_true_eq_false, if_false, gn_value_ptr.deref, gt_iff_lt]
  split_ifs with h1 h2
  · simp; intro h; exact absurd h1 (not_lt.2 h)
  · simp; intro _; exact h2
  · simp; exact ⟨not_lt.1 h1, not_lt.1 h2⟩

/-- When the store answers the read of the key with `GN_RET_OK`,
`gn_leaf_param_init_bool` returns `GN_RET_OK` at once: leaf and services are as before. -/
theorem init_bool_keeps_stored (env : gn_env) (st : gn_state) (leaf : gn_leaf_config_t)
    (n : CStr) (val : Bool) (h : gn_leaf_param_handle)
    (hfind : gn_leaf_param_get_param_handle (some leaf) (some n) = some h)
    (hget : (gn_storage_get env st.nvs (some (storage_key leaf.name n))).1 = GN_RET_OK) :
    gn_leaf_param_init_bool env st (some leaf) (some n) val = some (GN_RET_OK, some leaf, st) := by
  simp only [gn_leaf_param_init_bool, hfind, hget, if_true]

/-- When the store answers the read of the key with `GN_RET_OK`,
`gn_leaf_param_init_double` returns `GN_RET_OK` at once: leaf and services are as before. -/
theorem init_double_keeps_stored (env : gn_env) (st : gn_state) (leaf : gn_leaf_config_t)
    (n : CStr) (val : gn_double) (h : gn_leaf_param_handle)
    (hfind : gn_leaf_param_get_param_handle (some leaf) (some n) = some h)
    (hget : (gn_storage_get env st.nvs (some (storage_key leaf.name n))).1 = GN_RET_OK) :
    gn_leaf_param_init_double env st (some leaf) (some n) val
      = some (GN_RET_OK, some leaf, st) := by
  simp only [gn_leaf_param_init_double, hfind, hget, if_true]

/-- When the store answers the read of the key with `GN_RET_OK`,
`gn_leaf_param_init_string` returns `GN_RET_OK` at once: leaf and services are as before. -/
theorem init_string_keeps_stored (env : gn_env) (st : gn_state) (leaf : gn_leaf_config_t)
    (n v : CStr) (val_ref : List Nat) (h : gn_leaf_param_handle)
    (hfind : gn_leaf_param_get_param_handle (some leaf) (some n) = some h)
    (hget : (gn_storage_get env st.nvs (some (storage_key leaf.name n))).1 = GN_RET_OK) :
    gn_leaf_param_init_string env st (some leaf) (some n) (some v) val_ref
      = some (GN_RET_OK, some leaf, st) := by
  simp only [gn_leaf_param_init_string, hfind, hget, if_true]

/-- With nothing stored under the key and services that answer with success,
`gn_leaf_param_init_bool` stores the value, writes it to the parameter, posts the
event and returns `GN_RET_OK`. -/
theorem init_bool_fresh (env : gn_env) (st : gn_state) (leaf : gn_leaf_config_t)
    (n : CStr) (val : Bool) (h : gn_leaf_param_handle)
    (hfind : gn_leaf_param_get_param_handle (some leaf) (some n) = some h)
    (hnone : st.nvs (env.hash (storage_key leaf.name n)) = none)
    (hopen : env.nvs_open = ESP_OK) (hsize : env.nvs_get_size = ESP_OK)
    (hset : env.nvs_set_blob = ESP_OK)
    (hcommit : env.nvs_commit = ESP_OK) (hpost : env.event_post = ESP_OK) :
    gn_leaf_param_init_bool env st (some leaf) (some n) val
      = some (GN_RET_OK,
          some { leaf with params := h.write (h.param.set_v (gn_val_t.b val)) },
          { st with
              nvs := nvs_put st.nvs (env.hash (storage_key leaf.name n)) (bool_bytes val),
              posted := st.posted ++
                [{ id := GN_LEAF_PARAM_CHANGED_EVENT, leaf_name := leaf.name,
                   param_name := h.param.name, data := [if !val then '0' else '1'],
                   data_size := some 1 }] }) := by
  have hg : (gn_storage_get env st.nvs (some (storage_key leaf.name n))).1 ≠ GN_RET_OK := by
    simp [gn_storage_get, hopen, hsize, hnone, storage_fail_code, ESP_OK, ESP_ERR_NVS_NOT_FOUND]
  have ha : gn_storage_get_assigns env st.nvs (storage_key leaf.name n) = false := by
    simp [gn_storage_get_assigns, hnone]
  have hs : gn_storage_set env st.nvs (some (storage_key leaf.name n)) (some (bool_bytes val)) 1
      = (GN_RET_OK, nvs_put st.nvs (env.hash (storage_key leaf.name n)) (bool_bytes val)) := by
    simp [gn_storage_set, hopen, hset, hcommit, bool_bytes]
  simp only [gn_leaf_param_init_bool, hfind, hg, if_false, ha, hs, param_init_notify, hpost,
    ne_eq, not_true_eq_false, gn_leaf_param_t.set_v, Bool.false_eq_true]

/-- `gn_leaf_create` on a root with node and broker client, when the queue is created:
the callback is applied to the node as it is before the call, and its result is
registered behind the leaves of that node when the node has room; without room the
call returns `NULL` and the root is as before. -/
theorem gn_leaf_create_eq (MAX : Nat) (config : gn_config_root)
    (n_c : gn_node_config_t) (n : CStr) (cb : gn_leaf_config_callback) (task_size : Nat)
    (client : Nat)
    (hnode : config.node_config = some n_c) (hclient : config.mqtt_client = some client) :
    gn_leaf_create MAX true config (some n) (some cb) task_size
      = if n_c.leaves.length + 1 < MAX then
          (some (cb n_c (_gn_leaf_config_create (n.take GN_LEAF_NAME_SIZE))),
           { config with node_config := some { n_c with leaves := n_c.leaves
               ++ [cb n_c (_gn_leaf_config_create (n.take GN_LEAF_NAME_SIZE))] } })
        else (none, config) := by
  by_cases h : n_c.leaves.length + 1 < MAX
  · rw [if_pos h]
    exact gn_leaf_create_appends MAX config n_c n cb task_size client hnode hclient h
  · rw [if_neg h]
    unfold gn_leaf_create
    rw [hnode]
    have h1 : n_c.leaves.length ≥ MAX - 1 := by omega
    simp [hclient, h1]

/-- The temperature comparison either leaves the state as it is, or starts cooling or
heating from another thermal state with the clock as cycle start, or stops the thermal
cycle without touching the cycle start. -/
theorem wat_hcc_select_cases (data : gn_watering_control_data_t) (p_wat_temp p_wat_t_temp : ℚ)
    (time_hcc_start : Int) :
    wat_hcc_select data p_wat_temp p_wat_t_temp time_hcc_start = data
    ∨ (data.hcc_cycle ≠ HCC_COOLING
        ∧ wat_hcc_select data p_wat_temp p_wat_t_temp time_hcc_start
          = _gn_watering_control_start_hcc_cooling data time_hcc_start)
    ∨ (data.hcc_cycle ≠ HCC_HEATING
        ∧ wat_hcc_select data p_wat_temp p_wat_t_temp time_hcc_start
          = _gn_watering_control_start_hcc_heating data time_hcc_start)
    ∨ wat_hcc_select data p_wat_temp p_wat_t_temp time_hcc_start
        = _gn_watering_control_stop_hcc data := by
  unfold wat_hcc_select
  split_ifs with h1 h2 h3 h4
  · exact Or.inr (Or.inl ⟨h2, rfl⟩)
  · exact Or.inl rfl
  · exact Or.inr (Or.inr (Or.inl ⟨h4, rfl⟩))
  · exact Or.inl rfl
  · exact Or.inr (Or.inr (Or.inr rfl))

/-- After `_gn_watering_control_stop_hcc` both plates and the conditioning pump are
commanded off and the thermal state is Stop. -/
theorem coherent_stop_hcc (data : gn_watering_control_data_t) :
    wat_hcc_coherent (_gn_watering_control_stop_hcc data) := by
  simp [wat_hcc_coherent, wat_commanded, _gn_watering_control_stop_hcc, List.foldl_append]

/-- After `_gn_watering_control_start_hcc_heating` plate A and the conditioning pump
are commanded on, plate B off, and the thermal state is Heating. -/
theorem coherent_start_hcc_heating (data : gn_watering_control_data_t) (now : Int) :
    wat_hcc_coherent (_gn_watering_control_start_hcc_heating data now) := by
  simp [wat_hcc_coherent, wat_commanded, _gn_watering_control_start_hcc_heating,
    List.foldl_append]

/-- After `_gn_watering_control_start_hcc_cooling` plate B and the conditioning pump
are commanded on, plate A off, and the thermal state is Cooling. -/
theorem coherent_start_hcc_cooling (data : gn_watering_control_data_t) (now : Int) :
    wat_hcc_coherent (_gn_watering_control_start_hcc_cooling data now) := by
  simp [wat_hcc_coherent, wat_commanded, _gn_watering_control_start_hcc_cooling,
    List.foldl_append]

/-- Coherence depends on the thermal state and on the commands to the two plates and
to the conditioning pump only. -/
theorem coherent_of_same_thermal (d1 d2 : gn_watering_control_data_t)
    (hc : d2.hcc_cycle = d1.hcc_cycle)
    (ha : wat_commanded d2 leaf_plt_a = wat_commanded d1 leaf_plt_a)
    (hb : wat_commanded d2 leaf_plt_b = wat_commanded d1 leaf_plt_b)
    (hp : wat_commanded d2 leaf_hcc_pump = wat_commanded d1 leaf_hcc_pump)
    (h : wat_hcc_coherent d1) : wat_hcc_coherent d2 := by
  unfold wat_hcc_coherent at h ⊢
  rw [hc, ha, hb, hp]
  exact h

/-- Stopping the watering keeps the thermal actuation coherent. -/
theorem coherent_stop_watering (data : gn_watering_control_data_t)
    (h : wat_hcc_coherent data) :
    wat_hcc_coherent (_gn_watering_control_stop_watering data) := by
  apply coherent_of_same_thermal data _ _ _ _ _ h <;>
    simp [wat_commanded, _gn_watering_control_stop_watering, List.foldl_append]

/-- Starting the watering keeps the thermal actuation coherent. -/
theorem coherent_start_watering (data : gn_watering_control_data_t)
    (h : wat_hcc_coherent data) :
    wat_hcc_coherent (_gn_watering_control_start_watering data) := by
  apply coherent_of_same_thermal data _ _ _ _ _ h <;>
    simp [wat_commanded, _gn_watering_control_start_watering, List.foldl_append]

/-- The temperature comparison keeps the thermal actuation coherent. -/
theorem coherent_hcc_select (data : gn_watering_control_data_t) (p_wat_temp p_wat_t_temp : ℚ)
    (time_hcc_start : Int) (h : wat_hcc_coherent data) :
    wat_hcc_coherent (wat_hcc_select data p_wat_temp p_wat_t_temp time_hcc_start) := by
  rcases wat_hcc_select_cases data p_wat_temp p_wat_t_temp time_hcc_start
    with e | ⟨_, e⟩ | ⟨_, e⟩ | e <;> rw [e]
  · exact h
  · exact coherent_start_hcc_cooling data time_hcc_start
  · exact coherent_start_hcc_heating data time_hcc_start
  · exact coherent_stop_hcc data

/-- The cap on the thermal cycle time keeps the thermal actuation coherent. -/
theorem coherent_hcc_cap (K : wat_consts) (data : gn_watering_control_data_t) (time_us : Int)
    (h : wat_hcc_coherent data) : wat_hcc_coherent (wat_hcc_cap K data time_us) := by
  unfold wat_hcc_cap
  split_ifs
  · exact coherent_stop_hcc data
  · exact h
  · exact h

/-- The irrigation step keeps the thermal actuation coherent. -/
theorem coherent_irrigation (K : wat_consts) (data : gn_watering_control_data_t)
    (p_wat_temp p_wat_t_temp p_wat_time_sec : ℚ) (h : wat_hcc_coherent data) :
    wat_hcc_coherent (wat_irrigation K data p_wat_temp p_wat_t_temp p_wat_time_sec).1 := by
  have h1 : wat_hcc_coherent
      (if (_gn_watering_control_hcc_temp_ok p_wat_temp p_wat_t_temp
            && !data.wat_cycle_active) = true
       then _gn_watering_control_start_watering data else data) := by
    split_ifs
    · exact coherent_start_watering data h
    · exact h
  have step : ∀ d1 : gn_watering_control_data_t, wat_hcc_coherent d1 →
      wat_hcc_coherent
        (if d1.wat_cycle_active = true then
          { d1 with wat_cycle_cumulative_time_ms :=
              d1.wat_cycle_cumulative_time_ms + K.GN_WAT_CTR_CYCLE_TIME_MS }
         else d1) := by
    intro d1 hd
    split_ifs
    · exact coherent_of_same_thermal d1 _ rfl rfl rfl rfl hd
    · exact hd
  have key : ∀ d2 : gn_watering_control_data_t, wat_hcc_coherent d2 →
      wat_hcc_coherent
        (if (d2.wat_cycle_cumulative_time_ms : ℚ) > p_wat_time_sec * 1000 then
          (_gn_watering_control_stop_watering d2, true) else (d2, false)).1 := by
    intro d2 hd
    split_ifs
    · exact coherent_stop_watering d2 hd
    · exact hd
  exact key _ (step _ h1)

/-- One iteration of the loop keeps the thermal actuation coherent. -/
theorem coherent_iteration (K : wat_consts) (data : gn_watering_control_data_t) (t : wat_tick)
    (h : wat_hcc_coherent data) : wat_hcc_coherent (wat_iteration K data t).1 := by
  cases hr : wat_read t with
  | none => rw [wat_iteration_of_read_none K data t hr]; exact h
  | some r =>
    rw [wat_iteration_of_read K data t r hr]
    exact coherent_stop_watering _ (coherent_stop_hcc data)

/-- An invocation of `_gn_watering_callback` keeps the thermal actuation coherent. -/
theorem coherent_callback (K : wat_consts) :
    ∀ (ts : List wat_tick) (data : gn_watering_control_data_t), wat_hcc_coherent data →
      wat_hcc_coherent (_gn_watering_callback K data ts).1
  | [], data, h => h
  | t :: ts, data, h => by
    have hi := coherent_iteration K data t h
    unfold _gn_watering_callback
    rcases hit : wat_iteration K data t with ⟨d1, b⟩
    rw [hit] at hi
    cases b with
    | true => exact hi
    | false => exact coherent_callback K ts d1 hi

/-- Successive invocations of `_gn_watering_callback` keep the thermal actuation
coherent. -/
theorem coherent_run (K : wat_consts) :
    ∀ (invocations : List (List wat_tick)) (data : gn_watering_control_data_t),
      wat_hcc_coherent data → wat_hcc_coherent (wat_run K data invocations)
  | [], _, h => h
  | ticks :: more, data, h =>
    coherent_run K more _ (coherent_callback K ticks data h)

/-- In a coherent state the two plates are not both commanded on. -/
theorem coherent_exclusive (data : gn_watering_control_data_t) (h : wat_hcc_coherent data) :
    ¬ (wat_commanded data leaf_plt_a = true ∧ wat_commanded data leaf_plt_b = true) := by
  rintro ⟨ha, hb⟩
  have h1 := h.1.1 ha
  have h2 := h.2.1.1 hb
  rw [h1] at h2
  exact absurd h2 (by decide)

/-- The mask is 0 exactly for an event and a parameter, both given, with the event
carrying the name of the leaf of the parameter and the name of the parameter. -/
theorem mask_eq_zero_iff (evt : Option gn_leaf_event_t) (param : Option gn_leaf_param_ref) :
    gn_common_leaf_event_mask_param evt param = 0
      ↔ ∃ e p, evt = some e ∧ param = some p ∧ e.leaf_name = p.leaf_config.name
          ∧ e.param_name = p.param.name := by
  cases evt with
  | none => simp [gn_common_leaf_event_mask_param]
  | some e =>
    cases param with
    | none => simp [gn_common_leaf_event_mask_param]
    | some p =>
      by_cases h : e.leaf_name = p.leaf_config.name ∧ e.param_name = p.param.name
      · simp [gn_common_leaf_event_mask_param, h]
      · simp only [gn_common_leaf_event_mask_param, h, if_false]
        constructor
        · intro h1; exact absurd h1 (by decide)
        · rintro ⟨e1, p1, he, hp, h1, h2⟩
          simp only [Option.some.injEq] at he hp
          subst he; subst hp
          exact absurd ⟨h1, h2⟩ h

/-- The mask is 0 or 1. -/
theorem mask_zero_or_one (evt : Option gn_leaf_event_t) (param : Option gn_leaf_param_ref) :
    gn_common_leaf_event_mask_param evt param = 0
      ∨ gn_common_leaf_event_mask_param evt param = 1 := by
  unfold gn_common_leaf_event_mask_param
  split
  · split_ifs
    · exact Or.inl rfl
    · exact Or.inr rfl
  · exact Or.inr rfl

/-- Among parameters with pairwise distinct names, an event matches at most one. -/
theorem mask_filter_le_one (leaf : gn_leaf_config_t) (e : gn_leaf_event_t) :
    ∀ ps : List gn_leaf_param_t, (ps.map (·.name)).Nodup →
      (ps.filter fun p => decide (gn_common_leaf_event_mask_param (some e)
          (some { leaf_config := leaf, param := p }) = 0)).length ≤ 1
  | [], _ => by simp
  | p :: rest, hnd => by
    simp only [List.map_cons, List.nodup_cons] at hnd
    have ih := mask_filter_le_one leaf e rest hnd.2
    by_cases hp : gn_common_leaf_event_mask_param (some e)
        (some { leaf_config := leaf, param := p }) = 0
    · have hname : e.param_name = p.name := by
        obtain ⟨e1, p1, he, hp1, _, h2⟩ := (mask_eq_zero_iff _ _).1 hp
        simp only [Option.some.injEq] at he hp1
        subst he; subst hp1
        exact h2
      have hrest : (rest.filter fun q => decide (gn_common_leaf_event_mask_param (some e)
          (some { leaf_config := leaf, param := q }) = 0)) = [] := by
        rw [List.filter_eq_nil_iff]
        intro q hq hq0
        have hq0 : gn_common_leaf_event_mask_param (some e)
            (some { leaf_config := leaf, param := q }) = 0 := by simpa using hq0
        obtain ⟨e1, p1, he, hp1, _, h2⟩ := (mask_eq_zero_iff _ _).1 hq0
        simp only [Option.some.injEq] at he hp1
        subst he; subst hp1
        exact hnd.1 (List.mem_map.2 ⟨_, hq, by rw [← h2, hname]⟩)
      simp [List.filter_cons, hp, hrest]
    · simpa [List.filter_cons, hp] using ih

/-- The mask of an event against a handle of the task is not 0 when the event is not
addressed to the parameter behind the handle. -/
theorem mask_ne_zero_of_not_addressed (leaf : gn_leaf_config_t) (evt : gn_leaf_event_t)
    (p : Option gn_leaf_param_t)
    (h : ∀ q, p = some q → ¬ (evt.leaf_name = leaf.name ∧ evt.param_name = q.name)) :
    gn_common_leaf_event_mask_param (some evt)
      (p.map fun q => { leaf_config := leaf, param := q }) ≠ 0 := by
  intro h0
  obtain ⟨e1, p1, he, hp, h1, h2⟩ := (mask_eq_zero_iff _ _).1 h0
  simp only [Option.some.injEq] at he
  subst he
  cases p with
  | none => simp at hp
  | some q =>
    simp only [Option.map_some', Option.some.injEq] at hp
    subst hp
    exact h q rfl ⟨h1, h2⟩

/-- The mask of an event against a handle of the task is 0 when the event is addressed
to the parameter behind the handle. -/
theorem mask_eq_zero_of_addressed (leaf : gn_leaf_config_t) (evt : gn_leaf_event_t)
    (p : Option gn_leaf_param_t)
    (h : ∃ q, p = some q ∧ evt.leaf_name = leaf.name ∧ evt.param_name = q.name) :
    gn_common_leaf_event_mask_param (some evt)
      (p.map fun q => { leaf_config := leaf, param := q }) = 0 := by
  obtain ⟨q, hq, h1, h2⟩ := h
  subst hq
  exact (mask_eq_zero_iff _ _).2 ⟨evt, _, rfl, rfl, h1, h2⟩

/-- With nothing stored under the key and services that answer with success,
`gn_leaf_param_init_double` stores the value, writes it to the parameter, posts the
event and returns `GN_RET_OK`. -/
theorem init_double_fresh (env : gn_env) (st : gn_state) (leaf : gn_leaf_config_t)
    (n : CStr) (val : gn_double) (h : gn_leaf_param_handle)
    (hfind : gn_leaf_param_get_param_handle (some leaf) (some n) = some h)
    (hnone : st.nvs (env.hash (storage_key leaf.name n)) = none)
    (hopen : env.nvs_open = ESP_OK) (hsize : env.nvs_get_size = ESP_OK)
    (hset : env.nvs_set_blob = ESP_OK)
    (hcommit : env.nvs_commit = ESP_OK) (hpost : env.event_post = ESP_OK) :
    gn_leaf_param_init_double env st (some leaf) (some n) val
      = some (GN_RET_OK,
          some { leaf with params := h.write (h.param.set_v (gn_val_t.d val)) },
          { st with
              nvs := nvs_put st.nvs (env.hash (storage_key leaf.name n)) (double_bytes val),
              posted := st.posted ++
                [{ id := GN_LEAF_PARAM_CHANGED_EVENT, leaf_name := leaf.name,
                   param_name := h.param.name, data := env.sprintf_f val,
                   data_size := some ((env.sprintf_f val).length + 1) }] }) := by
  have hg : (gn_storage_get env st.nvs (some (storage_key leaf.name n))).1 ≠ GN_RET_OK := by
    simp [gn_storage_get, hopen, hsize, hnone, storage_fail_code, ESP_OK, ESP_ERR_NVS_NOT_FOUND]
  have ha : gn_storage_get_assigns env st.nvs (storage_key leaf.name n) = false := by
    simp [gn_storage_get_assigns, hnone]
  have hs : gn_storage_set env st.nvs (some (storage_key leaf.name n))
      (some (double_bytes val)) 8
      = (GN_RET_OK, nvs_put st.nvs (env.hash (storage_key leaf.name n)) (double_bytes val)) := by
    have htake : (double_bytes val).take 8 = double_bytes val :=
      List.take_of_length_le (by simp [double_bytes])
    simp [gn_storage_set, hopen, hset, hcommit, htake]
  simp only [gn_leaf_param_init_double, hfind, hg, if_false, ha, hs, param_init_notify, hpost,
    ne_eq, not_true_eq_false, gn_leaf_param_t.set_v, Bool.false_eq_true]

/-- On an empty store and with services that answer with success,
`gn_leaf_param_init_string(leaf, "label", "hi")` on a parameter holding "old", the
argument `val` holding the address 0x3ffb1234: the call returns `GN_RET_OK`, the store
holds the first two bytes of the pointer, and the parameter holds "hid". -/
theorem init_string_fresh_sample :
    (gn_leaf_param_init_string env_ok st_empty (some leaf_label)
        (some ['l', 'a', 'b', 'e', 'l']) (some ['h', 'i']) val_ref_sample).map
      (fun r => (r.1, r.2.1.map (fun l => l.params.map (·.param_val.v)),
        r.2.2.nvs (env_ok.hash (storage_key ['r', 'e', 'l', 'a', 'y']
          ['l', 'a', 'b', 'e', 'l']))))
      = some (GN_RET_OK, some [gn_val_t.s (some ['h', 'i', 'd'])], some [0x34, 0x12]) := by
  decide

/-! ## Claims -/

/-- C1, counterexample. A read-only, persisted boolean parameter "status" holding false:
`gn_leaf_param_set_bool(leaf, "status", true)` returns `GN_RET_OK`, not the access
violation, the parameter holds true afterwards, and the store, empty before under the
key "relay_status", holds the byte 1 there. -/
theorem set_bool_on_read_only_commits :
    (gn_leaf_param_set_bool env_ok st_empty
        (some (leaf_relay GN_LEAF_PARAM_ACCESS_READ GN_LEAF_PARAM_STORAGE_PERSISTED))
        (some ['s', 't', 'a', 't', 'u', 's']) true).1 = GN_RET_OK
    ∧ (gn_leaf_param_set_bool env_ok st_empty
        (some (leaf_relay GN_LEAF_PARAM_ACCESS_READ GN_LEAF_PARAM_STORAGE_PERSISTED))
        (some ['s', 't', 'a', 't', 'u', 's']) true).2.1
      = some { leaf_relay GN_LEAF_PARAM_ACCESS_READ GN_LEAF_PARAM_STORAGE_PERSISTED with
                 params := [(param_status GN_LEAF_PARAM_ACCESS_READ
                               GN_LEAF_PARAM_STORAGE_PERSISTED).set_v (gn_val_t.b true)] }
    ∧ st_empty.nvs ['r', 'e', 'l', 'a', 'y', '_', 's', 't', 'a', 't', 'u', 's'] = none
    ∧ (gn_leaf_param_set_bool env_ok st_empty
        (some (leaf_relay GN_LEAF_PARAM_ACCESS_READ GN_LEAF_PARAM_STORAGE_PERSISTED))
        (some ['s', 't', 'a', 't', 'u', 's']) true).2.2.nvs
          ['r', 'e', 'l', 'a', 'y', '_', 's', 't', 'a', 't', 'u', 's'] = some [1] := by
  decide

/-- C1, amended. Read-only access is enforced on the change request path, not by the
setters. For a leaf with pairwise distinct parameter names and a parameter `p` of it
with access Read, `_gn_leaf_parameter_update` for `p` with a non-empty payload returns
`GN_RET_ERR_LEAF_PARAM_ACCESS_VIOLATION` and leaves the leaf (parameters and queue) as
it was. A setter call that resolves to a read-only parameter is carried out: with
flash answering (and a non-empty string for the string setter), each of
`gn_leaf_param_set_bool`, `gn_leaf_param_set_double` and `gn_leaf_param_set_string`
leaves the leaf with the new value written into that parameter. -/
theorem read_only_enforced_on_request_path_only (env : gn_env) (st : gn_state)
    (queue_sent : Bool) (leaf : gn_leaf_config_t) (p : gn_leaf_param_t) (data : CStr)
    (data_len : Nat) (n : CStr) (h : gn_leaf_param_handle) (b : Bool) (d : gn_double)
    (s : CStr) (s_ref : List Nat)
    (hp : p ∈ leaf.params) (hnd : (leaf.params.map (·.name)).Nodup)
    (hr : p.access = GN_LEAF_PARAM_ACCESS_READ) (hlen : data_len ≠ 0)
    (hfind : gn_leaf_param_get_param_handle (some leaf) (some n) = some h)
    (_hread : h.param.access = GN_LEAF_PARAM_ACCESS_READ)
    (ho : env.nvs_open = ESP_OK) (hsb : env.nvs_set_blob = ESP_OK)
    (hc : env.nvs_commit = ESP_OK) (hs : s ≠ []) :
    _gn_leaf_parameter_update queue_sent leaf (some p.name) (some data) data_len
        = (GN_RET_ERR_LEAF_PARAM_ACCESS_VIOLATION, leaf)
    ∧ (gn_leaf_param_set_bool env st (some leaf) (some n) b).2.1
        = some { leaf with params := h.write (h.param.set_v (gn_val_t.b b)) }
    ∧ (gn_leaf_param_set_double env st (some leaf) (some n) d).2.1
        = some { leaf with params := h.write (h.param.set_v (gn_val_t.d d)) }
    ∧ (gn_leaf_param_set_string env st (some leaf) (some n) (some s) s_ref).2.1
        = some { leaf with params := h.write (h.param.set_v (gn_val_t.s (some s))) } := by
  have hsl : s.length ≠ 0 := by
    intro e; exact hs (List.length_eq_zero.1 e)
  refine ⟨?_, ?_, ?_, ?_⟩
  · simp only [_gn_leaf_parameter_update, hlen, if_false]
    exact parameter_update_loop_read queue_sent leaf p data data_len hr leaf.params hp hnd
  · simp only [gn_leaf_param_set_bool, hfind]
    by_cases hper : h.param.storage = GN_LEAF_PARAM_STORAGE_PERSISTED
    · simp only [hper, if_true, gn_storage_set_ok env st.nvs _ _ 1 ho hsb hc (by decide)]
      simp only [ne_eq, not_true, if_false, param_notify]
      split_ifs <;> rfl
    · simp only [hper, if_false, ne_eq, not_true, param_notify]
      split_ifs <;> rfl
  · simp only [gn_leaf_param_set_double, hfind]
    by_cases hper : h.param.storage = GN_LEAF_PARAM_STORAGE_PERSISTED
    · simp only [hper, if_true, gn_storage_set_ok env st.nvs _ _ 8 ho hsb hc (by decide)]
      simp only [ne_eq, not_true, if_false, param_notify]
      split_ifs <;> rfl
    · simp only [hper, if_false, ne_eq, not_true, param_notify]
      split_ifs <;> rfl
  · simp only [gn_leaf_param_set_string, hfind]
    by_cases hper : h.param.storage = GN_LEAF_PARAM_STORAGE_PERSISTED
    · simp only [hper, if_true, gn_storage_set_ok env st.nvs _ _ s.length ho hsb hc hsl]
      simp only [ne_eq, not_true, if_false, param_notify]
      split_ifs <;> rfl
    · simp only [hper, if_false, ne_eq, not_true, param_notify]
      split_ifs <;> rfl

/-- C1, witness: the leaf "relay" with the read-only parameter "status". -/
theorem read_only_enforced_on_request_path_only_witness :
    param_status GN_LEAF_PARAM_ACCESS_READ GN_LEAF_PARAM_STORAGE_VOLATILE
        ∈ (leaf_relay GN_LEAF_PARAM_ACCESS_READ GN_LEAF_PARAM_STORAGE_VOLATILE).params
    ∧ ((leaf_relay GN_LEAF_PARAM_ACCESS_READ GN_LEAF_PARAM_STORAGE_VOLATILE).params.map
        (·.name)).Nodup
    ∧ gn_leaf_param_get_param_handle
        (some (leaf_relay GN_LEAF_PARAM_ACCESS_READ GN_LEAF_PARAM_STORAGE_VOLATILE))
        (some ['s', 't', 'a', 't', 'u', 's'])
      = some { before := [],
               param := param_status GN_LEAF_PARAM_ACCESS_READ GN_LEAF_PARAM_STORAGE_VOLATILE,
               after := [] }
    ∧ _gn_leaf_parameter_update true
        (leaf_relay GN_LEAF_PARAM_ACCESS_READ GN_LEAF_PARAM_STORAGE_VOLATILE)
        (some ['s', 't', 'a', 't', 'u', 's']) (some ['1']) 1
      = (GN_RET_ERR_LEAF_PARAM_ACCESS_VIOLATION,
         leaf_relay GN_LEAF_PARAM_ACCESS_READ GN_LEAF_PARAM_STORAGE_VOLATILE)
    ∧ (gn_leaf_param_set_bool env_ok st_empty
        (some (leaf_relay GN_LEAF_PARAM_ACCESS_READ GN_LEAF_PARAM_STORAGE_VOLATILE))
        (some ['s', 't', 'a', 't', 'u', 's']) true).2.1
      = some { leaf_relay GN_LEAF_PARAM_ACCESS_READ GN_LEAF_PARAM_STORAGE_VOLATILE with
                 params := [(param_status GN_LEAF_PARAM_ACCESS_READ
                               GN_LEAF_PARAM_STORAGE_VOLATILE).set_v (gn_val_t.b true)] } :=
  have w := read_only_enforced_on_request_path_only env_ok st_empty true
    (leaf_relay GN_LEAF_PARAM_ACCESS_READ GN_LEAF_PARAM_STORAGE_VOLATILE)
    (param_status GN_LEAF_PARAM_ACCESS_READ GN_LEAF_PARAM_STORAGE_VOLATILE) ['1'] 1
    ['s', 't', 'a', 't', 'u', 's']
    { before := [],
      param := param_status GN_LEAF_PARAM_ACCESS_READ GN_LEAF_PARAM_STORAGE_VOLATILE,
      after := [] }
    true 0 ['x'] [] (by decide) (by decide) (by decide) (by decide) (by decide)
    (by decide) (by decide) (by decide) (by decide) (by decide)
  ⟨by decide, by decide, by decide, w.1, w.2.1⟩

/-- C2. When the parameter list of a leaf holds a parameter with the name of
`new_param`, `gn_leaf_param_add` returns `GN_RET_ERR_INVALID_ARG` and the leaf is as it
was, so it keeps the first parameter of that name alone. Hence names stay pairwise
distinct: a sequence of `gn_leaf_param_add` calls, whatever the MQTT calls answer,
keeps the names of a leaf pairwise distinct, and a leaf built by such a sequence from a
newly created leaf has pairwise distinct names. -/
theorem gn_leaf_param_add_rejects_duplicate (sub : esp_err_t) (send : gn_err_t)
    (leaf : gn_leaf_config_t) (new_param : gn_leaf_param_t)
    (calls : List (esp_err_t × gn_err_t × gn_leaf_param_t))
    (hdup : new_param.name ∈ leaf.params.map (·.name)) :
    gn_leaf_param_add sub send (some leaf) (some new_param)
        = (GN_RET_ERR_INVALID_ARG, some leaf)
    ∧ ((leaf.params.map (·.name)).Nodup →
        ((param_add_all leaf calls).params.map (·.name)).Nodup)
    ∧ ((param_add_all (_gn_leaf_config_create leaf.name) calls).params.map (·.name)).Nodup := by
  refine ⟨?_, ?_, ?_⟩
  · simp [gn_leaf_param_add, param_add_link_of_mem new_param _ hdup]
  · exact param_add_all_names_nodup calls leaf
  · exact param_add_all_names_nodup calls _ (by simp [_gn_leaf_config_create])

/-- C2, witness: a second parameter "status" offered to the leaf "relay", and the
sequence that adds "status" twice to a new leaf. -/
theorem gn_leaf_param_add_rejects_duplicate_witness :
    (param_status GN_LEAF_PARAM_ACCESS_READ GN_LEAF_PARAM_STORAGE_PERSISTED).name
        ∈ (leaf_relay GN_LEAF_PARAM_ACCESS_WRITE GN_LEAF_PARAM_STORAGE_VOLATILE).params.map
            (·.name)
    ∧ gn_leaf_param_add ESP_OK GN_RET_OK
        (some (leaf_relay GN_LEAF_PARAM_ACCESS_WRITE GN_LEAF_PARAM_STORAGE_VOLATILE))
        (some (param_status GN_LEAF_PARAM_ACCESS_READ GN_LEAF_PARAM_STORAGE_PERSISTED))
      = (GN_RET_ERR_INVALID_ARG,
         some (leaf_relay GN_LEAF_PARAM_ACCESS_WRITE GN_LEAF_PARAM_STORAGE_VOLATILE))
    ∧ ((param_add_all (_gn_leaf_config_create ['r', 'e', 'l', 'a', 'y'])
          [(ESP_OK, GN_RET_OK,
              param_status GN_LEAF_PARAM_ACCESS_WRITE GN_LEAF_PARAM_STORAGE_VOLATILE),
           (ESP_OK, GN_RET_OK,
              param_status GN_LEAF_PARAM_ACCESS_READ GN_LEAF_PARAM_STORAGE_PERSISTED)]).params.map
        (·.name)).Nodup :=
  have w := gn_leaf_param_add_rejects_duplicate ESP_OK GN_RET_OK
    (leaf_relay GN_LEAF_PARAM_ACCESS_WRITE GN_LEAF_PARAM_STORAGE_VOLATILE)
    (param_status GN_LEAF_PARAM_ACCESS_READ GN_LEAF_PARAM_STORAGE_PERSISTED)
    [(ESP_OK, GN_RET_OK,
        param_status GN_LEAF_PARAM_ACCESS_WRITE GN_LEAF_PARAM_STORAGE_VOLATILE),
     (ESP_OK, GN_RET_OK,
        param_status GN_LEAF_PARAM_ACCESS_READ GN_LEAF_PARAM_STORAGE_PERSISTED)]
    (by decide)
  ⟨by decide, w.1, w.2.2⟩

/-- C3, the code at the failing input. The persisted string parameter "label" of the
leaf "relay" is set to "hi" while the argument `val` lives at a place whose bytes are
34 12 fb 3f (the pointer 0x3ffb1234). The setter returns `GN_RET_OK`; the store then
holds, under the hashed key of "relay_label", the two bytes 34 12 of the pointer and
not the characters of "hi"; `gn_leaf_param_create` with the same leaf name, name, type
and storage yields a parameter whose value is the text of those two bytes, which is
not "hi". -/
theorem set_string_stores_pointer_bytes :
    (gn_leaf_param_set_string env_ok st_empty (some leaf_label)
        (some ['l', 'a', 'b', 'e', 'l']) (some ['h', 'i']) val_ref_sample).1 = GN_RET_OK
    ∧ (gn_leaf_param_set_string env_ok st_empty (some leaf_label)
        (some ['l', 'a', 'b', 'e', 'l']) (some ['h', 'i']) val_ref_sample).2.2.nvs
          (env_ok.hash (storage_key ['r', 'e', 'l', 'a', 'y'] ['l', 'a', 'b', 'e', 'l']))
        = some [0x34, 0x12]
    ∧ gn_leaf_param_create env_ok
        (gn_leaf_param_set_string env_ok st_empty (some leaf_label)
          (some ['l', 'a', 'b', 'e', 'l']) (some ['h', 'i']) val_ref_sample).2.2.nvs
        leaf_label (some ['l', 'a', 'b', 'e', 'l']) GN_VAL_TYPE_STRING
        (gn_val_t.s (some ['d', 'f', 'l', 't'])) GN_LEAF_PARAM_ACCESS_WRITE
        GN_LEAF_PARAM_STORAGE_PERSISTED
      = some { name := ['l', 'a', 'b', 'e', 'l'],
               param_val := { t := GN_VAL_TYPE_STRING,
                              v := gn_val_t.s (some [Char.ofNat 0x34, Char.ofNat 0x12]) },
               access := GN_LEAF_PARAM_ACCESS_WRITE,
               storage := GN_LEAF_PARAM_STORAGE_PERSISTED }
    ∧ gn_val_t.s (some [Char.ofNat 0x34, Char.ofNat 0x12]) ≠ gn_val_t.s (some ['h', 'i']) := by
  decide

/-- C4. For a setter call that resolves to a persisted parameter, the store is written
first: when `gn_storage_set` does not return `GN_RET_OK`, each of
`gn_leaf_param_set_bool`, `gn_leaf_param_set_double` and `gn_leaf_param_set_string`
returns `GN_RET_ERR`, the leaf is as it was (the value in memory is not touched), and
of the services only the store can differ: no event is posted and nothing is handed to
the broker. -/
theorem setter_store_failure_is_atomic (env : gn_env) (st : gn_state)
    (leaf : gn_leaf_config_t) (n : CStr) (h : gn_leaf_param_handle) (b : Bool)
    (d : gn_double) (s : CStr) (s_ref : List Nat)
    (hfind : gn_leaf_param_get_param_handle (some leaf) (some n) = some h)
    (hper : h.param.storage = GN_LEAF_PARAM_STORAGE_PERSISTED) :
    ((gn_storage_set env st.nvs (some (storage_key leaf.name n)) (some (bool_bytes b)) 1).1
        ≠ GN_RET_OK →
      gn_leaf_param_set_bool env st (some leaf) (some n) b
        = (GN_RET_ERR, some leaf,
           { st with nvs := (gn_storage_set env st.nvs (some (storage_key leaf.name n))
                               (some (bool_bytes b)) 1).2 }))
    ∧ ((gn_storage_set env st.nvs (some (storage_key leaf.name n)) (some (double_bytes d)) 8).1
        ≠ GN_RET_OK →
      gn_leaf_param_set_double env st (some leaf) (some n) d
        = (GN_RET_ERR, some leaf,
           { st with nvs := (gn_storage_set env st.nvs (some (storage_key leaf.name n))
                               (some (double_bytes d)) 8).2 }))
    ∧ ((gn_storage_set env st.nvs (some (storage_key leaf.name n)) (some s_ref) s.length).1
        ≠ GN_RET_OK →
      gn_leaf_param_set_string env st (some leaf) (some n) (some s) s_ref
        = (GN_RET_ERR, some leaf,
           { st with nvs := (gn_storage_set env st.nvs (some (storage_key leaf.name n))
                               (some s_ref) s.length).2 })) := by
  refine ⟨?_, ?_, ?_⟩
  · intro hf
    simp only [gn_leaf_param_set_bool, hfind, hper, if_true]
    rw [if_pos hf]
  · intro hf
    simp only [gn_leaf_param_set_double, hfind, hper, if_true]
    rw [if_pos hf]
  · intro hf
    simp only [gn_leaf_param_set_string, hfind, hper, if_true]
    rw [if_pos hf]

/-- C4, witness: the persisted parameter "status" while flash cannot be opened. The
setter returns `GN_RET_ERR`, the leaf is as it was, no event and no publish. -/
theorem setter_store_failure_is_atomic_witness :
    gn_leaf_param_get_param_handle
        (some (leaf_relay GN_LEAF_PARAM_ACCESS_WRITE GN_LEAF_PARAM_STORAGE_PERSISTED))
        (some ['s', 't', 'a', 't', 'u', 's'])
      = some { before := [],
               param := param_status GN_LEAF_PARAM_ACCESS_WRITE GN_LEAF_PARAM_STORAGE_PERSISTED,
               after := [] }
    ∧ (gn_storage_set env_flash_down st_empty.nvs
          (some (storage_key ['r', 'e', 'l', 'a', 'y'] ['s', 't', 'a', 't', 'u', 's']))
          (some (bool_bytes true)) 1).1 ≠ GN_RET_OK
    ∧ gn_leaf_param_set_bool env_flash_down st_empty
        (some (leaf_relay GN_LEAF_PARAM_ACCESS_WRITE GN_LEAF_PARAM_STORAGE_PERSISTED))
        (some ['s', 't', 'a', 't', 'u', 's']) true
      = (GN_RET_ERR,
         some (leaf_relay GN_LEAF_PARAM_ACCESS_WRITE GN_LEAF_PARAM_STORAGE_PERSISTED),
         { st_empty with nvs := (gn_storage_set env_flash_down st_empty.nvs
             (some (storage_key ['r', 'e', 'l', 'a', 'y'] ['s', 't', 'a', 't', 'u', 's']))
             (some (bool_bytes true)) 1).2 }) :=
  ⟨by decide, by decide,
   (setter_store_failure_is_atomic env_flash_down st_empty
      (leaf_relay GN_LEAF_PARAM_ACCESS_WRITE GN_LEAF_PARAM_STORAGE_PERSISTED)
      ['s', 't', 'a', 't', 'u', 's']
      { before := [],
        param := param_status GN_LEAF_PARAM_ACCESS_WRITE GN_LEAF_PARAM_STORAGE_PERSISTED,
        after := [] }
      true 0 [] [] (by decide) (by decide)).1 (by decide)⟩

/-- C5, the code at the failing input. A leaf "relay" gets the boolean parameters
"status_led" and "status", in this order, through `gn_leaf_param_add`. The call
`gn_leaf_param_set_bool(leaf, "status", true)` returns `GN_RET_OK`, but the value is
committed to "status_led" while "status" stays false, and the one event posted names
the parameter "status_led" (payload "1", data_size 1). -/
theorem set_bool_resolves_to_longer_name :
    gn_leaf_param_add ESP_OK GN_RET_OK
        (gn_leaf_param_add ESP_OK GN_RET_OK
          (some (_gn_leaf_config_create ['r', 'e', 'l', 'a', 'y']))
          (some param_status_led)).2
        (some (param_status GN_LEAF_PARAM_ACCESS_WRITE GN_LEAF_PARAM_STORAGE_VOLATILE))
      = (GN_RET_OK, some leaf_two_status)
    ∧ (gn_leaf_param_set_bool env_ok st_empty (some leaf_two_status)
        (some ['s', 't', 'a', 't', 'u', 's']) true).1 = GN_RET_OK
    ∧ (gn_leaf_param_set_bool env_ok st_empty (some leaf_two_status)
        (some ['s', 't', 'a', 't', 'u', 's']) true).2.1
      = some { leaf_two_status with
                 params := [param_status_led.set_v (gn_val_t.b true),
                            param_status GN_LEAF_PARAM_ACCESS_WRITE
                              GN_LEAF_PARAM_STORAGE_VOLATILE] }
    ∧ (gn_leaf_param_set_bool env_ok st_empty (some leaf_two_status)
        (some ['s', 't', 'a', 't', 'u', 's']) true).2.2.posted
      = [{ id := GN_LEAF_PARAM_CHANGED_EVENT, leaf_name := ['r', 'e', 'l', 'a', 'y'],
           param_name := ['s', 't', 'a', 't', 'u', 's', '_', 'l', 'e', 'd'],
           data := ['1'], data_size := some 1 }] := by
  decide

/-- C6. When no leaf of the node has the name `leaf_name`:
`gn_send_leaf_param_change_message` returns `GN_RET_ERR_LEAF_NOT_FOUND`,
`_gn_leaf_get_by_name` finds nothing, and `_gn_evt_handler` drops a
`GN_LEAF_PARAM_CHANGE_REQUEST_EVENT` addressed to that name; in both cases the
configuration root is as it was, so no queue of any leaf received an event and the
parameters of every leaf are unchanged. -/
theorem change_request_for_unknown_leaf_dropped (queue_sent : Bool) (conf : gn_config_t)
    (leaf_name : CStr) (param_name message : Option CStr) (message_len : Nat)
    (evt : gn_leaf_event_t)
    (hno : ∀ l ∈ conf.node_config.leaves, l.name ≠ leaf_name)
    (hevt : evt.leaf_name = leaf_name) :
    gn_send_leaf_param_change_message queue_sent conf leaf_name param_name message
        message_len = (GN_RET_ERR_LEAF_NOT_FOUND, conf)
    ∧ _gn_leaf_get_by_name conf leaf_name = none
    ∧ _gn_evt_handler queue_sent conf GN_LEAF_PARAM_CHANGE_REQUEST_EVENT evt = conf := by
  have hnone := leaf_find_by_name_none leaf_name conf.node_config.leaves hno
  refine ⟨?_, ?_, ?_⟩
  · simp [gn_send_leaf_param_change_message, hnone]
  · simpa [_gn_leaf_get_by_name] using hnone
  · simp [_gn_evt_handler, _gn_leaf_get_by_name, hevt, hnone]

/-- C6, witness: a request for the leaf "pump" on a node that holds "relay" alone. -/
theorem change_request_for_unknown_leaf_dropped_witness :
    (∀ l ∈ conf_relay.node_config.leaves, l.name ≠ ['p', 'u', 'm', 'p'])
    ∧ evt_pump.leaf_name = ['p', 'u', 'm', 'p']
    ∧ gn_send_leaf_param_change_message true conf_relay ['p', 'u', 'm', 'p']
        (some ['s', 't', 'a', 't', 'u', 's']) (some ['1']) 1
      = (GN_RET_ERR_LEAF_NOT_FOUND, conf_relay)
    ∧ _gn_evt_handler true conf_relay GN_LEAF_PARAM_CHANGE_REQUEST_EVENT evt_pump
      = conf_relay :=
  have w := change_request_for_unknown_leaf_dropped true conf_relay ['p', 'u', 'm', 'p']
    (some ['s', 't', 'a', 't', 'u', 's']) (some ['1']) 1 evt_pump (by decide) (by decide)
  ⟨by decide, by decide, w.1, w.2.2⟩

/-- C7, the code at the failing input. From the state Stop with a target of 20
degrees, lines 450 to 468 of `_gn_watering_callback` turn a measured 22 degrees (two
above the target) into the state Heating with plate A and the conditioning pump
commanded on and plate B off, and a measured 18 degrees (two below) into the state
Cooling with plate B and the pump on and plate A off. -/
theorem hcc_select_heats_when_above_target :
    wat_hcc_select wat_data_init 22 20 7
      = { wat_data_init with
            hcc_cycle := HCC_HEATING, hcc_cycle_start := 7,
            commands := [(leaf_plt_a, true), (leaf_plt_b, false), (leaf_hcc_pump, true)] }
    ∧ wat_hcc_select wat_data_init 18 20 7
      = { wat_data_init with
            hcc_cycle := HCC_COOLING, hcc_cycle_start := 7,
            commands := [(leaf_plt_a, false), (leaf_plt_b, true), (leaf_hcc_pump, true)] } := by
  constructor
  · simp [wat_hcc_select, _gn_watering_control_hcc_temp_high,
      _gn_watering_control_hcc_temp_low, _gn_watering_control_start_hcc_heating,
      wat_data_init]
    norm_num
  · simp [wat_hcc_select, _gn_watering_control_hcc_temp_high,
      _gn_watering_control_start_hcc_cooling, wat_data_init]
    norm_num

/-- C8, the code at the failing input. From the initial state, with every read going
through, the temperature sensor active, no level trigger, the water at the target
temperature and a watering time of 20 seconds: the first iteration of
`_gn_watering_callback` commands plate A, plate B, the conditioning pump and the
irrigation pump off and the callback returns; irrigation is not started. -/
theorem callback_stops_when_sensors_active :
    _gn_watering_callback wat_consts_sample wat_data_init [tick_in_band]
      = ({ wat_data_init with
             commands := [(leaf_plt_a, false), (leaf_plt_b, false), (leaf_hcc_pump, false),
                          (leaf_wat_pump, false)] }, true) := by
  decide

/-- C10, counterexample. The supervisor is heating and watering and the last read of
the iteration (the power of the conditioning pump) fails: `_gn_watering_callback`
returns with the state untouched, still Heating and still watering, and has issued no
command at all. -/
theorem read_failure_leaves_actuators_on :
    _gn_watering_callback wat_consts_sample wat_data_busy [tick_read_fails]
      = (wat_data_busy, true)
    ∧ wat_data_busy.hcc_cycle = HCC_HEATING
    ∧ wat_data_busy.wat_cycle_active = true
    ∧ wat_data_busy.commands = [] := by
  decide

/-- C10, amended. When one of the fifteen parameter reads of an iteration fails,
`_gn_watering_callback` returns in that iteration, without a retry; it issues no
command and leaves the thermal state, the watering flag and the counters as they
were. -/
theorem read_failure_ends_invocation (K : wat_consts)
    (data : gn_watering_control_data_t) (t : wat_tick) (ts : List wat_tick)
    (hfail : t.p_wat_int_sec = none ∨ t.p_wat_time_sec = none ∨ t.p_wat_t_temp = none
        ∨ t.p_active = none ∨ t.p_cwl = none ∨ t.p_cwl_trg_high = none
        ∨ t.p_cwl_trg_low = none ∨ t.p_ds18b20_temp_active = none ∨ t.p_wat_temp = none
        ∨ t.p_plt_temp = none ∨ t.p_plt_a_status = none ∨ t.p_plt_b_status = none
        ∨ t.p_wat_pump = none ∨ t.p_hcc_toggle = none ∨ t.p_hcc_power = none) :
    _gn_watering_callback K data (t :: ts) = (data, true) := by
  simp [_gn_watering_callback,
    wat_iteration_of_read_none K data t (wat_read_none_of_fail t hfail)]

/-- C10, witness: the read of the watering time fails while the supervisor is heating
and watering. -/
theorem read_failure_ends_invocation_witness :
    ({ tick_in_band with p_wat_time_sec := none } : wat_tick).p_wat_time_sec = none
    ∧ _gn_watering_callback wat_consts_sample wat_data_busy
        [{ tick_in_band with p_wat_time_sec := none }, tick_in_band]
      = (wat_data_busy, true) :=
  ⟨rfl,
   read_failure_ends_invocation wat_consts_sample wat_data_busy
     { tick_in_band with p_wat_time_sec := none } [tick_in_band] (Or.inr (Or.inl rfl))⟩

/-- C11. The descriptor `gn_watering_control_config` returns has the status
`GN_LEAF_STATUS_INITIALIZED` if and only if each of the seven leaves it looks up by
name (water level, temperature probes, ambient sensor, plate A, plate B, conditioning
pump, irrigation pump) is found; if one of them is missing the status is
`GN_LEAF_STATUS_ERROR`. This holds whatever the set-up of the four parameters did. -/
theorem wat_config_initialized_iff_all_found (N : wat_names)
    (e1 e2 e3 e4 : param_setup_env) (nvs : nvs_t) (get : CStr → Option Nat)
    (leaf_config : gn_leaf_config_t) :
    ((gn_watering_control_config N e1 e2 e3 e4 nvs get leaf_config).1.status
        = GN_LEAF_STATUS_INITIALIZED
      ↔ ∀ n ∈ [WATERLEVELIN, DS18B20, BME280, PLT_A, PLT_B, HCC, WATERPUMPIN],
          get n ≠ none)
    ∧ ((∃ n ∈ [WATERLEVELIN, DS18B20, BME280, PLT_A, PLT_B, HCC, WATERPUMPIN],
          get n = none)
      → (gn_watering_control_config N e1 e2 e3 e4 nvs get leaf_config).1.status
          = GN_LEAF_STATUS_ERROR) := by
  simp only [gn_watering_control_config, wat_config_lookups_status]
  constructor
  · split_ifs with h
    · simp only [true_iff]
      intro n hn
      simp only [List.mem_cons, List.mem_singleton, List.not_mem_nil, or_false] at hn
      obtain ⟨h1, h2, h3, h4, h5, h6, h7⟩ := h
      rcases hn with rfl | rfl | rfl | rfl | rfl | rfl | rfl <;> assumption
    · constructor
      · intro e; exact absurd e (by decide)
      · intro hall
        exact absurd ⟨hall _ (by simp), hall _ (by simp), hall _ (by simp),
          hall _ (by simp), hall _ (by simp), hall _ (by simp), hall _ (by simp)⟩ h
  · rintro ⟨n, hn, hnone⟩
    split_ifs with h
    · exfalso
      simp only [List.mem_cons, List.mem_singleton, List.not_mem_nil, or_false] at hn
      obtain ⟨h1, h2, h3, h4, h5, h6, h7⟩ := h
      rcases hn with rfl | rfl | rfl | rfl | rfl | rfl | rfl <;> contradiction
    · rfl

/-- C11, witness: in a node without the conditioning pump "hcc" the status is
`GN_LEAF_STATUS_ERROR`; in a node with all seven leaves it is
`GN_LEAF_STATUS_INITIALIZED`. -/
theorem wat_config_initialized_iff_all_found_witness :
    (∃ n ∈ [WATERLEVELIN, DS18B20, BME280, PLT_A, PLT_B, HCC, WATERPUMPIN],
        get_in leaves_no_hcc n = none)
    ∧ (gn_watering_control_config wat_names_sample setup_ok setup_ok setup_ok setup_ok
        st_empty.nvs (get_in leaves_no_hcc) (leaf_named ['w', 'a', 't'])).1.status
      = GN_LEAF_STATUS_ERROR
    ∧ (gn_watering_control_config wat_names_sample setup_ok setup_ok setup_ok setup_ok
        st_empty.nvs (get_in leaves_all) (leaf_named ['w', 'a', 't'])).1.status
      = GN_LEAF_STATUS_INITIALIZED :=
  ⟨⟨HCC, by decide, by decide⟩,
   (wat_config_initialized_iff_all_found wat_names_sample setup_ok setup_ok setup_ok
      setup_ok st_empty.nvs (get_in leaves_no_hcc) (leaf_named ['w', 'a', 't'])).2
      ⟨HCC, by decide, by decide⟩,
   (wat_config_initialized_iff_all_found wat_names_sample setup_ok setup_ok setup_ok
      setup_ok st_empty.nvs (get_in leaves_all) (leaf_named ['w', 'a', 't'])).1.2
      (by decide)⟩

/-- C12, the code at the failing input. The first `gn_init` call fails in its first
step, flash; the second call is made with every step succeeding. The first call
returns the object at address 0 with the status Error; the second call does not
return that handle: it allocates a new object, at address 1, runs the initialization
steps again from flash on, and returns the new object with the status Completed. -/
theorem gn_init_after_failure_runs_again :
    gn_init_calls false gn_globals_start [init_flash_fails, init_ok]
      = ([some { addr := 0, status := GN_CONFIG_STATUS_ERROR },
          some { addr := 1, status := GN_CONFIG_STATUS_COMPLETED }],
         { initialized := true,
           _gn_default_conf := some { addr := 1, status := GN_CONFIG_STATUS_COMPLETED },
           heap_next := 2,
           steps := [gn_init_step._gn_init_flash,
                     gn_init_step._gn_init_flash, gn_init_step._gn_init_spiffs,
                     gn_init_step._gn_init_event_loop,
                     gn_init_step._gn_evt_handlers_register,
                     gn_init_step._gn_init_keepalive_timer,
                     gn_init_step.gn_init_display] }) := by
  decide

/-- C13. `gn_node_start` returns `GN_RET_OK` exactly when the start of every leaf of
the node succeeds (task created and leaf published) and the NodeStarted event is
posted; the status is then `GN_CONFIG_STATUS_STARTED` and the tasks have been created
in the order of the leaf list. When the start of some leaf fails it returns
`GN_RET_ERR_NODE_NOT_STARTED` and the configuration root is as it was. -/
theorem gn_node_start_ok_iff (start : Nat → leaf_start_env) (event_post : esp_err_t)
    (conf : gn_config_t) (tasks : List CStr) :
    ((gn_node_start start event_post conf tasks).1 = GN_RET_OK
      ↔ (∀ i, i < conf.node_config.leaves.length →
            (start i).task_created = true ∧ (start i).mqtt_publish_leaf = GN_RET_OK)
          ∧ event_post = ESP_OK)
    ∧ ((gn_node_start start event_post conf tasks).1 = GN_RET_OK
      → (gn_node_start start event_post conf tasks).2.1
            = { conf with status := GN_CONFIG_STATUS_STARTED }
          ∧ (gn_node_start start event_post conf tasks).2.2
            = tasks ++ conf.node_config.leaves.map (·.name))
    ∧ ((∃ i, i < conf.node_config.leaves.length
          ∧ ¬ ((start i).task_created = true ∧ (start i).mqtt_publish_leaf = GN_RET_OK))
      → (gn_node_start start event_post conf tasks).1 = GN_RET_ERR_NODE_NOT_STARTED
          ∧ (gn_node_start start event_post conf tasks).2.1 = conf) := by
  obtain ⟨hiff, htasks, _⟩ := node_start_loop_ok_iff start conf.node_config.leaves 0 tasks
  simp only [Nat.zero_add] at hiff
  by_cases hl : (node_start_loop start 0 conf.node_config.leaves tasks).1 = GN_RET_OK
  · have hall := hiff.1 hl
    have hnobad : ¬ ∃ i, i < conf.node_config.leaves.length
        ∧ ¬ ((start i).task_created = true ∧ (start i).mqtt_publish_leaf = GN_RET_OK) := by
      rintro ⟨i, hi, hbad⟩
      exact hbad (hall i hi)
    by_cases he : event_post = ESP_OK
    · have hr : gn_node_start start event_post conf tasks
          = (GN_RET_OK, { conf with status := GN_CONFIG_STATUS_STARTED },
             (node_start_loop start 0 conf.node_config.leaves tasks).2) := by
        simp [gn_node_start, hl, he]
      rw [hr]
      exact ⟨⟨fun _ => ⟨hall, he⟩, fun _ => rfl⟩, fun _ => ⟨rfl, htasks hl⟩,
        fun h => absurd h hnobad⟩
    · have hr : gn_node_start start event_post conf tasks
          = (GN_RET_ERR_EVENT_LOOP_ERROR, { conf with status := GN_CONFIG_STATUS_STARTED },
             (node_start_loop start 0 conf.node_config.leaves tasks).2) := by
        simp [gn_node_start, hl, he]
      rw [hr]
      exact ⟨⟨fun h => absurd h (by simp), fun h => absurd h.2 he⟩,
        fun h => absurd h (by simp), fun h => absurd h hnobad⟩
  · have hr : gn_node_start start event_post conf tasks
        = (GN_RET_ERR_NODE_NOT_STARTED, conf,
           (node_start_loop start 0 conf.node_config.leaves tasks).2) := by
      simp [gn_node_start, hl]
    rw [hr]
    exact ⟨⟨fun h => absurd h (by simp), fun h => absurd (hiff.2 h.1) hl⟩,
      fun h => absurd h (by simp), fun _ => ⟨rfl, rfl⟩⟩

/-- C13, witness: the node with the leaves "relay" and "pump". When both starts
succeed and the event is posted the result is `GN_RET_OK`, the status is Started and
the tasks are those of "relay" and "pump" in this order; when the start of "pump"
fails the result is `GN_RET_ERR_NODE_NOT_STARTED` and the root is as it was. -/
theorem gn_node_start_ok_iff_witness :
    (gn_node_start (fun _ => start_ok) ESP_OK conf_two_leaves []).1 = GN_RET_OK
    ∧ (gn_node_start (fun _ => start_ok) ESP_OK conf_two_leaves []).2.1
        = { conf_two_leaves with status := GN_CONFIG_STATUS_STARTED }
    ∧ (gn_node_start (fun _ => start_ok) ESP_OK conf_two_leaves []).2.2
        = [['r', 'e', 'l', 'a', 'y'], ['p', 'u', 'm', 'p']]
    ∧ (gn_node_start (fun i => if i = 1 then start_fails else start_ok) ESP_OK
        conf_two_leaves []).1 = GN_RET_ERR_NODE_NOT_STARTED
    ∧ (gn_node_start (fun i => if i = 1 then start_fails else start_ok) ESP_OK
        conf_two_leaves []).2.1 = conf_two_leaves :=
  have w := gn_node_start_ok_iff (fun _ => start_ok) ESP_OK conf_two_leaves []
  have hok := w.1.2 ⟨fun _ _ => ⟨rfl, rfl⟩, rfl⟩
  have v := (gn_node_start_ok_iff (fun i => if i = 1 then start_fails else start_ok)
    ESP_OK conf_two_leaves []).2.2 ⟨1, by decide, by decide⟩
  ⟨hok, (w.2.1 hok).1, (w.2.1 hok).2, v.1, v.2⟩

/-- C14, counterexample. The node holds "relay" and "pump", in this order, and the
task of "relay" cannot be created while the start of "pump" would succeed:
`gn_node_start` returns `GN_RET_ERR_NODE_NOT_STARTED` and no task exists afterwards;
the sibling "pump" behind the failing leaf is not started. -/
theorem gn_node_start_aborts_siblings :
    gn_node_start (fun i => if i = 0 then start_fails else start_ok) ESP_OK
        conf_two_leaves []
      = (GN_RET_ERR_NODE_NOT_STARTED, conf_two_leaves, []) := by
  decide

/-- C14, amended. When the leaf at position `k` is the first whose start fails,
`gn_node_start` returns `GN_RET_ERR_NODE_NOT_STARTED` at once: the configuration root
is as it was, the tasks created are those of the leaves in front of `k` (and that of
leaf `k` when only its publish failed), and no leaf behind `k` is started. -/
theorem gn_node_start_stops_at_first_failure (start : Nat → leaf_start_env)
    (event_post : esp_err_t) (conf : gn_config_t) (tasks : List CStr) (k : Nat)
    (hk : k < conf.node_config.leaves.length)
    (hgood : ∀ j, j < k →
      (start j).task_created = true ∧ (start j).mqtt_publish_leaf = GN_RET_OK)
    (hbad : ¬ ((start k).task_created = true ∧ (start k).mqtt_publish_leaf = GN_RET_OK)) :
    gn_node_start start event_post conf tasks
      = (GN_RET_ERR_NODE_NOT_STARTED, conf,
         tasks ++ (conf.node_config.leaves.take
            (if (start k).task_created then k + 1 else k)).map (·.name)) := by
  have h := node_start_loop_fail_at start conf.node_config.leaves 0 tasks k hk
    (by simpa using hgood) (by simpa using hbad)
  simp only [Nat.zero_add] at h
  simp [gn_node_start, h]

/-- C14, witness: the start of "relay", the first of the two leaves, fails. -/
theorem gn_node_start_stops_at_first_failure_witness :
    (0 < conf_two_leaves.node_config.leaves.length)
    ∧ ¬ (start_fails.task_created = true ∧ start_fails.mqtt_publish_leaf = GN_RET_OK)
    ∧ gn_node_start (fun i => if i = 0 then start_fails else start_ok) ESP_OK
        conf_two_leaves []
      = (GN_RET_ERR_NODE_NOT_STARTED, conf_two_leaves, []) :=
  ⟨by decide, by decide,
   gn_node_start_stops_at_first_failure (fun i => if i = 0 then start_fails else start_ok)
     ESP_OK conf_two_leaves [] 0 (by decide) (fun j hj => absurd hj (Nat.not_lt_zero j))
     (by decide)⟩

/-- C15. `gn_node_create` returns `NULL` if and only if the configuration handle is
`NULL`, the configuration has no broker client handle, or the name is `NULL`.
Otherwise it returns a node that is registered as the node of the configuration, whose
leaf list is empty (`gn_node_get_size` gives 0), and whose name, read back with
`gn_get_node_config_name`, is the name passed in whenever that name is shorter than
`GN_NODE_NAME_SIZE`. -/
theorem gn_node_create_spec (config : Option gn_config_root) (name : Option CStr) :
    ((gn_node_create config name).1 = none
      ↔ config = none ∨ (∃ c, config = some c ∧ c.mqtt_client = none) ∨ name = none)
    ∧ (∀ c n, config = some c → name = some n → c.mqtt_client ≠ none →
        (gn_node_create config name).2
            = some { c with node_config := (gn_node_create config name).1 }
        ∧ (gn_node_create config name).1 ≠ none
        ∧ gn_node_get_size (gn_node_create config name).1 = 0
        ∧ (n.length < GN_NODE_NAME_SIZE →
            gn_get_node_config_name (gn_node_create config name).1 = some n)) := by
  constructor
  · cases config with
    | none => simp [gn_node_create]
    | some c =>
      cases name with
      | none => simp [gn_node_create]
      | some n =>
        by_cases hc : c.mqtt_client = none <;> simp [gn_node_create, hc]
  · intro c n hc hn hclient
    subst hc hn
    simp only [gn_node_create, hclient, if_false]
    refine ⟨by simp, by simp, by simp [gn_node_get_size], ?_⟩
    intro hlen
    simp [gn_get_node_config_name, List.take_of_length_le (Nat.le_of_lt hlen)]

/-- C15, witness: the node "node" on a configuration with a broker client. -/
theorem gn_node_create_spec_witness :
    root_fresh.mqtt_client ≠ none
    ∧ (gn_node_create (some root_fresh) (some ['n', 'o', 'd', 'e'])).2
        = some { root_fresh with
                   node_config := (gn_node_create (some root_fresh)
                                     (some ['n', 'o', 'd', 'e'])).1 }
    ∧ (gn_node_create (some root_fresh) (some ['n', 'o', 'd', 'e'])).1 ≠ none
    ∧ gn_node_get_size (gn_node_create (some root_fresh) (some ['n', 'o', 'd', 'e'])).1 = 0
    ∧ gn_get_node_config_name (gn_node_create (some root_fresh)
        (some ['n', 'o', 'd', 'e'])).1 = some ['n', 'o', 'd', 'e'] :=
  have w := (gn_node_create_spec (some root_fresh) (some ['n', 'o', 'd', 'e'])).2
    root_fresh ['n', 'o', 'd', 'e'] rfl rfl (by decide)
  ⟨by decide, w.1, w.2.1, w.2.2.1, w.2.2.2 (by decide)⟩

/-- C16, the code at the failing input. With `GN_NODE_LEAVES_MAX_SIZE` at 64 and a
node that holds 63 leaves, one less than the maximum, `gn_leaf_create` with valid
arguments and a queue returns `NULL`, and the root, its node and the 63 leaves are as
they were. -/
theorem gn_leaf_create_refuses_last_place :
    gn_node_get_size root_63.node_config = 63
    ∧ gn_leaf_create 64 true root_63 (some ['p', 'u', 'm', 'p']) (some callback_plain) 4096
      = (none, root_63) :=
  ⟨by decide,
   gn_leaf_create_refused_below_capacity 64 true root_63
     { name := ['n', 'o', 'd', 'e'],
       leaves := List.replicate 63 (leaf_named ['r', 'e', 'l', 'a', 'y']) }
     (some ['p', 'u', 'm', 'p']) (some callback_plain) 4096 rfl (by decide)⟩

/-- C17, the code at the failing input. The leaf "relay" holds the parameters
"status_led" and "status", added in this order. The lookup of "status" returns the
parameter "status_led", not the parameter named "status"; the lookup of "stat", a name
no parameter has, returns that parameter too instead of `NULL`. -/
theorem lookup_matches_by_leading_characters :
    gn_leaf_param_add ESP_OK GN_RET_OK (some { leaf_two_status with params := [param_status_led] })
        (some (param_status GN_LEAF_PARAM_ACCESS_WRITE GN_LEAF_PARAM_STORAGE_VOLATILE))
      = (GN_RET_OK, some leaf_two_status)
    ∧ (gn_leaf_param_get_param_handle (some leaf_two_status)
        (some ['s', 't', 'a', 't', 'u', 's'])).map (·.param) = some param_status_led
    ∧ (gn_leaf_param_get_param_handle (some leaf_two_status)
        (some ['s', 't', 'a', 't'])).map (·.param) = some param_status_led
    ∧ (∀ q ∈ leaf_two_status.params, q.name ≠ ['s', 't', 'a', 't']) := by
  decide

/-- C19, counterexample. A change request for the parameter "level" of the leaf
"relay", which has the parameter "status" alone, returns `GN_RET_OK`, not a lookup
error; nothing is sent and the configuration root is as it was. -/
theorem change_request_for_unknown_param_returns_ok :
    gn_send_leaf_param_change_message true conf_relay ['r', 'e', 'l', 'a', 'y']
        (some ['l', 'e', 'v', 'e', 'l']) (some ['1']) 1
      = (GN_RET_OK, conf_relay) := by
  decide

/-- C19, amended. For a leaf the name resolves to and a parameter name that no
parameter of the leaf has, a change request with a non-empty payload returns
`GN_RET_OK`: no error is reported to the caller. No event is sent to the leaf and the
configuration root is as it was. -/
theorem change_request_for_unknown_param_ignored (queue_sent : Bool) (conf : gn_config_t)
    (i : Nat) (leaf : gn_leaf_config_t) (n : CStr) (message : CStr) (message_len : Nat)
    (hleaf : leaf_find_by_name leaf.name conf.node_config.leaves = some (i, leaf))
    (hno : ∀ q ∈ leaf.params, q.name ≠ n) (hlen : message_len ≠ 0) :
    gn_send_leaf_param_change_message queue_sent conf leaf.name (some n) (some message)
        message_len = (GN_RET_OK, conf) := by
  have hset := (leaf_find_by_name_some leaf.name conf.node_config.leaves i leaf hleaf).1
  simp [gn_send_leaf_param_change_message, hleaf, _gn_leaf_parameter_update, hlen,
    parameter_update_loop_no_match queue_sent leaf n message message_len leaf.params hno,
    hset]

/-- C19, witness: the request for "level" on the leaf "relay". -/
theorem change_request_for_unknown_param_ignored_witness :
    leaf_find_by_name ['r', 'e', 'l', 'a', 'y'] conf_relay.node_config.leaves
        = some (0, leaf_relay GN_LEAF_PARAM_ACCESS_WRITE GN_LEAF_PARAM_STORAGE_VOLATILE)
    ∧ (∀ q ∈ (leaf_relay GN_LEAF_PARAM_ACCESS_WRITE GN_LEAF_PARAM_STORAGE_VOLATILE).params,
        q.name ≠ ['l', 'e', 'v', 'e', 'l'])
    ∧ gn_send_leaf_param_change_message false conf_relay ['r', 'e', 'l', 'a', 'y']
        (some ['l', 'e', 'v', 'e', 'l']) (some ['1']) 1 = (GN_RET_OK, conf_relay) :=
  ⟨by decide, by decide,
   change_request_for_unknown_param_ignored false conf_relay 0
     (leaf_relay GN_LEAF_PARAM_ACCESS_WRITE GN_LEAF_PARAM_STORAGE_VOLATILE)
     ['l', 'e', 'v', 'e', 'l'] ['1'] 1 (by decide) (by decide) (by decide)⟩

/-- C20. When the texts fit in `GN_MQTT_MAX_TOPIC_LENGTH - 1` characters, the builders
give the base topic, a slash and the status suffix for the node status topic; the base
topic, a slash, the leaf name, a slash and the status suffix for the leaf status
topic; and the same with the command suffix for the leaf command topic. Hence two
leaves with different names, whose command topics fit, get different command topics. -/
theorem topic_builders_concatenate (M : mqtt_consts) (l l2 : gn_leaf_config_t)
    (hstatus : (M.CONFIG_GROWNODE_MQTT_BASE_TOPIC ++ ['/'] ++ M.GN_MQTT_STATUS_MESS).length
      ≤ M.GN_MQTT_MAX_TOPIC_LENGTH - 1)
    (hleaf : (M.CONFIG_GROWNODE_MQTT_BASE_TOPIC ++ ['/'] ++ l.name ++ ['/']
      ++ M.GN_MQTT_STATUS_MESS).length ≤ M.GN_MQTT_MAX_TOPIC_LENGTH - 1)
    (hcmd : (M.CONFIG_GROWNODE_MQTT_BASE_TOPIC ++ ['/'] ++ l.name ++ ['/']
      ++ M.GN_MQTT_COMMAND_MESS).length ≤ M.GN_MQTT_MAX_TOPIC_LENGTH - 1)
    (hcmd2 : (M.CONFIG_GROWNODE_MQTT_BASE_TOPIC ++ ['/'] ++ l2.name ++ ['/']
      ++ M.GN_MQTT_COMMAND_MESS).length ≤ M.GN_MQTT_MAX_TOPIC_LENGTH - 1) :
    _gn_mqtt_build_status_topic M
        = M.CONFIG_GROWNODE_MQTT_BASE_TOPIC ++ ['/'] ++ M.GN_MQTT_STATUS_MESS
    ∧ _gn_mqtt_build_leaf_status_topic M l
        = M.CONFIG_GROWNODE_MQTT_BASE_TOPIC ++ ['/'] ++ l.name ++ ['/']
            ++ M.GN_MQTT_STATUS_MESS
    ∧ _gn_mqtt_build_leaf_command_topic M l
        = M.CONFIG_GROWNODE_MQTT_BASE_TOPIC ++ ['/'] ++ l.name ++ ['/']
            ++ M.GN_MQTT_COMMAND_MESS
    ∧ (l.name ≠ l2.name →
        _gn_mqtt_build_leaf_command_topic M l ≠ _gn_mqtt_build_leaf_command_topic M l2) := by
  have e1 : _gn_mqtt_build_status_topic M
      = M.CONFIG_GROWNODE_MQTT_BASE_TOPIC ++ ['/'] ++ M.GN_MQTT_STATUS_MESS :=
    status_topic_of_fit _ _ _ hstatus
  have e2 : _gn_mqtt_build_leaf_status_topic M l
      = M.CONFIG_GROWNODE_MQTT_BASE_TOPIC ++ ['/'] ++ l.name ++ ['/']
          ++ M.GN_MQTT_STATUS_MESS :=
    leaf_topic_of_fit _ _ _ _ hleaf
  have e3 : _gn_mqtt_build_leaf_command_topic M l
      = M.CONFIG_GROWNODE_MQTT_BASE_TOPIC ++ ['/'] ++ l.name ++ ['/']
          ++ M.GN_MQTT_COMMAND_MESS :=
    leaf_topic_of_fit _ _ _ _ hcmd
  have e4 : _gn_mqtt_build_leaf_command_topic M l2
      = M.CONFIG_GROWNODE_MQTT_BASE_TOPIC ++ ['/'] ++ l2.name ++ ['/']
          ++ M.GN_MQTT_COMMAND_MESS :=
    leaf_topic_of_fit _ _ _ _ hcmd2
  refine ⟨e1, e2, e3, ?_⟩
  intro hne heq
  rw [e3, e4] at heq
  simp only [List.append_assoc, List.append_cancel_left_eq, List.append_cancel_right_eq,
    List.cons_append, List.nil_append] at heq
  have h1 : l.name ++ ['/'] ++ M.GN_MQTT_COMMAND_MESS
      = l2.name ++ ['/'] ++ M.GN_MQTT_COMMAND_MESS := by
    simpa using heq
  exact hne (List.append_cancel_right (List.append_cancel_right h1))

/-- C20, witness: the base topic "gn" and the leaves "relay" and "pump". -/
theorem topic_builders_concatenate_witness :
    _gn_mqtt_build_status_topic mqtt_consts_sample = ['g', 'n', '/', 's', 't', 's']
    ∧ _gn_mqtt_build_leaf_status_topic mqtt_consts_sample (leaf_named ['p', 'u', 'm', 'p'])
        = ['g', 'n', '/', 'p', 'u', 'm', 'p', '/', 's', 't', 's']
    ∧ _gn_mqtt_build_leaf_command_topic mqtt_consts_sample (leaf_named ['p', 'u', 'm', 'p'])
        = ['g', 'n', '/', 'p', 'u', 'm', 'p', '/', 'c', 'm', 'd']
    ∧ _gn_mqtt_build_leaf_command_topic mqtt_consts_sample (leaf_named ['p', 'u', 'm', 'p'])
        ≠ _gn_mqtt_build_leaf_command_topic mqtt_consts_sample
            (leaf_named ['r', 'e', 'l', 'a', 'y']) :=
  have w := topic_builders_concatenate mqtt_consts_sample (leaf_named ['p', 'u', 'm', 'p'])
    (leaf_named ['r', 'e', 'l', 'a', 'y']) (by decide) (by decide) (by decide) (by decide)
  ⟨w.1, w.2.1, w.2.2.1, w.2.2.2 (by decide)⟩

/-- C21, the code at the failing input. With the interval bounds 60 and 86400 and a
readable parameter, the watering-interval validator answers the proposed value 5 with
`GN_LEAF_PARAM_VALIDATOR_BELOW_MIN` and leaves the number 60 in the cell
`*param_value`, not the address of a double holding 60: the proposed value cannot be
read through the cell any more, and the validator cannot be applied to the clamped
value. The same holds above the upper bound. The watering-time validator, with the
bounds 1 and 120, leaves the address of its bound, and the clamped value passes. -/
theorem interval_validator_clamp_is_no_address :
    _gn_watering_interval_validator wat_bounds_sample GN_RET_OK (gn_value_ptr.object 5)
        = some (GN_LEAF_PARAM_VALIDATOR_BELOW_MIN, gn_value_ptr.number 60)
    ∧ (gn_value_ptr.number 60).deref = none
    ∧ _gn_watering_interval_validator wat_bounds_sample GN_RET_OK (gn_value_ptr.number 60)
        = none
    ∧ _gn_watering_interval_validator wat_bounds_sample GN_RET_OK (gn_value_ptr.object 90000)
        = some (GN_LEAF_PARAM_VALIDATOR_ABOVE_MAX, gn_value_ptr.number 86400)
    ∧ _gn_watering_time_validator wat_bounds_sample GN_RET_OK (gn_value_ptr.object (1 / 2))
        = some (GN_LEAF_PARAM_VALIDATOR_BELOW_MIN, gn_value_ptr.object 1)
    ∧ _gn_watering_time_validator wat_bounds_sample GN_RET_OK (gn_value_ptr.object 1)
        = some (GN_LEAF_PARAM_VALIDATOR_PASSED, gn_value_ptr.object 1) := by
  refine ⟨?_, rfl, rfl, ?_, ?_, ?_⟩ <;>
    simp [_gn_watering_interval_validator, _gn_watering_time_validator, wat_bounds_sample,
      gn_value_ptr.deref] <;> norm_num

/-- C22, the code at the failing input. With the watering-time bounds 1 and 120 and the
target-temperature bounds 10 and 35, the target-temperature validator passes the
proposed temperatures 50 and 5, which lie outside of the temperature bounds; it
answers above the maximum only from 120 on and below the minimum only under 1, and
then clamps to the temperature bounds 35 and 10. -/
theorem target_temp_validator_uses_time_bounds :
    _gn_watering_target_temp_validator wat_bounds_sample GN_RET_OK (gn_value_ptr.object 50)
        = some (GN_LEAF_PARAM_VALIDATOR_PASSED, gn_value_ptr.object 50)
    ∧ _gn_watering_target_temp_validator wat_bounds_sample GN_RET_OK (gn_value_ptr.object 5)
        = some (GN_LEAF_PARAM_VALIDATOR_PASSED, gn_value_ptr.object 5)
    ∧ _gn_watering_target_temp_validator wat_bounds_sample GN_RET_OK (gn_value_ptr.object 200)
        = some (GN_LEAF_PARAM_VALIDATOR_ABOVE_MAX, gn_value_ptr.object 35)
    ∧ _gn_watering_target_temp_validator wat_bounds_sample GN_RET_OK
          (gn_value_ptr.object (1 / 2))
        = some (GN_LEAF_PARAM_VALIDATOR_BELOW_MIN, gn_value_ptr.object 10)
    ∧ ¬ (50 : ℚ) ≤ wat_bounds_sample.MAX_WATERING_TARGET_TEMP
    ∧ ¬ wat_bounds_sample.MIN_WATERING_TARGET_TEMP ≤ (5 : ℚ) := by
  refine ⟨?_, ?_, ?_, ?_, ?_, ?_⟩ <;>
    simp [_gn_watering_target_temp_validator, wat_bounds_sample, gn_value_ptr.deref] <;>
    norm_num

/-- C23, the code at the failing input. The store holds `false` for the parameter
"status" of the leaf "relay", the double 20 for the parameter "wat_time" of the leaf
"wat", and the text "old" for the parameter "label" of the leaf "relay". The calls
`gn_leaf_param_init_bool(.., "status", true)`, `gn_leaf_param_init_double(..,
"wat_time", 22)` and `gn_leaf_param_init_string(.., "label", "new")` return
`GN_RET_OK` with the store, the parameters in memory and the event loop untouched: the
store still answers with the old values. -/
theorem init_keeps_old_stored_value :
    gn_leaf_param_init_bool env_ok st_status_stored
        (some (leaf_relay GN_LEAF_PARAM_ACCESS_WRITE GN_LEAF_PARAM_STORAGE_PERSISTED))
        (some ['s', 't', 'a', 't', 'u', 's']) true
      = some (GN_RET_OK,
          some (leaf_relay GN_LEAF_PARAM_ACCESS_WRITE GN_LEAF_PARAM_STORAGE_PERSISTED),
          st_status_stored)
    ∧ gn_storage_get env_ok st_status_stored.nvs
        (some (storage_key ['r', 'e', 'l', 'a', 'y'] ['s', 't', 'a', 't', 'u', 's']))
      = (GN_RET_OK, some (bool_bytes false))
    ∧ gn_leaf_param_init_double env_ok st_wat_time_stored (some leaf_wat)
        (some ['w', 'a', 't', '_', 't', 'i', 'm', 'e']) double_22
      = some (GN_RET_OK, some leaf_wat, st_wat_time_stored)
    ∧ gn_storage_get env_ok st_wat_time_stored.nvs
        (some (storage_key ['w', 'a', 't'] ['w', 'a', 't', '_', 't', 'i', 'm', 'e']))
      = (GN_RET_OK, some (double_bytes double_20))
    ∧ gn_leaf_param_init_string env_ok st_label_stored (some leaf_label)
        (some ['l', 'a', 'b', 'e', 'l']) (some ['n', 'e', 'w']) val_ref_sample
      = some (GN_RET_OK, some leaf_label, st_label_stored)
    ∧ gn_storage_get env_ok st_label_stored.nvs
        (some (storage_key ['r', 'e', 'l', 'a', 'y'] ['l', 'a', 'b', 'e', 'l']))
      = (GN_RET_OK, some [111, 108, 100]) := by
  refine ⟨?_, by decide, ?_, by decide, ?_, by decide⟩
  · exact init_bool_keeps_stored env_ok st_status_stored _ _ true
      ⟨[], param_status GN_LEAF_PARAM_ACCESS_WRITE GN_LEAF_PARAM_STORAGE_PERSISTED, []⟩
      (by decide) (by decide)
  · exact init_double_keeps_stored env_ok st_wat_time_stored _ _ double_22
      ⟨[], param_wat_time, []⟩ (by decide) (by decide)
  · exact init_string_keeps_stored env_ok st_label_stored _ _ _ val_ref_sample
      ⟨[], param_label, []⟩ (by decide) (by decide)

/-- C25, counterexample. A leaf "pump" is created in a node without leaves, with a
configuration callback that records in a parameter "listed" whether the node already
lists a leaf of that name. The parameter holds false: while the callback runs the node
has size 0 and does not list the leaf. After the call the node has size 1 and the
lookup of "pump" finds the leaf. -/
theorem leaf_callback_sees_node_without_leaf :
    ∃ l n1,
      gn_leaf_create 64 true root_empty_node (some ['p', 'u', 'm', 'p']) (some callback_probe)
          4096
        = (some l, { root_empty_node with node_config := some n1 })
      ∧ l.params.map (fun p => (p.name, p.param_val.v))
          = [(['l', 'i', 's', 't', 'e', 'd'], gn_val_t.b false)]
      ∧ (leaf_find_by_name ['p', 'u', 'm', 'p'] n1.leaves).map (·.2) = some l
      ∧ gn_node_get_size root_empty_node.node_config = 0
      ∧ gn_node_get_size (some n1) = 1 :=
  ⟨callback_probe { name := ['n', 'o', 'd', 'e'], leaves := [] }
      (_gn_leaf_config_create ['p', 'u', 'm', 'p']),
   { name := ['n', 'o', 'd', 'e'],
     leaves := [callback_probe { name := ['n', 'o', 'd', 'e'], leaves := [] }
                  (_gn_leaf_config_create ['p', 'u', 'm', 'p'])] },
   by decide, by decide, by decide, by decide, by decide⟩

/-- C25, amended. In `gn_leaf_create` the configuration callback runs before the leaf
is registered. Whenever the call returns a handle, the leaf behind it is what the
callback made of the new leaf when applied to the node as it was before the call: that
node does not yet hold the new leaf and its size does not count it. The leaf is
registered afterwards, as the last leaf of the node, behind the leaves the callback
saw, and the size of the node is then one more than the size the callback saw. -/
theorem leaf_callback_runs_before_registration (MAX : Nat) (queue_created : Bool)
    (config : gn_config_root) (name : Option CStr)
    (leaf_config : Option gn_leaf_config_callback) (task_size : Nat)
    (l : gn_leaf_config_t) (config1 : gn_config_root)
    (h : gn_leaf_create MAX queue_created config name leaf_config task_size
      = (some l, config1)) :
    ∃ n_c n cb,
      config.node_config = some n_c ∧ name = some n ∧ leaf_config = some cb
      ∧ l = cb n_c (_gn_leaf_config_create (n.take GN_LEAF_NAME_SIZE))
      ∧ config1 = { config with node_config := some { n_c with leaves := n_c.leaves ++ [l] } }
      ∧ gn_node_get_size config1.node_config = gn_node_get_size config.node_config + 1 := by
  unfold gn_leaf_create at h
  cases hn : config.node_config with
  | none => simp [hn] at h
  | some n_c =>
    cases name with
    | none => simp [hn] at h
    | some n =>
      cases leaf_config with
      | none => simp [hn] at h
      | some cb =>
        simp only [hn] at h
        split_ifs at h with h1 h2 h3
        · simp at h
        · simp at h
        · simp at h
        · simp only [Prod.mk.injEq, Option.some.injEq] at h
          obtain ⟨hl, hc⟩ := h
          refine ⟨n_c, n, cb, rfl, rfl, rfl, hl.symm, ?_, ?_⟩
          · rw [← hc, hl]
          · rw [← hc]
            simp [gn_node_get_size]

/-- C25, witness: the leaf "pump" created in a node without leaves, with room for 64
leaves. -/
theorem leaf_callback_runs_before_registration_witness :
    gn_leaf_create 64 true root_empty_node (some ['p', 'u', 'm', 'p']) (some callback_probe)
        4096
      = (some (callback_probe node_empty (_gn_leaf_config_create ['p', 'u', 'm', 'p'])),
         { root_empty_node with
             node_config := some { node_empty with
               leaves := [callback_probe node_empty
                            (_gn_leaf_config_create ['p', 'u', 'm', 'p'])] } })
    ∧ ∃ n_c n cb,
      root_empty_node.node_config = some n_c ∧ some ['p', 'u', 'm', 'p'] = some n
      ∧ some callback_probe = some cb
      ∧ callback_probe node_empty (_gn_leaf_config_create ['p', 'u', 'm', 'p'])
          = cb n_c (_gn_leaf_config_create (n.take GN_LEAF_NAME_SIZE))
      ∧ ({ root_empty_node with
             node_config := some { node_empty with
               leaves := [callback_probe node_empty
                            (_gn_leaf_config_create ['p', 'u', 'm', 'p'])] } }
            : gn_config_root)
          = { root_empty_node with
                node_config := some { n_c with leaves := n_c.leaves
                  ++ [callback_probe node_empty
                        (_gn_leaf_config_create ['p', 'u', 'm', 'p'])] } }
      ∧ gn_node_get_size
            ({ root_empty_node with
               node_config := some { node_empty with
                 leaves := [callback_probe node_empty
                              (_gn_leaf_config_create ['p', 'u', 'm', 'p'])] } }
              : gn_config_root).node_config
          = gn_node_get_size root_empty_node.node_config + 1 :=
  ⟨by decide,
   leaf_callback_runs_before_registration 64 true root_empty_node
     (some ['p', 'u', 'm', 'p']) (some callback_probe) 4096 _ _ (by decide)⟩

/-- C26. The thermal step of an iteration is the temperature comparison
(`wat_hcc_select`) followed by the cap (`wat_hcc_cap`). When the state after the
comparison is not Stop and the clock is more than `MAX_HCC_CYCLE_TIME_SEC` seconds
past the recorded cycle start, the cap sets the state to Stop and commands plate A,
plate B and the conditioning pump off, whatever the temperatures. The comparison
changes the recorded cycle start only when it enters Heating or Cooling from another
state, to the clock of that moment; when it stays in Heating or Cooling it changes
nothing. -/
theorem hcc_cycle_time_is_capped (K : wat_consts) (data : gn_watering_control_data_t)
    (p_wat_temp p_wat_t_temp : ℚ) (time_hcc_start time_us : Int) :
    ((wat_hcc_select data p_wat_temp p_wat_t_temp time_hcc_start).hcc_cycle ≠ HCC_STOP →
      time_us - (wat_hcc_select data p_wat_temp p_wat_t_temp time_hcc_start).hcc_cycle_start
        > K.MAX_HCC_CYCLE_TIME_SEC * 1000000 →
      (wat_hcc_cap K (wat_hcc_select data p_wat_temp p_wat_t_temp time_hcc_start)
          time_us).hcc_cycle = HCC_STOP
      ∧ (wat_hcc_cap K (wat_hcc_select data p_wat_temp p_wat_t_temp time_hcc_start)
          time_us).commands
        = (wat_hcc_select data p_wat_temp p_wat_t_temp time_hcc_start).commands
          ++ [(leaf_plt_a, false), (leaf_plt_b, false), (leaf_hcc_pump, false)])
    ∧ ((wat_hcc_select data p_wat_temp p_wat_t_temp time_hcc_start).hcc_cycle_start
          ≠ data.hcc_cycle_start →
        (wat_hcc_select data p_wat_temp p_wat_t_temp time_hcc_start).hcc_cycle ≠ HCC_STOP
        ∧ (wat_hcc_select data p_wat_temp p_wat_t_temp time_hcc_start).hcc_cycle
            ≠ data.hcc_cycle
        ∧ (wat_hcc_select data p_wat_temp p_wat_t_temp time_hcc_start).hcc_cycle_start
            = time_hcc_start)
    ∧ ((wat_hcc_select data p_wat_temp p_wat_t_temp time_hcc_start).hcc_cycle ≠ HCC_STOP →
        (wat_hcc_select data p_wat_temp p_wat_t_temp time_hcc_start).hcc_cycle
            = data.hcc_cycle →
        wat_hcc_select data p_wat_temp p_wat_t_temp time_hcc_start = data) := by
  refine ⟨?_, ?_, ?_⟩
  · intro hrun hlate
    simp [wat_hcc_cap, hrun, hlate, _gn_watering_control_stop_hcc]
  · intro hne
    rcases wat_hcc_select_cases data p_wat_temp p_wat_t_temp time_hcc_start
      with h | ⟨hs, h⟩ | ⟨hs, h⟩ | h
    · rw [h] at hne; exact absurd rfl hne
    · rw [h]
      exact ⟨by simp [_gn_watering_control_start_hcc_cooling],
        by simpa [_gn_watering_control_start_hcc_cooling] using fun e => hs e.symm,
        by simp [_gn_watering_control_start_hcc_cooling]⟩
    · rw [h]
      exact ⟨by simp [_gn_watering_control_start_hcc_heating],
        by simpa [_gn_watering_control_start_hcc_heating] using fun e => hs e.symm,
        by simp [_gn_watering_control_start_hcc_heating]⟩
    · rw [h] at hne
      exact absurd (by simp [_gn_watering_control_stop_hcc]) hne
  · intro hrun hsame
    rcases wat_hcc_select_cases data p_wat_temp p_wat_t_temp time_hcc_start
      with h | ⟨hs, h⟩ | ⟨hs, h⟩ | h
    · exact h
    · rw [h] at hsame
      exact absurd (by simpa [_gn_watering_control_start_hcc_cooling] using hsame.symm) hs
    · rw [h] at hsame
      exact absurd (by simpa [_gn_watering_control_start_hcc_heating] using hsame.symm) hs
    · rw [h] at hrun
      exact absurd (by simp [_gn_watering_control_stop_hcc]) hrun

/-- C26, witness: a supervisor heating since time 0, water at 30 degrees with a target
of 22, the clock at 601 seconds and a cap of 600 seconds. -/
theorem hcc_cycle_time_is_capped_witness :
    (wat_hcc_select wat_data_busy 30 22 5).hcc_cycle ≠ HCC_STOP
    ∧ (601000000 : Int) - (wat_hcc_select wat_data_busy 30 22 5).hcc_cycle_start
        > wat_consts_sample.MAX_HCC_CYCLE_TIME_SEC * 1000000
    ∧ (wat_hcc_cap wat_consts_sample (wat_hcc_select wat_data_busy 30 22 5)
        601000000).hcc_cycle = HCC_STOP
    ∧ (wat_hcc_cap wat_consts_sample (wat_hcc_select wat_data_busy 30 22 5)
        601000000).commands
      = (wat_hcc_select wat_data_busy 30 22 5).commands
        ++ [(leaf_plt_a, false), (leaf_plt_b, false), (leaf_hcc_pump, false)] := by
  have hsel : wat_hcc_select wat_data_busy 30 22 5 = wat_data_busy := by
    simp [wat_hcc_select, _gn_watering_control_hcc_temp_high,
      _gn_watering_control_hcc_temp_low, wat_data_busy]
    norm_num
  have hrun : (wat_hcc_select wat_data_busy 30 22 5).hcc_cycle ≠ HCC_STOP := by
    rw [hsel]; decide
  have hlate : (601000000 : Int) - (wat_hcc_select wat_data_busy 30 22 5).hcc_cycle_start
      > wat_consts_sample.MAX_HCC_CYCLE_TIME_SEC * 1000000 := by
    rw [hsel]; decide
  exact ⟨hrun, hlate,
    (hcc_cycle_time_is_capped wat_consts_sample wat_data_busy 30 22 5 601000000).1 hrun hlate⟩

/-- C27. After each of `_gn_watering_control_stop_hcc`,
`_gn_watering_control_start_hcc_heating` and `_gn_watering_control_start_hcc_cooling`,
from any state, the thermal actuation agrees with the thermal state: plate A is
commanded on exactly in Heating, plate B exactly in Cooling, the conditioning pump
exactly outside of Stop. The state `gn_watering_control_config` sets up (Stop, nothing
commanded) agrees too, and so does every state the supervisor reaches from it through
any number of invocations of `_gn_watering_callback` on any readings; in none of them
are both plates commanded on. -/
theorem thermal_actuation_exclusive (K : wat_consts) (data : gn_watering_control_data_t)
    (now : Int) (invocations : List (List wat_tick)) :
    wat_hcc_coherent (_gn_watering_control_stop_hcc data)
    ∧ wat_hcc_coherent (_gn_watering_control_start_hcc_heating data now)
    ∧ wat_hcc_coherent (_gn_watering_control_start_hcc_cooling data now)
    ∧ wat_hcc_coherent wat_data_init
    ∧ wat_hcc_coherent (wat_run K wat_data_init invocations)
    ∧ ¬ (wat_commanded (wat_run K wat_data_init invocations) leaf_plt_a = true
        ∧ wat_commanded (wat_run K wat_data_init invocations) leaf_plt_b = true) := by
  have h0 : wat_hcc_coherent wat_data_init := by
    simp [wat_hcc_coherent, wat_commanded, wat_data_init]
  exact ⟨coherent_stop_hcc data, coherent_start_hcc_heating data now,
    coherent_start_hcc_cooling data now, h0, coherent_run K invocations _ h0,
    coherent_exclusive _ (coherent_run K invocations _ h0)⟩

/-- C28. Every invocation of `_gn_watering_callback` returns, whatever the state and
the readings: the loop is left in its first iteration, either through the `break` of
a failing read, with the state untouched, or through the stop of line 425, with the
thermal cycle and the watering stopped. The readings of later iterations are not
looked at. -/
theorem watering_callback_returns (K : wat_consts) (data : gn_watering_control_data_t)
    (t : wat_tick) (ts : List wat_tick) :
    (_gn_watering_callback K data (t :: ts)).2 = true
    ∧ _gn_watering_callback K data (t :: ts) = _gn_watering_callback K data [t]
    ∧ ((wat_read t = none ∧ (_gn_watering_callback K data (t :: ts)).1 = data)
      ∨ ((wat_read t).isSome = true
        ∧ (_gn_watering_callback K data (t :: ts)).1
          = _gn_watering_control_stop_watering (_gn_watering_control_stop_hcc data))) := by
  cases h : wat_read t with
  | none =>
    simp [_gn_watering_callback, wat_iteration_of_read_none K data t h]
  | some r =>
    simp [_gn_watering_callback, wat_iteration_of_read K data t r h]

/-- C29. The task loop of `gn_watering_control_task` on an event `evt`. An event that
is not addressed to the watering-interval, the target-temperature or the active
parameter of the leaf (the handle is `NULL`, or the leaf name or the parameter name
differs) leaves the task as it is: leaf and parameters, services, locals and timer.
This covers a request for the watering time and every other name. A change request
addressed to the active parameter alone calls `gn_leaf_param_set_bool`, sets the local
`p_active` to whether the number requested is not 0, and calls the timer once:
`esp_timer_stop` exactly when the number is 0 and `p_active` was true,
`esp_timer_start_periodic` exactly when the number is not 0 and `p_active` was false,
no call otherwise. An event addressed to the watering-interval or the
target-temperature parameter makes no call on the timer and keeps `p_active`. -/
theorem task_change_request_frame (N : wat_names) (C : wat_libc) (env : gn_env)
    (task : wat_task_t) (evt : gn_leaf_event_t) :
    ((∀ q, task.data.param_watering_interval = some q →
        ¬ (evt.leaf_name = task.leaf_config.name ∧ evt.param_name = q.name)) →
      (∀ q, task.data.param_watering_t_temp = some q →
        ¬ (evt.leaf_name = task.leaf_config.name ∧ evt.param_name = q.name)) →
      (∀ q, task.data.param_active = some q →
        ¬ (evt.leaf_name = task.leaf_config.name ∧ evt.param_name = q.name)) →
      wat_task_event N C env task evt = task)
    ∧ (evt.id = GN_LEAF_PARAM_CHANGE_REQUEST_EVENT →
      (∀ q, task.data.param_watering_interval = some q →
        ¬ (evt.leaf_name = task.leaf_config.name ∧ evt.param_name = q.name)) →
      (∀ q, task.data.param_watering_t_temp = some q →
        ¬ (evt.leaf_name = task.leaf_config.name ∧ evt.param_name = q.name)) →
      (∃ q, task.data.param_active = some q
        ∧ evt.leaf_name = task.leaf_config.name ∧ evt.param_name = q.name) →
      (wat_task_event N C env task evt).timer
          = task.timer ++
            (if C.atoi evt.data = 0 ∧ task.p_active = true then
               [wat_timer_call.esp_timer_stop]
             else if C.atoi evt.data ≠ 0 ∧ task.p_active = false then
               [wat_timer_call.esp_timer_start_periodic task.p_wat_int_sec]
             else [])
      ∧ (wat_task_event N C env task evt).p_active = decide (C.atoi evt.data ≠ 0)
      ∧ (wat_task_event N C env task evt).st
          = (gn_leaf_param_set_bool env task.st (some task.leaf_config)
              (some N.GN_WAT_CTR_PARAM_ACTIVE)
              (if C.atoi evt.data = 0 then false else true)).2.2)
    ∧ (((∃ q, task.data.param_watering_interval = some q
          ∧ evt.leaf_name = task.leaf_config.name ∧ evt.param_name = q.name)
        ∨ (∃ q, task.data.param_watering_t_temp = some q
          ∧ evt.leaf_name = task.leaf_config.name ∧ evt.param_name = q.name)) →
      (wat_task_event N C env task evt).timer = task.timer
      ∧ (wat_task_event N C env task evt).p_active = task.p_active) := by
  refine ⟨?_, ?_, ?_⟩
  · intro h1 h2 h3
    have m1 := mask_ne_zero_of_not_addressed task.leaf_config evt _ h1
    have m2 := mask_ne_zero_of_not_addressed task.leaf_config evt _ h2
    have m3 := mask_ne_zero_of_not_addressed task.leaf_config evt _ h3
    unfold wat_task_event
    simp only [m1, m2, m3, if_false]
    split <;> rfl
  · intro hid h1 h2 h3
    have m1 := mask_ne_zero_of_not_addressed task.leaf_config evt _ h1
    have m2 := mask_ne_zero_of_not_addressed task.leaf_config evt _ h2
    have m3 := mask_eq_zero_of_addressed task.leaf_config evt _ h3
    unfold wat_task_event
    simp only [hid, m1, m2, m3, if_false, if_true]
    by_cases ha : C.atoi evt.data = 0
    · cases hp : task.p_active <;> simp [ha, hp]
    · cases hp : task.p_active <;> simp [ha, hp]
  · intro h
    by_cases hreq : evt.id = GN_LEAF_PARAM_CHANGE_REQUEST_EVENT
    · by_cases m1 : gn_common_leaf_event_mask_param (some evt)
          (task.data.param_watering_interval.map
            fun q => { leaf_config := task.leaf_config, param := q }) = 0
      · unfold wat_task_event
        simp only [hreq, m1, if_true, and_self]
      · have m2 : gn_common_leaf_event_mask_param (some evt)
            (task.data.param_watering_t_temp.map
              fun q => { leaf_config := task.leaf_config, param := q }) = 0 := by
          rcases h with h | h
          · exact absurd (mask_eq_zero_of_addressed task.leaf_config evt _ h) m1
          · exact mask_eq_zero_of_addressed task.leaf_config evt _ h
        unfold wat_task_event
        simp only [hreq, m1, m2, if_true, if_false, and_self]
    · unfold wat_task_event
      split
      · rename_i heq; exact absurd heq hreq
      · exact ⟨rfl, rfl⟩
      · exact ⟨rfl, rfl⟩

/-- C29, witness: a change request for the watering time, "wat_time", of the leaf
"wat" right after its configuration. -/
theorem task_change_request_frame_witness :
    task_sample.data.param_watering_time.map (·.name) = some evt_wat_time.param_name
    ∧ wat_task_event wat_names_sample libc_sample env_ok task_sample evt_wat_time
        = task_sample := by
  have hi : task_sample.data.param_watering_interval.map (·.name)
      = some ['w', 'a', 't', '_', 'i', 'n', 't'] := by decide
  have ht : task_sample.data.param_watering_t_temp.map (·.name)
      = some ['w', 'a', 't', '_', 't', 'e', 'm', 'p'] := by decide
  have ha : task_sample.data.param_active.map (·.name)
      = some ['a', 'c', 't', 'i', 'v', 'e'] := by decide
  have key : ∀ (p : Option gn_leaf_param_t) (n : CStr), p.map (·.name) = some n →
      n ≠ evt_wat_time.param_name →
      ∀ q, p = some q → ¬ (evt_wat_time.leaf_name = task_sample.leaf_config.name
        ∧ evt_wat_time.param_name = q.name) := by
    intro p n hp hn q hq hc
    subst hq
    simp only [Option.map_some', Option.some.injEq] at hp
    exact hn (hp ▸ hc.2.symm)
  exact ⟨by decide,
    (task_change_request_frame wat_names_sample libc_sample env_ok task_sample
      evt_wat_time).1 (key _ _ hi (by decide)) (key _ _ ht (by decide))
      (key _ _ ha (by decide))⟩

/-- C30. `gn_common_leaf_event_mask_param` returns 0 exactly when event and parameter
are both given, the event carries the name of the leaf the parameter belongs to, and
it carries the name of the parameter; in every other case it returns 1. So among the
parameters of one leaf, when their names are pairwise distinct, an event matches at
most one. -/
theorem event_mask_param_spec (evt : Option gn_leaf_event_t)
    (param : Option gn_leaf_param_ref) (leaf : gn_leaf_config_t) (e : gn_leaf_event_t) :
    (gn_common_leaf_event_mask_param evt param = 0
      ↔ ∃ e1 p, evt = some e1 ∧ param = some p ∧ e1.leaf_name = p.leaf_config.name
          ∧ e1.param_name = p.param.name)
    ∧ (gn_common_leaf_event_mask_param evt param ≠ 0
        → gn_common_leaf_event_mask_param evt param = 1)
    ∧ ((leaf.params.map (·.name)).Nodup →
        (leaf.params.filter fun p => decide (gn_common_leaf_event_mask_param (some e)
            (some { leaf_config := leaf, param := p }) = 0)).length ≤ 1) := by
  refine ⟨mask_eq_zero_iff evt param, ?_, mask_filter_le_one leaf e leaf.params⟩
  intro h
  rcases mask_zero_or_one evt param with h0 | h1
  · exact absurd h0 h
  · exact h1

/-- C30, witness: a change request for "status" of the leaf "relay", whose parameters
are "status_led" and "status"; the parameter "status_led" does not match. -/
theorem event_mask_param_spec_witness :
    (leaf_two_status.params.map (·.name)).Nodup
    ∧ (leaf_two_status.params.filter fun p => decide (gn_common_leaf_event_mask_param
          (some evt_relay_status) (some { leaf_config := leaf_two_status, param := p })
            = 0)).length ≤ 1
    ∧ gn_common_leaf_event_mask_param (some evt_relay_status)
        (some { leaf_config := leaf_two_status, param := param_status_led }) = 1 :=
  ⟨by decide,
   (event_mask_param_spec (some evt_relay_status)
      (some { leaf_config := leaf_two_status, param := param_status_led })
      leaf_two_status evt_relay_status).2.2 (by decide),
   (event_mask_param_spec (some evt_relay_status)
      (some { leaf_config := leaf_two_status, param := param_status_led })
      leaf_two_status evt_relay_status).2.1 (by decide)⟩

end GrowNode
